import Mathlib

/-!
# Dataset_UTILITY: the browser-side image generator

A shallow embedding of the JavaScript modules under
`ai_image_generator_web_DATAmonitor/src/static/js`:

* `modules/stateManager.js`   (`StateManager`)
* `modules/uiManager.js`      (`UiManager`)
* `modules/apiClient.js`      (`ApiClient`)
* `modules/imageGenerator.js` (`ImageGeneratorController`)
* `modules/apiConfigManager.js` (`ApiConfigManager`: `changeApiUrl`,
  `checkConnectionStatus` and the methods they call)

JavaScript values are a small inductive type (`JsVal`), statements with side
effects are functions in the state-and-exception monad `Js`, and an
asynchronous method (`generateImage`, `changeApiUrl`, `checkConnectionStatus`)
is split at its `await` into the part that runs up to the request and the part
that runs when the request settles. Where a method awaits `fetch` and then
`response.json()`, the second part starts when the body has been read.

What the embedding leaves out, once and for all:

* `console.log`, `console.warn`, `console.error` (no effect on the program);
* numbers are exact finite decimals or `NaN` (no rounding to a double, no
  infinities, no negative zero);
* object identity: where the program compares two objects, their contents are
  compared;
* in the embedding of the page (`StateManager`, `Callback`) a subscriber acts
  on the world outside the state manager, as the one subscriber of the program
  does; subscribers that subscribe, unsubscribe or set state while they are
  notified are embedded apart (`LiveStateManager`, `Behaviour`), with the loop
  of `forEach` over the array as it is at each round, and
  `live_setState_refines` relates the two embeddings;
* the fade-in animation of `animateResults` and the HTML/CSS assets.
-/

namespace DatasetUtility

/-! ## JavaScript values -/

/-- A JavaScript number: `NaN`, or the finite decimal `mant / 10 ^ scale`. -/
inductive JsNum where
  | nan
  | dec (mant : Int) (scale : Nat)
deriving Repr, DecidableEq

namespace JsNum

/-- The number written as an integer literal. -/
def ofInt (i : Int) : JsNum := dec i 0

/-- The global `isNaN` on a number. -/
def isNaN : JsNum → Bool
  | nan => true
  | dec _ _ => false

/-- The comparison `a < b` on numbers; false as soon as one side is `NaN`. -/
def lt : JsNum → JsNum → Bool
  | dec m s, dec n t => decide (m * 10 ^ t < n * 10 ^ s)
  | _, _ => false

/-- The comparison `a > b` on numbers. -/
def gt (a b : JsNum) : Bool := lt b a

/-- The comparison `a === b` on numbers; `NaN` equals nothing. -/
def eq : JsNum → JsNum → Bool
  | dec m s, dec n t => decide (m * 10 ^ t = n * 10 ^ s)
  | _, _ => false

/-- The digits of `n`, padded with zeros on the left to `width` characters. -/
def padDigits (width n : Nat) : String :=
  let ds := (Nat.toDigits 10 n)
  String.mk (List.replicate (width - ds.length) (Char.ofNat 48) ++ ds)

/-- Drops the zeros at the end of a decimal fraction: `m / 10 ^ s` with `s` as
small as possible. -/
def stripZeros : Nat → Nat → Nat × Nat
  | m, 0 => (m, 0)
  | m, s + 1 => if m % 10 = 0 then stripZeros (m / 10) s else (m, s + 1)

/-- The conversion of a number to a string (`String(x)`, a template literal),
for the decimals that JavaScript prints without an exponent and as they are
written (integers below 10 ^ 21, decimals of a few digits): no exponent is
printed, nor the shortest digits that give the same double. -/
def toStr : JsNum → String
  | nan => "NaN"
  | dec m s =>
    let (a, t) := stripZeros m.natAbs s
    let sign := if m < 0 then "-" else ""
    if t = 0 then sign ++ toString a
    else sign ++ toString (a / 10 ^ t) ++ "." ++ padDigits t (a % 10 ^ t)

/-- The method `x.toFixed(1)`, for numbers below 10 ^ 21 in absolute value: the
decimal with one digit after the point that is nearest to the decimal as it is
written, the larger one on a tie. JavaScript rounds the double that is nearest
to the written decimal instead, which is another digit only when the written
decimal is such a tie (92.35 is printed 92.3 there and 92.4 here). -/
def toFixed1 : JsNum → String
  | nan => "NaN"
  | dec m s =>
    let n := (2 * 10 * m.natAbs + 10 ^ s) / (2 * 10 ^ s)
    let sign := if m < 0 then "-" else ""
    sign ++ toString (n / 10) ++ "." ++ toString (n % 10)

end JsNum

/-- A JavaScript value as the program meets it: what `JSON.parse` yields, plus
`undefined` and the built-in functions and objects every object inherits
(`native`). -/
inductive JsVal where
  | undefined
  | null
  | bool (b : Bool)
  | num (n : JsNum)
  | str (s : String)
  | arr (items : List JsVal)
  | obj (fields : List (String × JsVal))
  | native (name : String)
deriving Repr

/-- The own properties of an object, in insertion order. -/
abbrev JsObj := List (String × JsVal)

/-- What a `throw` carries: a `TypeError` raised by the language itself, or a
value thrown by the program. -/
inductive JsThrown where
  | typeError (message : String)
  | value (v : JsVal)
deriving Repr

namespace JsVal

/-- An integer as a JavaScript value. -/
def int (i : Int) : JsVal := num (JsNum.ofInt i)

/-- The conversion to a boolean that `if`, `!`, `&&` and `||` apply. -/
def truthy : JsVal → Bool
  | undefined => false
  | null => false
  | bool b => b
  | num JsNum.nan => false
  | num (JsNum.dec m _) => decide (m ≠ 0)
  | str s => decide (s ≠ "")
  | arr _ => true
  | obj _ => true
  | native _ => true

/-- The operator `a || b`. -/
def or (a b : JsVal) : JsVal := if a.truthy then a else b

mutual
/-- The two values have the same contents. -/
def same : JsVal → JsVal → Bool
  | undefined, undefined => true
  | null, null => true
  | bool a, bool b => a == b
  | num a, num b => decide (a = b)
  | str a, str b => a == b
  | arr a, arr b => sameItems a b
  | obj a, obj b => sameFields a b
  | native a, native b => a == b
  | _, _ => false
/-- The items of two arrays have pairwise the same contents. -/
def sameItems : List JsVal → List JsVal → Bool
  | [], [] => true
  | x :: xs, y :: ys => same x y && sameItems xs ys
  | _, _ => false
/-- The fields of two objects are pairwise the same key with the same contents. -/
def sameFields : List (String × JsVal) → List (String × JsVal) → Bool
  | [], [] => true
  | (k, x) :: xs, (l, y) :: ys => k == l && same x y && sameFields xs ys
  | _, _ => false
end

/-- The operator `a === b`: equality of numbers on numbers (`NaN` equals
nothing), equality on the other primitive values. On objects and arrays `===`
is identity; the embedding has none and compares the contents: in the program
the two sides are the same object, or a response and `null`. -/
def strictEq : JsVal → JsVal → Bool
  | num a, num b => JsNum.eq a b
  | a, b => same a b

mutual
/-- The conversion to a string (`String(v)`, a template literal, the text jQuery
writes into an element). -/
def toStr : JsVal → String
  | undefined => "undefined"
  | null => "null"
  | bool true => "true"
  | bool false => "false"
  | num n => n.toStr
  | str s => s
  | arr items => joinItems items
  | obj _ => "[object Object]"
  | native name => "function " ++ name ++ "() \x7b [native code] \x7d"
/-- The method `Array.prototype.join` with the separator `,`. -/
def joinItems : List JsVal → String
  | [] => ""
  | [x] => itemStr x
  | x :: y :: rest => itemStr x ++ "," ++ joinItems (y :: rest)
/-- One item of a joined array: `null` and `undefined` give the empty string. -/
def itemStr : JsVal → String
  | undefined => ""
  | null => ""
  | bool true => "true"
  | bool false => "false"
  | num n => n.toStr
  | str s => s
  | arr items => joinItems items
  | obj _ => "[object Object]"
  | native name => "function " ++ name ++ "() \x7b [native code] \x7d"
end

/-- The names every object inherits from `Object.prototype`. -/
def objectPrototypeKeys : List String :=
  ["constructor", "__defineGetter__", "__defineSetter__", "hasOwnProperty",
   "__lookupGetter__", "__lookupSetter__", "isPrototypeOf", "propertyIsEnumerable",
   "toString", "valueOf", "__proto__", "toLocaleString"]

/-- What a property lookup finds on the prototype chain when the object has no
own property `key`: a built-in for the names of `Object.prototype`, `undefined`
otherwise. -/
def inherited (key : String) : JsVal :=
  if key ∈ objectPrototypeKeys then native key else undefined

/-- The length of a string: its number of UTF-16 code units. -/
def utf16Length (s : String) : Nat :=
  s.data.foldl (fun n c => n + (if c.toNat < 65536 then 1 else 2)) 0

/-- The property `v.key` (`v[key]`) of a value other than `undefined` and
`null`: an object yields its own property or what it inherits. On arrays and
strings only `length` is modelled beside the names inherited from
`Object.prototype` (no index, no method of `Array.prototype` or
`String.prototype`). -/
def propOf (v : JsVal) (key : String) : JsVal :=
  match v with
  | undefined => undefined
  | null => undefined
  | obj fields => (fields.lookup key).getD (inherited key)
  | arr items => if key = "length" then int items.length else inherited key
  | str s => if key = "length" then int (utf16Length s) else inherited key
  | _ => inherited key

/-- The property lookup `v.key` (`v[key]`): a `TypeError` on `undefined` and
`null`, the property otherwise. -/
def getProp (v : JsVal) (key : String) : Except JsThrown JsVal :=
  match v with
  | undefined =>
    .error (.typeError ("Cannot read properties of undefined (reading " ++ key ++ ")"))
  | null => .error (.typeError ("Cannot read properties of null (reading " ++ key ++ ")"))
  | v => .ok (propOf v key)

/-- The expression `v && v.key`: `v` itself when it is falsy. -/
def andProp (v : JsVal) (key : String) : JsVal :=
  if v.truthy then propOf v key else v

/-- The assignment `o[k] = v` on the own properties: an existing key keeps its
place, a new key goes to the end. -/
def setField (k : String) (v : JsVal) : JsObj → JsObj
  | [] => [(k, v)]
  | (k', v') :: rest =>
    if k' = k then (k, v) :: rest else (k', v') :: setField k v rest

/-- The object literal with two spreads: the properties of `a`, then those of
`b` assigned over them one by one. -/
def spread (a b : JsObj) : JsObj :=
  b.foldl (fun acc kv => setField kv.1 kv.2 acc) a

/-- The white space that `trim`, `parseInt` and the conversion of a string to a
number skip: white space and line terminators of the language. -/
def isJsWhitespace (c : Char) : Bool :=
  c.toNat ∈ [9, 10, 11, 12, 13, 32, 160, 5760, 8232, 8233, 8239, 8287, 12288, 65279]
    || (8192 ≤ c.toNat && c.toNat ≤ 8202)

/-- The method `String.prototype.trim` on the characters of a string. -/
def trimChars (cs : List Char) : List Char :=
  ((cs.dropWhile isJsWhitespace).reverse.dropWhile isJsWhitespace).reverse

/-- The method `String.prototype.trim`. -/
def jsTrim (s : String) : String := String.mk (trimChars s.data)

/-- The value of a run of decimal digits. -/
def digitsValue (ds : List Char) : Nat :=
  ds.foldl (fun acc c => acc * 10 + (c.toNat - 48)) 0

/-- Splits an optional sign off the front: the sign as a factor, and the rest. -/
def splitSign : List Char → Int × List Char
  | '-' :: rest => (-1, rest)
  | '+' :: rest => (1, rest)
  | rest => (1, rest)

/-- The global `parseInt(s, 10)`: leading white space, an optional sign, then
as many decimal digits as there are; `NaN` when there is none. -/
def parseInt10 (s : String) : JsNum :=
  let (sign, body) := splitSign (s.data.dropWhile isJsWhitespace)
  let ds := body.takeWhile Char.isDigit
  if ds = [] then JsNum.nan else JsNum.dec (sign * digitsValue ds) 0

/-- The conversion of a string to a number, for the decimal literals without
an exponent (`12`, `-1.5`, `.5`, `5.`); the empty string is 0. Literals with an
exponent, `0x`/`0o`/`0b` literals and `Infinity` are not modelled (`NaN`). -/
def strToNum (s : String) : JsNum :=
  let cs := trimChars s.data
  if cs = [] then JsNum.dec 0 0
  else
    let (sign, body) := splitSign cs
    let ip := body.takeWhile Char.isDigit
    match body.dropWhile Char.isDigit with
    | [] => if ip = [] then JsNum.nan else JsNum.dec (sign * digitsValue ip) 0
    | '.' :: fr =>
      if fr.all Char.isDigit && (!ip.isEmpty || !fr.isEmpty) then
        JsNum.dec (sign * digitsValue (ip ++ fr)) fr.length
      else JsNum.nan
    | _ => JsNum.nan

/-- The conversion to a number that `<` and `>` apply to an operand. -/
def toNumber : JsVal → JsNum
  | undefined => JsNum.nan
  | null => JsNum.dec 0 0
  | bool b => if b then JsNum.dec 1 0 else JsNum.dec 0 0
  | num n => n
  | str s => strToNum s
  | arr items => strToNum (joinItems items)
  | obj _ => JsNum.nan
  | native _ => JsNum.nan

end JsVal

/-! ## Statements: state and exceptions -/

/-- A JavaScript statement or expression over the mutable state `σ`: it ends
normally with a value or abruptly with a thrown value, and in both cases leaves
the state it has reached. -/
def Js (σ : Type) (α : Type) : Type := σ → Except JsThrown α × σ

namespace Js

variable {σ τ α β : Type}

/-- Normal completion with a value. -/
def ret (a : α) : Js σ α := fun s => (.ok a, s)

/-- Sequencing: the rest runs only after a normal completion. -/
def andThen (x : Js σ α) (f : α → Js σ β) : Js σ β := fun s =>
  match x s with
  | (.ok a, s') => f a s'
  | (.error e, s') => (.error e, s')

instance : Monad (Js σ) where
  pure := ret
  bind := andThen

/-- The statement `throw e`. -/
def throwJs (e : JsThrown) : Js σ α := fun s => (.error e, s)

/-- Reads the state. -/
def read : Js σ σ := fun s => (.ok s, s)

/-- Updates the state. -/
def update (f : σ → σ) : Js σ Unit := fun s => (.ok (), f s)

/-- Lifts the evaluation of an expression that may throw. -/
def eval (r : Except JsThrown α) : Js σ α := fun s => (r, s)

/-- The statement `try { body } catch (e) { handler }`. -/
def tryCatchJs (body : Js σ α) (handler : JsThrown → Js σ α) : Js σ α := fun s =>
  match body s with
  | (.ok a, s') => (.ok a, s')
  | (.error e, s') => handler e s'

/-- The statement `try { body } finally { cleanup }`: the cleanup runs after
the body however the body ends; if the cleanup throws, that is the outcome. -/
def tryFinallyJs (body : Js σ α) (cleanup : Js σ Unit) : Js σ α := fun s =>
  match body s with
  | (r, s') =>
    match cleanup s' with
    | (.ok _, s'') => (r, s'')
    | (.error e, s'') => (.error e, s'')

/-- The loop of `forEach` from the index `index` on. -/
def forEachFrom (index : Nat) (items : List α) (callback : α → Nat → Js σ Unit) :
    Js σ Unit :=
  match items with
  | [] => ret ()
  | x :: rest => andThen (callback x index) (fun _ => forEachFrom (index + 1) rest callback)

/-- The method `Array.prototype.forEach`: the callback runs on each item and
its index, in order; an exception that escapes the callback ends the loop and
escapes. -/
def forEach (items : List α) (callback : α → Nat → Js σ Unit) : Js σ Unit :=
  forEachFrom 0 items callback

/-- Runs a statement over a part of the state, given how to read that part and
how to write it back. -/
def focus (getPart : σ → τ) (setPart : τ → σ → σ) (x : Js τ α) : Js σ α := fun s =>
  match x (getPart s) with
  | (r, t) => (r, setPart t s)

end Js

open JsVal

/-! ## stateManager.js -/

/-- A subscriber of the kind the program has: a function object, known by its
identity `ident`, that is called with `(newState, prevState)`. It acts on the
world `ε` outside the state manager (the page, a log) and may throw; it does
not call back into the state manager. Subscribers that do are embedded with
`LiveStateManager`. -/
structure Callback (ε : Type) where
  ident : Nat
  call : JsObj → JsObj → Js ε Unit

/-- The fields of a `StateManager` instance. -/
structure StateManager (ε : Type) where
  state : JsObj
  subscribers : List (Callback ε)
  initialized : Bool

namespace StateManager

variable {ε : Type}

/-- The state object that the constructor builds. -/
def initialState : JsObj :=
  [("currentApi", str "imagen"),
   ("availableApis", obj []),
   ("isLoading", bool false),
   ("currentPreset", null),
   ("settings", obj [("modelType", str "l14"), ("indexType", str "cos"), ("searchNum", int 4)]),
   ("config", null),
   ("lastResult", null),
   ("queryImage", null),
   ("resultImages", arr [])]

/-- The constructor. -/
def new : StateManager ε :=
  { state := initialState, subscribers := [], initialized := false }

/-- The method `notifySubscribers(prevState, newState)`: each subscriber is
called with `(newState, prevState)` inside its own `try`/`catch`. The
subscribers leaving the array alone, the loop runs over the array as it is when
the loop starts (`LiveStateManager.notifyFrom` is the loop over the array as it
is at each round). -/
def notifySubscribers (prevState newState : JsObj) : Js (StateManager ε × ε) Unit := do
  let self ← Js.read
  Js.forEach self.1.subscribers (fun callback _ =>
    Js.tryCatchJs
      (Js.focus Prod.snd (fun env s => (s.1, env)) (callback.call newState prevState))
      (fun _ => Js.ret ()))

/-- The method `setState(newState)`. The copy `prevState` of the state is the
state itself, the embedding having no object identity. -/
def setState (newState : JsObj) : Js (StateManager ε × ε) Unit := do
  let self ← Js.read
  let prevState := self.1.state
  Js.update (fun s => ({ s.1 with state := spread s.1.state newState }, s.2))
  let self ← Js.read
  notifySubscribers prevState self.1.state

/-- The method `getState(key)`; `none` stands for a call without argument. -/
def getState (sm : StateManager ε) (key : Option String) : Except JsThrown JsVal :=
  match key with
  | some k => if (str k).truthy then getProp (obj sm.state) k else .ok (obj sm.state)
  | none => .ok (obj sm.state)

/-- The method `Array.prototype.indexOf` on the subscribers, counting from
`index`: the position of the first one that is `callback`, or -1. -/
def indexOfFrom (callback : Callback ε) : List (Callback ε) → Nat → Int
  | [], _ => -1
  | c :: rest, index =>
    if c.ident = callback.ident then (index : Int) else indexOfFrom callback rest (index + 1)

/-- The method `subscribe(callback)`, as far as it changes the manager. -/
def subscribe (callback : Callback ε) (sm : StateManager ε) : StateManager ε :=
  { sm with subscribers := sm.subscribers ++ [callback] }

/-- The function that `subscribe(callback)` returns. -/
def unsubscribe (callback : Callback ε) (sm : StateManager ε) : StateManager ε :=
  let index := indexOfFrom callback sm.subscribers 0
  if index > -1 then { sm with subscribers := sm.subscribers.eraseIdx index.toNat } else sm

/-- The method `setCurrentApi(apiName)`. -/
def setCurrentApi (apiName : String) : Js (StateManager ε × ε) Unit := do
  let self ← Js.read
  let availableApis ← Js.eval (getProp (obj self.1.state) "availableApis")
  let api ← Js.eval (getProp availableApis apiName)
  if api.truthy then setState [("currentApi", str apiName)] else Js.ret ()

/-- The own enumerable properties that a spread `...v` copies (of a string: one
per character, which is one per code unit in the Basic Multilingual Plane). -/
def ownProps : JsVal → JsObj
  | obj fields => fields
  | arr items => items.enum.map (fun p => (toString p.1, p.2))
  | str s => s.data.enum.map (fun p => (toString p.1, str (String.mk [p.2])))
  | _ => []

/-- The method `updateSettings(newSettings)`. -/
def updateSettings (newSettings : JsObj) : Js (StateManager ε × ε) Unit := do
  let self ← Js.read
  let settings ← Js.eval (getProp (obj self.1.state) "settings")
  setState [("settings", obj (spread (ownProps settings) newSettings))]

/-- The method `setLoading(isLoading)`. -/
def setLoading (isLoading : Bool) : Js (StateManager ε × ε) Unit :=
  setState [("isLoading", bool isLoading)]

/-- The method `setResult(result)`. -/
def setResult (result : JsVal) : Js (StateManager ε × ε) Unit := do
  let queryImage ← Js.eval (getProp result "queryImage")
  let vectorResult ← Js.eval (getProp result "vectorResult")
  setState [("lastResult", result),
            ("queryImage", JsVal.or queryImage null),
            ("resultImages", JsVal.or vectorResult (arr []))]

/-- The method `clearResults()`. -/
def clearResults : Js (StateManager ε × ε) Unit :=
  setState [("lastResult", null), ("queryImage", null), ("resultImages", arr [])]

/-- How the `fetch` of `/config` in `loadConfig` ends: it rejects, or it gives
a response with its `ok` flag and the outcome of `response.json()`. -/
inductive ConfigFetch where
  | rejected
  | response (ok : Bool) (json : Except JsThrown JsVal)

/-- The method `loadConfig()`, run from the point where the `fetch` has ended. -/
def loadConfig (fetched : ConfigFetch) : Js (StateManager ε × ε) Unit :=
  Js.tryCatchJs
    (match fetched with
     | .rejected => Js.throwJs (.typeError "Failed to fetch")
     | .response ok json =>
       if ok then do
         let data ← Js.eval json
         let config ← Js.eval (getProp data "config")
         let apis ← Js.eval (getProp data "apis")
         setState [("config", config), ("availableApis", apis)]
         Js.update (fun s => ({ s.1 with initialized := true }, s.2))
       else Js.ret ())
    (fun _ => Js.ret ())

/-- The method `isInitialized()`. -/
def isInitialized (sm : StateManager ε) : Bool := sm.initialized

end StateManager

/-! ### Subscribers that act on the state manager

A subscriber is any function: while it is notified it may call `subscribe`,
the function that `subscribe` returned (to unsubscribe), or `setState`. Here
the array `this.subscribers` holds the identities of the functions, what the
function with a given identity does when it is called is given by a table, and
`forEach` runs over the array as it is at each round. -/

/-- The fields `state` and `subscribers` of a `StateManager` instance, the
array holding the identities of the subscribed functions. -/
structure LiveStateManager where
  state : JsObj
  subscribers : List Nat

/-- What each function does when it is called with `(newState, prevState)`: by
the identity of the function, an action on the state manager and on the world
`ε` outside it, which may throw. -/
abbrev Behaviour (ε : Type) := Nat → JsObj → JsObj → Js (LiveStateManager × ε) Unit

namespace LiveStateManager

variable {ε : Type}

/-- The method `Array.prototype.indexOf` on the subscribers, counting from
`index`: the position of the first one that is `callback`, or -1. -/
def indexOfFrom (callback : Nat) : List Nat → Nat → Int
  | [], _ => -1
  | c :: rest, index =>
    if c = callback then (index : Int) else indexOfFrom callback rest (index + 1)

/-- The method `subscribe(callback)`, as far as it changes the manager. -/
def subscribe (callback : Nat) (sm : LiveStateManager) : LiveStateManager :=
  { sm with subscribers := sm.subscribers ++ [callback] }

/-- The function that `subscribe(callback)` returns. -/
def unsubscribe (callback : Nat) (sm : LiveStateManager) : LiveStateManager :=
  let index := indexOfFrom callback sm.subscribers 0
  if index > -1 then { sm with subscribers := sm.subscribers.eraseIdx index.toNat } else sm

/-- The loop of `this.subscribers.forEach` in `notifySubscribers`, with `rounds`
rounds left and `k` the index of the next one. The number of rounds is the
length that the array has when the loop starts; a round calls the element that
the array has at index `k` when the round starts, inside its `try`/`catch`, and
does nothing when the array no longer reaches that index. -/
def notifyFrom (behaviour : Behaviour ε) (prevState newState : JsObj) :
    Nat → Nat → Js (LiveStateManager × ε) Unit
  | 0, _ => Js.ret ()
  | rounds + 1, k => fun s =>
    match s.1.subscribers.get? k with
    | none => notifyFrom behaviour prevState newState rounds (k + 1) s
    | some callback =>
      Js.andThen
        (Js.tryCatchJs (behaviour callback newState prevState) (fun _ => Js.ret ()))
        (fun _ => notifyFrom behaviour prevState newState rounds (k + 1)) s

/-- The method `notifySubscribers(prevState, newState)`. -/
def notifySubscribers (behaviour : Behaviour ε) (prevState newState : JsObj) :
    Js (LiveStateManager × ε) Unit := fun s =>
  notifyFrom behaviour prevState newState s.1.subscribers.length 0 s

/-- The method `setState(newState)`. The objects `prevState` and `this.state`
are passed to the subscribers by value: a subscriber that assigns to a property
of its argument is not embedded. -/
def setState (behaviour : Behaviour ε) (newState : JsObj) :
    Js (LiveStateManager × ε) Unit := do
  let self ← Js.read
  let prevState := self.1.state
  Js.update (fun s => ({ s.1 with state := spread s.1.state newState }, s.2))
  let self ← Js.read
  notifySubscribers behaviour prevState self.1.state

end LiveStateManager

/-! ## const.js -/

/-- The constant `API_ENDPOINTS.CREATE`. -/
def API_ENDPOINTS_CREATE : String := "/create"

/-- The constant `BASE64_PREFIX`. -/
def BASE64_PREFIX : String := "data:image/png;base64,"

/-! ## uiManager.js -/

/-- An `img` element as `UiManager` creates it. -/
structure ImgElement where
  src : String
  cls : String
  alt : String
  loading : Option String
deriving Repr, DecidableEq

/-- A `div.result_block`: the image and the text of its `div.result_percent`. -/
structure ResultBlock where
  img : ImgElement
  percent : String
deriving Repr, DecidableEq

/-- The part of the page that the modules read and write: the four inputs of
the form, the error zone, the loading zone, the button, the two image zones
and the JSON viewer. -/
structure Ui where
  promptInput : String
  modelTypeSelect : String
  indexTypeSelect : String
  searchNumInput : String
  errorText : String
  errorVisible : Bool
  errorClasses : List String
  loadingVisible : Bool
  generatorBtnDisabled : Bool
  queryImageZone : List ImgElement
  resultImageZone : List ResultBlock
  jsonViewerVisible : Bool
  jsonViewerData : Option JsVal

namespace UiManager

/-- The method `showLoading()`. -/
def showLoading : Js Ui Unit :=
  Js.update (fun ui => { ui with loadingVisible := true, generatorBtnDisabled := true })

/-- The method `hideLoading()`. -/
def hideLoading : Js Ui Unit :=
  Js.update (fun ui => { ui with loadingVisible := false, generatorBtnDisabled := false })

/-- The method `toggleLoading(isLoading)`. -/
def toggleLoading (isLoading : JsVal) : Js Ui Unit :=
  if isLoading.truthy then showLoading else hideLoading

/-- The jQuery call `errorZone.text(message)`: `undefined` leaves the text as it
is, `null` empties it, any other value is written as a string. -/
def setErrorText (message : JsVal) (ui : Ui) : Ui :=
  match message with
  | undefined => ui
  | null => { ui with errorText := "" }
  | v => { ui with errorText := v.toStr }

/-- The method `clearError()`. -/
def clearError : Js Ui Unit :=
  Js.update (fun ui =>
    { ui with errorText := "", errorVisible := false,
              errorClasses := ui.errorClasses.filter (fun c => c ≠ "warning" ∧ c ≠ "error") })

/-- The method `clearResults()`. -/
def clearResults : Js Ui Unit := do
  Js.update (fun ui =>
    { ui with queryImageZone := [], resultImageZone := [], jsonViewerVisible := false })
  clearError

/-- The method `displayError(message)`. -/
def displayError (message : JsVal) : Js Ui Unit :=
  Js.update (fun ui => { setErrorText message ui with errorVisible := true })

/-- The method `displayWarning(message)`. -/
def displayWarning (message : JsVal) : Js Ui Unit :=
  Js.update (fun ui =>
    let ui1 := setErrorText message ui
    let removed := ui1.errorClasses.filter (fun c => c ≠ "error")
    { ui1 with
        errorClasses := if "warning" ∈ removed then removed else removed ++ ["warning"],
        errorVisible := true })

/-- The method `displayQueryImage(base64Image)`. -/
def displayQueryImage (base64Image : JsVal) : Js Ui Unit :=
  if !base64Image.truthy then Js.ret ()
  else
    let img : ImgElement :=
      { src := BASE64_PREFIX ++ base64Image.toStr, cls := "query_image",
        alt := "생성된 쿼리 이미지", loading := none }
    Js.update (fun ui => { ui with queryImageZone := [img] })

/-- The call `item.percents.toFixed(1)`: a `TypeError` unless `percents` is a
number. -/
def callToFixed1 (percents : JsVal) : Except JsThrown String :=
  match percents with
  | num n => .ok n.toFixed1
  | undefined => .error (.typeError "Cannot read properties of undefined (reading toFixed)")
  | null => .error (.typeError "Cannot read properties of null (reading toFixed)")
  | _ => .error (.typeError "item.percents.toFixed is not a function")

/-- The method `createResultBlock(item, index)`. -/
def createResultBlock (item : JsVal) (index : Nat) : Except JsThrown ResultBlock := do
  let image ← getProp item "image"
  let img : ImgElement :=
    { src := BASE64_PREFIX ++ image.toStr, cls := "result_image",
      alt := "결과 이미지 " ++ toString (index + 1), loading := some "lazy" }
  let percents ← getProp item "percents"
  let fixed ← callToFixed1 percents
  pure { img := img, percent := "유사도: " ++ fixed ++ "%" }

/-- The items over which `vectorResult.forEach` runs: a `TypeError` unless
`vectorResult` is an array. -/
def forEachItems (vectorResult : JsVal) : Except JsThrown (List JsVal) :=
  match vectorResult with
  | arr items => .ok items
  | _ => .error (.typeError "vectorResult.forEach is not a function")

/-- The method `displayResultImages(vectorResult)`, without the animation that
ends it. -/
def displayResultImages (vectorResult : JsVal) : Js Ui Unit :=
  if !vectorResult.truthy then Js.ret ()
  else do
    let length ← Js.eval (getProp vectorResult "length")
    if strictEq length (int 0) then Js.ret ()
    else do
      Js.update (fun ui => { ui with resultImageZone := [] })
      let items ← Js.eval (forEachItems vectorResult)
      Js.forEach items (fun item index => do
        let image ← Js.eval (getProp item "image")
        let percents ← Js.eval (if image.truthy then getProp item "percents" else .ok undefined)
        if image.truthy && !(strictEq percents undefined) then do
          let resultBlock ← Js.eval (createResultBlock item index)
          Js.update (fun ui => { ui with resultImageZone := ui.resultImageZone ++ [resultBlock] })
        else Js.ret ())

/-- The method `displayJson(data)`: the viewer shows `data`, through the plug-in
or, when the plug-in throws, as the text of `JSON.stringify`. -/
def displayJson (data : JsVal) : Js Ui Unit :=
  Js.update (fun ui => { ui with jsonViewerData := some data, jsonViewerVisible := true })

/-- The method `getCurrentSettings()`. -/
def getCurrentSettings (ui : Ui) : JsObj :=
  [("prompt", str (jsTrim ui.promptInput)),
   ("modelType", str ui.modelTypeSelect),
   ("indexType", str ui.indexTypeSelect),
   ("searchNum", num (parseInt10 ui.searchNumInput))]

end UiManager

/-! ## apiClient.js -/

/-- The options with which `makeRequest` calls `$.ajax`; `data` is the object
that `JSON.stringify` is applied to. -/
structure Request where
  url : String
  type : String
  timeout : Nat
  contentType : Option String
  data : Option JsObj

/-- What the error callback of `$.ajax` reads from its `jqXHR`; `parsed` is
what `JSON.parse(responseText)` returns, `none` when it throws. -/
structure JqXHR where
  status : Int
  statusText : String
  responseText : Option String
  parsed : Option JsVal

/-- How a request ends: the arguments of the `success` or of the `error`
callback of `$.ajax`. -/
inductive AjaxOutcome where
  | success (response : JsVal)
  | error (jqXHR : JqXHR) (textStatus : String) (errorThrown : String)

/-- The object that `parseError` returns. -/
structure ErrorInfo where
  status : Int
  statusText : String
  textStatus : String
  errorThrown : String
  response : JsVal

/-- The object that `handleApiError` returns. -/
structure ProcessedError where
  message : JsVal
  type : JsVal
  status : Int
  response : JsVal

/-- The object of a `ProcessedError` as a value. -/
def ProcessedError.toJs (e : ProcessedError) : JsVal :=
  obj [("message", e.message), ("type", e.type), ("status", int e.status),
       ("response", e.response)]

/-- The fields of an `ApiClient` instance. -/
structure ApiClient where
  baseUrl : String
  defaultTimeout : Nat

namespace ApiClient

/-- The constructor. -/
def new : ApiClient := { baseUrl := "", defaultTimeout := 600000 }

/-- The method `setTimeout(timeout)`. -/
def setTimeout (timeout : Nat) (client : ApiClient) : ApiClient :=
  { client with defaultTimeout := timeout }

/-- The options that `makeRequest(method, endpoint, data)` passes to `$.ajax`. -/
def makeRequest (client : ApiClient) (method endpoint : String) (data : Option JsObj) :
    Request :=
  { url := client.baseUrl ++ endpoint
    type := method
    timeout := client.defaultTimeout
    contentType :=
      if data.isSome && (method = "POST" || method = "PUT") then some "application/json"
      else none
    data := if data.isSome && (method = "POST" || method = "PUT") then data else none }

/-- The method `parseError(jqXHR, textStatus, errorThrown)`. -/
def parseError (jqXHR : JqXHR) (textStatus errorThrown : String) : ErrorInfo :=
  { status := jqXHR.status
    statusText := jqXHR.statusText
    textStatus := textStatus
    errorThrown := errorThrown
    response :=
      match jqXHR.responseText with
      | none => null
      | some text =>
        if (str text).truthy then
          match jqXHR.parsed with
          | some value => value
          | none => obj [("detail", str text)]
        else null }

/-- The method `handleApiError(error)`. -/
def handleApiError (error : ErrorInfo) : ProcessedError :=
  let processedError : ProcessedError :=
    { message := str "알 수 없는 오류가 발생했습니다."
      type := str "unknown"
      status := error.status
      response := error.response }
  if error.textStatus = "timeout" then
    { processedError with
        message := str "요청 시간이 초과되었습니다. 잠시 후 다시 시도해주세요."
        type := str "timeout" }
  else if error.textStatus = "error" then
    if error.status = 0 then
      { processedError with
          message := str "서버에 연결할 수 없습니다. 네트워크 연결을 확인해주세요."
          type := str "network" }
    else
      let detail := andProp error.response "detail"
      if detail.truthy then
        { processedError with
            message := detail
            type := JsVal.or (propOf error.response "error_type") (str "server_error") }
      else processedError
  else processedError

/-- The method `generateImage(data)` (no `apiName`) up to its `await`: the
request it sends. -/
def generateImageRequest (client : ApiClient) (data : JsObj) : Request :=
  makeRequest client "POST" API_ENDPOINTS_CREATE (some data)

/-- The method `generateImage(data)` from its `await` on: it returns the
response, or throws the error that `handleApiError` makes of the failure. -/
def generateImageSettled (outcome : AjaxOutcome) : Except JsThrown JsVal :=
  match outcome with
  | .success response => .ok response
  | .error jqXHR textStatus errorThrown =>
    .error (.value (handleApiError (parseError jqXHR textStatus errorThrown)).toJs)

end ApiClient

/-! ## imageGenerator.js -/

/-- The object that `collectInputData` returns. -/
structure InputData where
  prompt : String
  modelType : String
  indexType : String
  searchNum : JsNum
  querySend : Bool

/-- The input data as the object passed to `updateSettings` and to the API. -/
def InputData.toObj (data : InputData) : JsObj :=
  [("prompt", str data.prompt),
   ("modelType", str data.modelType),
   ("indexType", str data.indexType),
   ("searchNum", num data.searchNum),
   ("querySend", bool data.querySend)]

/-- The fields of an `ImageGeneratorController` with what they refer to: the
API client, the state manager `window.appState` when there is one, and the
page. `sent` lists the requests made so far, `inFlight` those that have not
ended yet. -/
structure World where
  isGenerating : Bool
  apiClient : ApiClient
  stateManager : Option (StateManager Ui)
  ui : Ui
  sent : List Request
  inFlight : List Request

namespace ImageGeneratorController

open UiManager

/-- Runs a method of `this.uiManager`. -/
def onUi {α : Type} (x : Js Ui α) : Js World α :=
  Js.focus (fun w => w.ui) (fun ui w => { w with ui := ui }) x

/-- The statement `if (this.stateManager) { body }`. -/
def onStateManager (body : Js (StateManager Ui × Ui) Unit) : Js World Unit := fun w =>
  match w.stateManager with
  | some sm =>
    match body (sm, w.ui) with
    | (r, s) => (r, { w with stateManager := some s.1, ui := s.2 })
  | none => (.ok (), w)

/-- The method `displayResults(result)`. -/
def displayResults (result : JsVal) : Js Ui Unit :=
  if !result.truthy || !(propOf result "result").truthy then Js.ret ()
  else do
    (if (propOf result "queryImage").truthy then displayQueryImage (propOf result "queryImage")
     else Js.ret ())
    (if (propOf result "vectorResult").truthy
        && (toNumber (propOf (propOf result "vectorResult") "length")).gt (JsNum.ofInt 0) then
       displayResultImages (propOf result "vectorResult")
     else Js.ret ())
    displayJson result

/-- The arrow function that `setupStateSubscription` subscribes. -/
def stateSubscription (ident : Nat) : Callback Ui :=
  { ident := ident
    call := fun newState prevState => do
      (if !(strictEq (propOf (obj newState) "isLoading") (propOf (obj prevState) "isLoading")) then
         toggleLoading (propOf (obj newState) "isLoading")
       else Js.ret ())
      (if !(strictEq (propOf (obj newState) "lastResult") (propOf (obj prevState) "lastResult")) then
         displayResults (propOf (obj newState) "lastResult")
       else Js.ret ()) }

/-- The constructor, given `window.appState`, the identity of the arrow function
it subscribes, and the page. -/
def new (appState : Option (StateManager Ui)) (ident : Nat) (ui : Ui) : World :=
  { isGenerating := false
    apiClient := ApiClient.new
    stateManager := appState.map (StateManager.subscribe (stateSubscription ident))
    ui := ui
    sent := []
    inFlight := [] }

/-- The method `collectInputData()`. -/
def collectInputData (ui : Ui) : InputData :=
  { prompt := jsTrim ui.promptInput
    modelType := ui.modelTypeSelect
    indexType := ui.indexTypeSelect
    searchNum := parseInt10 ui.searchNumInput
    querySend := true }

/-- The method `validateInput(data)`. -/
def validateInput (data : InputData) : Js Ui Bool :=
  if !(str data.prompt).truthy then do
    displayError (str "프롬프트를 입력해주세요.")
    pure false
  else if data.searchNum.isNaN || data.searchNum.lt (JsNum.ofInt 1)
      || data.searchNum.gt (JsNum.ofInt 10) then do
    displayError (str "검색 개수는 1-10 사이의 숫자여야 합니다.")
    pure false
  else pure true

/-- The method `handleSuccess(result)`. -/
def handleSuccess (result : JsVal) : Js World Unit := do
  onStateManager (StateManager.setResult result)
  onUi (displayResults result)
  let limitation ← Js.eval (getProp result "_server_limitation")
  if limitation.truthy then onUi (displayWarning (propOf limitation "message"))
  else Js.ret ()

/-- The property `error.response` of a caught value. -/
def responseOf (error : JsThrown) : Except JsThrown JsVal :=
  match error with
  | .typeError _ => .ok undefined
  | .value v => getProp v "response"

/-- The message that `handleError` picks for the payload `data` of a response. -/
def errorMessageOf (data : JsVal) : JsVal :=
  let errorMessage := str "이미지 생성 중 오류가 발생했습니다."
  let errorType := propOf data "error_type"
  if strictEq errorType (str "validation_error") then
    JsVal.or (propOf data "detail") (str "입력값이 유효하지 않습니다.")
  else if strictEq errorType (str "connection_error") then
    str "외부 API 서버에 연결할 수 없습니다. 네트워크를 확인해주세요."
  else if strictEq errorType (str "api_error") then
    str ("외부 API 오류 (" ++ (propOf data "status_code").toStr ++ "): "
      ++ (propOf data "detail").toStr)
  else JsVal.or (propOf data "detail") errorMessage

/-- The method `handleError(error)`. -/
def handleError (error : JsThrown) : Js World Unit := do
  let response ← Js.eval (responseOf error)
  let errorMessage :=
    if response.truthy then errorMessageOf response
    else str "이미지 생성 중 오류가 발생했습니다."
  onUi (displayError errorMessage)

/-- The `finally` block of `generateImage`. -/
def finallyBlock : Js World Unit := do
  Js.update (fun w => { w with isGenerating := false })
  onUi hideLoading
  onStateManager (StateManager.setLoading false)

/-- The `try` block of `generateImage` up to its `await`. The result is `false`
when the block has ended at the `return` after a failed validation, `true` when
it has sent the request and waits for it. -/
def tryBlockUntilAwait : Js World Bool := do
  let self ← Js.read
  let inputData := collectInputData self.ui
  let valid ← onUi (validateInput inputData)
  if !valid then pure false
  else do
    Js.update (fun w => { w with isGenerating := true })
    onStateManager (do
      StateManager.setLoading true
      StateManager.clearResults
      StateManager.updateSettings inputData.toObj)
    onUi UiManager.clearResults
    onUi showLoading
    let self ← Js.read
    let request := ApiClient.generateImageRequest self.apiClient inputData.toObj
    Js.update (fun w => { w with sent := w.sent ++ [request], inFlight := w.inFlight ++ [request] })
    pure true

/-- The method `generateImage()` from the call to the point where it waits for
the request or has ended. -/
def generateImage : Js World Unit := fun w =>
  if w.isGenerating then (.ok (), w)
  else
    match tryBlockUntilAwait w with
    | (.ok true, w1) => (.ok (), w1)
    | (.ok false, w1) => finallyBlock w1
    | (.error error, w1) => Js.tryFinallyJs (handleError error) finallyBlock w1

/-- The method `generateImage()` from its `await` on, given how the awaited
call `this.apiClient.generateImage(inputData)` has ended: the rest of the `try`
block, the `catch` block, the `finally` block. -/
def generateImageResumed (awaited : Except JsThrown JsVal) : Js World Unit :=
  Js.tryFinallyJs
    (Js.tryCatchJs
      (do
        let result ← Js.eval awaited
        handleSuccess result)
      (fun error => handleError error))
    finallyBlock

/-- The method `generateImage()` from the point where the request has ended. -/
def generateImageSettled (outcome : AjaxOutcome) : Js World Unit :=
  generateImageResumed (ApiClient.generateImageSettled outcome)

/-- The method `changeApi(apiName)`. -/
def changeApi (apiName : String) : Js World Unit :=
  onStateManager (StateManager.setCurrentApi apiName)

end ImageGeneratorController

/-! ## apiConfigManager.js -/

/-- The arguments of a call of `fetch`; `body` is the object that
`JSON.stringify` is applied to. -/
structure FetchRequest where
  url : String
  method : String
  headers : List (String × String)
  cache : Option String
  body : Option JsObj

/-- A response of `fetch`: its status line, and what the promise of
`response.json()` settles with. -/
structure FetchResponse where
  status : Nat
  statusText : String
  json : Except JsThrown JsVal

/-- The property `response.ok`: the status is in the range 200 to 299. -/
def FetchResponse.ok (response : FetchResponse) : Bool :=
  decide (200 ≤ response.status) && decide (response.status ≤ 299)

/-- How a call of `fetch` ends: the promise is rejected, or resolves with a
response. -/
inductive FetchOutcome where
  | rejected (error : JsThrown)
  | resolved (response : FetchResponse)

/-- What a callback that the module passes to `setTimeout` does. -/
inductive TimerTask where
  | clearMessage
  | removeFlash (flashClass : String)
  | removeSpinning
deriving Repr, DecidableEq

/-- A call of `setTimeout`: the delay in milliseconds and the callback. -/
structure Timeout where
  delay : Nat
  task : TimerTask
deriving Repr, DecidableEq

/-- An element of class `endpoint_btn`. -/
structure EndpointButton where
  textContent : String
  classList : List String
deriving Repr, DecidableEq

/-- The elements of the page that `ApiConfigManager` looks up, each `none` when
the page has no such element: the text of `current_api_url`, the value of
`custom_url_input`, the classes of `refresh_connection_btn` and of
`status_dot`, the classes and the text of `connection_status_text`, the text
and the colour of `error_zone`; and the buttons of class `endpoint_btn`. -/
structure ConfigPage where
  currentApiUrl : Option String
  endpointButtons : List EndpointButton
  customUrlInput : Option String
  refreshBtn : Option (List String)
  statusDot : Option (List String)
  statusText : Option (List String × String)
  errorZone : Option (String × String)

/-- The object `ApiConfigManager` and what it acts on: its fields, the page,
and the calls of `alert`, of `fetch` and of `setTimeout` made so far. -/
structure ConfigWorld where
  endpoints : JsVal
  currentUrl : JsVal
  connectionStatus : String
  page : ConfigPage
  alerts : List String
  fetches : List FetchRequest
  timeouts : List Timeout

namespace ApiConfigManager

/-- The method `classList.add(name)`. -/
def classListAdd (name : String) (classList : List String) : List String :=
  if name ∈ classList then classList else classList ++ [name]

/-- The method `classList.remove(name)`. -/
def classListRemove (name : String) (classList : List String) : List String :=
  classList.filter (fun c => c ≠ name)

/-- The method `updateCurrentUrlDisplay()`. -/
def updateCurrentUrlDisplay : Js ConfigWorld Unit :=
  Js.update (fun w =>
    { w with
      page := { w.page with
        currentApiUrl :=
          w.page.currentApiUrl.map (fun _ => (JsVal.or w.currentUrl (str "알 수 없음")).toStr) } })

/-- The search of `find(ep => ep.name === text)` in the items of an array. -/
def findByName (text : String) : List JsVal → Except JsThrown JsVal
  | [] => .ok undefined
  | ep :: rest => do
    let name ← getProp ep "name"
    if strictEq name (str text) then pure ep else findByName text rest

/-- The call `this.endpoints.find(ep => ep.name === text)`: a `TypeError`
unless `endpoints` is an array. -/
def findEndpoint (endpoints : JsVal) (text : String) : Except JsThrown JsVal :=
  match endpoints with
  | arr items => findByName text items
  | undefined => .error (.typeError "Cannot read properties of undefined (reading find)")
  | null => .error (.typeError "Cannot read properties of null (reading find)")
  | _ => .error (.typeError "this.endpoints.find is not a function")

/-- The loop of `updateButtonStates()` over the buttons: how it ends, and the
buttons as it leaves them. -/
def updateButtons (endpoints currentUrl : JsVal) :
    List EndpointButton → Except JsThrown Unit × List EndpointButton
  | [] => (.ok (), [])
  | button :: rest =>
    match findEndpoint endpoints button.textContent with
    | .error e => (.error e, button :: rest)
    | .ok endpoint =>
      let updated : EndpointButton :=
        if endpoint.truthy && strictEq (propOf endpoint "url") currentUrl then
          { button with classList := classListAdd "active" button.classList }
        else { button with classList := classListRemove "active" button.classList }
      ((updateButtons endpoints currentUrl rest).1,
        updated :: (updateButtons endpoints currentUrl rest).2)

/-- The method `updateButtonStates()`. -/
def updateButtonStates : Js ConfigWorld Unit := fun w =>
  ((updateButtons w.endpoints w.currentUrl w.page.endpointButtons).1,
    { w with
      page := { w.page with
        endpointButtons := (updateButtons w.endpoints w.currentUrl w.page.endpointButtons).2 } })

/-- The method `showMessage(message, type)`. -/
def showMessage (message : String) (type : String) : Js ConfigWorld Unit :=
  Js.update (fun w =>
    match w.page.errorZone with
    | some _ =>
      { w with
        page := { w.page with
          errorZone :=
            some (message,
              if type = "error" then "red" else if type = "success" then "green" else "blue") }
        timeouts := w.timeouts ++ [{ delay := 3000, task := .clearMessage }] }
    | none => { w with alerts := w.alerts ++ [message] })

/-- The method `updateConnectionStatusUI()`. -/
def updateConnectionStatusUI : Js ConfigWorld Unit :=
  Js.update (fun w =>
    match w.page.statusDot, w.page.statusText with
    | some _, some _ =>
      if w.connectionStatus = "connected" then
        { w with
          page := { w.page with
            statusDot := some (classListAdd "connected" ["status_dot"])
            statusText := some (classListAdd "connected" [], "연결됨") } }
      else if w.connectionStatus = "disconnected" then
        { w with
          page := { w.page with
            statusDot := some (classListAdd "disconnected" ["status_dot"])
            statusText := some (classListAdd "disconnected" [], "연결 실패") } }
      else
        { w with
          page := { w.page with
            statusDot := some (classListAdd "checking" ["status_dot"])
            statusText := some (classListAdd "checking" [], "연결 확인 중...") } }
    | _, _ => w)

/-- The method `flashStatusChange(newStatus)`. -/
def flashStatusChange (newStatus : String) : Js ConfigWorld Unit :=
  Js.update (fun w =>
    match w.page.statusDot with
    | none => w
    | some classList =>
      let flashClass := if newStatus = "connected" then "flash-success" else "flash-error"
      { w with
        page := { w.page with statusDot := some (classListAdd flashClass classList) }
        timeouts := w.timeouts ++ [{ delay := 600, task := .removeFlash flashClass }] })

/-- The method `setConnectionStatus(status)`. -/
def setConnectionStatus (status : String) : Js ConfigWorld Unit := do
  let self ← Js.read
  let previousStatus := self.connectionStatus
  Js.update (fun w => { w with connectionStatus := status })
  updateConnectionStatusUI
  if previousStatus ≠ status ∧ previousStatus ≠ "checking" then flashStatusChange status
  else Js.ret ()

/-- The request of `checkConnectionStatus`. -/
def statusRequest : FetchRequest :=
  { url := "/api-status", method := "GET", headers := [], cache := some "no-cache", body := none }

/-- The expression `await p` on the promise of a call of `fetch`. -/
def awaitFetch (outcome : FetchOutcome) : Except JsThrown FetchResponse :=
  match outcome with
  | .rejected error => .error error
  | .resolved response => .ok response

/-- The method `checkConnectionStatus(showAnimation)` from the call to the
point where it waits for its request. -/
def checkConnectionStatus (showAnimation : Bool) : Js ConfigWorld Unit := do
  setConnectionStatus "checking"
  (if showAnimation then
     Js.update (fun w =>
       { w with page := { w.page with refreshBtn := w.page.refreshBtn.map (classListAdd "spinning") } })
   else Js.ret ())
  Js.update (fun w => { w with fetches := w.fetches ++ [statusRequest] })

/-- The method `checkConnectionStatus(showAnimation)` from the point where its
request has ended and the body of the response has been read: the rest of the
`try` block, the `catch` block, the `finally` block. -/
def checkConnectionStatusResumed (showAnimation : Bool) (outcome : FetchOutcome) :
    Js ConfigWorld Unit :=
  Js.tryFinallyJs
    (Js.tryCatchJs
      (do
        let response ← Js.eval (awaitFetch outcome)
        let data ← Js.eval response.json
        let connected ← Js.eval
          (if response.ok then (getProp data "status").map (fun s => strictEq s (str "connected"))
           else .ok false)
        if connected then setConnectionStatus "connected"
        else setConnectionStatus "disconnected")
      (fun _ => setConnectionStatus "disconnected"))
    (if showAnimation then
       Js.update (fun w =>
         { w with timeouts := w.timeouts ++ [{ delay := 1000, task := .removeSpinning }] })
     else Js.ret ())

/-- The call `newUrl.startsWith(searchString)`: a `TypeError` unless `newUrl`
is a string. -/
def startsWith (newUrl : JsVal) (searchString : String) : Except JsThrown Bool :=
  match newUrl with
  | str s => .ok (searchString.data.isPrefixOf s.data)
  | _ => .error (.typeError "newUrl.startsWith is not a function")

/-- The request of `changeApiUrl(newUrl)`. -/
def changeRequest (newUrl : JsVal) : FetchRequest :=
  { url := "/change-api-url"
    method := "POST"
    headers := [("Content-Type", "application/json")]
    cache := none
    body := some [("url", newUrl)] }

/-- The object `new Error(message)`. -/
def newError (message : JsVal) : JsThrown :=
  .value (obj [("message", str message.toStr)])

/-- The property `error.message` of a caught value. -/
def messageOf (error : JsThrown) : Except JsThrown JsVal :=
  match error with
  | .typeError message => .ok (str message)
  | .value v => getProp v "message"

/-- The method `changeApiUrl(newUrl)` from the call to the point where it waits
for its request or has ended: the result is `true` when it has sent the request
and waits, `false` when it has ended at one of the two `return`s. -/
def changeApiUrl (newUrl : JsVal) : Js ConfigWorld Bool :=
  if !newUrl.truthy then do
    Js.update (fun w => { w with alerts := w.alerts ++ ["URL을 입력하세요."] })
    pure false
  else do
    let http ← Js.eval (startsWith newUrl "http://")
    -- the second call is evaluated only when the first has returned false
    let https ← Js.eval (if !http then startsWith newUrl "https://" else .ok true)
    if !http && !https then do
      Js.update (fun w =>
        { w with
          alerts := w.alerts
            ++ ["올바른 URL 형식이 아닙니다. http:// 또는 https://로 시작해야 합니다."] })
      pure false
    else do
      Js.update (fun w => { w with fetches := w.fetches ++ [changeRequest newUrl] })
      pure true

/-- The method `changeApiUrl(newUrl)` from the point where its request has
ended and the body of the response has been read: the rest of the `try` block
and the `catch` block. The call `this.checkConnectionStatus(true)` is not
awaited: it runs to the point where it waits for its own request. -/
def changeApiUrlResumed (newUrl : JsVal) (outcome : FetchOutcome) : Js ConfigWorld Unit :=
  Js.tryCatchJs
    (do
      let response ← Js.eval (awaitFetch outcome)
      let data ← Js.eval response.json
      if response.ok then do
        Js.update (fun w => { w with currentUrl := newUrl })
        updateCurrentUrlDisplay
        updateButtonStates
        Js.update (fun w =>
          { w with page := { w.page with customUrlInput := w.page.customUrlInput.map (fun _ => "") } })
        Js.tryCatchJs (checkConnectionStatus true) (fun _ => Js.ret ())
        showMessage ("API URL이 변경되었습니다: " ++ newUrl.toStr) "success"
      else do
        let detail ← Js.eval (getProp data "detail")
        Js.throwJs (newError (JsVal.or detail (str "API URL 변경 실패"))))
    (fun error => do
      let message ← Js.eval (messageOf error)
      showMessage ("API URL 변경 실패: " ++ message.toStr) "error")

end ApiConfigManager

/-! ## init.js -/

/-- What can happen on the page once `init.js` has run. -/
inductive Event where
  /-- A click on the button, or Enter in the prompt: `generateImage()`. -/
  | generate
  /-- The request that is in flight ends. -/
  | settled (outcome : AjaxOutcome)
  /-- The user edits the form. -/
  | edit (prompt modelType indexType searchNum : String)
  /-- The `change` handler of the two selects. -/
  | selectChanged
  /-- A call of `changeApi(apiName)`. -/
  | changeApi (apiName : String)
  /-- The `fetch` of a `loadConfig()` ends. -/
  | configFetched (fetched : StateManager.ConfigFetch)

open ImageGeneratorController in
/-- The world after an event; `none` when the event cannot happen (no request
is in flight that could end). -/
def step (event : Event) (w : World) : Option World :=
  match event with
  | .generate => some (generateImage w).2
  | .settled outcome =>
    match w.inFlight with
    | [] => none
    | _ :: rest => some (generateImageSettled outcome { w with inFlight := rest }).2
  | .edit prompt modelType indexType searchNum =>
    some { w with
      ui := { w.ui with
        promptInput := prompt
        modelTypeSelect := modelType
        indexTypeSelect := indexType
        searchNumInput := searchNum } }
  | .selectChanged =>
    some (onStateManager
      (StateManager.updateSettings (UiManager.getCurrentSettings w.ui)) w).2
  | .changeApi apiName => some (changeApi apiName w).2
  | .configFetched fetched => some (onStateManager (StateManager.loadConfig fetched) w).2

/-- The worlds that the page can be in: the one that the constructor leaves,
given a state manager to which nothing has subscribed yet (or none), and every
world that an event leads to from there. -/
inductive Reachable : World → Prop where
  | init (appState : Option (StateManager Ui)) (ident : Nat) (ui : Ui) :
      (∀ sm, appState = some sm → sm.subscribers = []) →
      Reachable (ImageGeneratorController.new appState ident ui)
  | step (event : Event) (w w1 : World) :
      Reachable w → step event w = some w1 → Reachable w1

/-! ## Notions used to state the properties -/

/-- The value of a number as a rational; `none` for `NaN`. -/
def JsNum.value : JsNum → Option ℚ
  | .nan => none
  | .dec m s => some ((m : ℚ) / 10 ^ s)

/-- The world after the subscribers have been called one after the other with
`(newState, prevState)`, whether they throw or not. -/
def runCallbacks {ε : Type} (subs : List (Callback ε)) (newState prevState : JsObj)
    (env : ε) : ε :=
  subs.foldl (fun e c => (c.call newState prevState e).2) env

/-- One call of a subscriber: who was called, and with which arguments. -/
structure CallRecord where
  ident : Nat
  newState : JsObj
  prevState : JsObj

/-- The subscriber `c` with a log beside it: each call does what `c` does and
adds a record of the call to the log. -/
def recording {ε : Type} (c : Callback ε) : Callback (ε × List CallRecord) :=
  { ident := c.ident
    call := fun newState prevState s =>
      match c.call newState prevState s.1 with
      | (r, env) => (r, (env, s.2 ++ [{ ident := c.ident, newState, prevState }])) }

/-- The manager with every subscriber replaced by its recording version. -/
def StateManager.recorded {ε : Type} (sm : StateManager ε) :
    StateManager (ε × List CallRecord) :=
  { state := sm.state, subscribers := sm.subscribers.map recording,
    initialized := sm.initialized }

/-- The statement leaves `f` of the state as it is, however it ends. -/
def Js.Preserves {σ α β : Type} (f : σ → β) (x : Js σ α) : Prop := ∀ s, f (x s).2 = f s

/-- The part of the page that showing results does not touch. -/
def chrome (ui : Ui) : String × Bool × List String × Bool × Bool :=
  (ui.errorText, ui.errorVisible, ui.errorClasses, ui.loadingVisible, ui.generatorBtnDisabled)

/-- A subscriber that does nothing. -/
def quietCallback (ident : Nat) : Callback Unit :=
  { ident := ident, call := fun _ _ => Js.ret () }

/-- The page with the loading zone hidden and the button enabled. -/
def hidden (ui : Ui) : Ui := { ui with loadingVisible := false, generatorBtnDisabled := false }

/-- The world that the `finally` block of `generateImage` leaves. -/
def afterFinally (w : World) : World :=
  match w.stateManager with
  | none => { w with isGenerating := false, ui := hidden w.ui }
  | some sm =>
    { w with
      isGenerating := false
      stateManager := some { sm with state := spread sm.state [("isLoading", bool false)] }
      ui := runCallbacks sm.subscribers (spread sm.state [("isLoading", bool false)]) sm.state
        (hidden w.ui) }

/-- The subscribers of the state manager of the page, if there is one. -/
def subsOf (w : World) : Option (List (Callback Ui)) :=
  w.stateManager.map (fun sm => sm.subscribers)

/-- What of a world neither the page nor the state manager holds. -/
def control (w : World) : Bool × ApiClient × List Request × List Request :=
  (w.isGenerating, w.apiClient, w.sent, w.inFlight)

/-- The input passes the checks of `validateInput`. -/
def InputData.valid (data : InputData) : Bool :=
  decide (data.prompt ≠ "") && !(data.searchNum.isNaN
    || data.searchNum.lt (JsNum.ofInt 1) || data.searchNum.gt (JsNum.ofInt 10))

/-- The message that `validateInput` displays for an input that fails. -/
def validationMessage (data : InputData) : String :=
  if data.prompt = "" then "프롬프트를 입력해주세요."
  else "검색 개수는 1-10 사이의 숫자여야 합니다."

/-- A page with a valid input in its form and nothing displayed. -/
def examplePage : Ui :=
  { promptInput := " a cat "
    modelTypeSelect := "l14"
    indexTypeSelect := "cos"
    searchNumInput := "4"
    errorText := ""
    errorVisible := false
    errorClasses := []
    loadingVisible := false
    generatorBtnDisabled := false
    queryImageZone := []
    resultImageZone := []
    jsonViewerVisible := false
    jsonViewerData := none }

/-- The world after `init.js` on the example page. -/
def exampleWorld : World :=
  ImageGeneratorController.new (some StateManager.new) 0 examplePage

/-- The example page with 11 as the number of results asked for. -/
def invalidWorld : World :=
  ImageGeneratorController.new (some StateManager.new) 0
    { examplePage with searchNumInput := "11" }

/-- An attempt of `generateImage` has been cleaned up: the flag `isGenerating`
is false, the loading zone is hidden, and the state manager, when there is
one, has `isLoading: false`. -/
def CleanedUp (w : World) : Prop :=
  w.isGenerating = false ∧ w.ui.loadingVisible = false
    ∧ ∀ sm, w.stateManager = some sm → sm.state.lookup "isLoading" = some (bool false)

/-- At most one request is in flight, and only while `isGenerating` is true. -/
def SingleFlight (w : World) : Prop :=
  w.inFlight.length ≤ 1 ∧ (w.inFlight ≠ [] → w.isGenerating = true)

/-- The subscribers of the page are those that the controller has subscribed:
no other module of the program subscribes to the state manager. -/
def AppSubscribers (w : World) : Prop :=
  ∀ sm, w.stateManager = some sm →
    ∀ c ∈ sm.subscribers, ∃ ident, c = ImageGeneratorController.stateSubscription ident

/-- The failure of the scenario: an HTTP 500 whose body is a JSON object with
`detail`, `error_type` and `status_code`. -/
def http500 : JqXHR :=
  { status := 500
    statusText := "Internal Server Error"
    responseText :=
      some "\x7b\"detail\": \"bad index\", \"error_type\": \"api_error\", \"status_code\": 500\x7d"
    parsed :=
      some (obj [("detail", str "bad index"), ("error_type", str "api_error"),
        ("status_code", int 500)]) }

/-- The state that the state manager of the page holds, if there is one. -/
def stateOf (w : World) : Option JsObj :=
  w.stateManager.map (fun sm => sm.state)

/-- The response of the scenario. -/
def exampleResponse : JsVal :=
  obj [("result", bool true), ("queryImage", str "AAAA"),
    ("vectorResult", arr [obj [("image", str "BBBB"), ("percents", num (.dec 92345 3))]])]

/-- The item has an image payload: its `image` is truthy. -/
def hasImage (item : JsVal) : Bool := (propOf item "image").truthy

/-- The item has a numeric similarity score: its `percents` is a number. -/
def hasNumericScore (item : JsVal) : Bool :=
  match propOf item "percents" with
  | num _ => true
  | _ => false

/-- The item has both fields. -/
def hasBothFields (item : JsVal) : Bool := hasImage item && hasNumericScore item

/-- The item has no `percents` at all. -/
def lacksScore (item : JsVal) : Bool :=
  match propOf item "percents" with
  | undefined => true
  | _ => false

/-- An item of the shape the back end sends: a value other than `undefined` and
`null` whose `percents`, if the item has an image, is a number or is absent. -/
def wellFormedItem (item : JsVal) : Bool :=
  (match item with
   | undefined => false
   | null => false
   | _ => true)
  && (!hasImage item || hasNumericScore item || lacksScore item)

/-- What the callback of `displayResultImages` does with one item: how it ends
and the blocks it appends to the result zone. -/
def renderItem (item : JsVal) (index : Nat) : Except JsThrown Unit × List ResultBlock :=
  match getProp item "image" with
  | .error e => (.error e, [])
  | .ok image =>
    if image.truthy then
      match getProp item "percents" with
      | .error e => (.error e, [])
      | .ok percents =>
        if !(strictEq percents undefined) then
          match UiManager.createResultBlock item index with
          | .error e => (.error e, [])
          | .ok resultBlock => (.ok (), [resultBlock])
        else (.ok (), [])
    else (.ok (), [])

/-- What the loop of `displayResultImages` does with the items from the index
`index` on: how it ends and the blocks it appends to the result zone. -/
def renderFrom (index : Nat) : List JsVal → Except JsThrown Unit × List ResultBlock
  | [] => (.ok (), [])
  | item :: rest =>
    match renderItem item index with
    | (.ok _, blocks) => ((renderFrom (index + 1) rest).1, blocks ++ (renderFrom (index + 1) rest).2)
    | (.error e, blocks) => (.error e, blocks)

/-- The requests made so far that went to `/change-api-url`. -/
def changeRequests (w : ConfigWorld) : List FetchRequest :=
  w.fetches.filter (fun r => r.url = "/change-api-url")

/-- One poll of the monitoring from its start to its end: the call
`checkConnectionStatus()` and, once its request has ended with `outcome`, the
rest of the method. -/
def poll (outcome : FetchOutcome) (w : ConfigWorld) : ConfigWorld :=
  (ApiConfigManager.checkConnectionStatusResumed false outcome
    (ApiConfigManager.checkConnectionStatus false w).2).2

/-- The flashes triggered so far, by the class of each: `flashStatusChange`
calls `setTimeout` once for each flash it shows. -/
def flashes (w : ConfigWorld) : List String :=
  w.timeouts.filterMap (fun t =>
    match t.task with
    | .removeFlash flashClass => some flashClass
    | _ => none)

/-- The manager as the file declares it, on a page that has every element the
module looks up and one endpoint button. -/
def exampleConfigWorld : ConfigWorld :=
  { endpoints := arr [obj [("name", str "local"), ("url", str "http://ok")]]
    currentUrl := str "http://old"
    connectionStatus := "checking"
    page :=
      { currentApiUrl := some "http://old"
        endpointButtons := [{ textContent := "local", classList := ["endpoint_btn"] }]
        customUrlInput := some "http://ok"
        refreshBtn := some []
        statusDot := some ["status_dot"]
        statusText := some ([], "")
        errorZone := some ("", "") }
    alerts := []
    fetches := []
    timeouts := [] }

/-- A request to `/api-status` answered with `status: connected`. -/
def connectedOutcome : FetchOutcome :=
  .resolved { status := 200, statusText := "OK", json := .ok (obj [("status", str "connected")]) }

/-- A request to `/api-status` answered with `status: disconnected`. -/
def disconnectedOutcome : FetchOutcome :=
  .resolved
    { status := 200, statusText := "OK", json := .ok (obj [("status", str "disconnected")]) }

/-- A response with status 200 whose body is not JSON: `response.json()`
rejects with a `SyntaxError`. -/
def unparsableOutcome : FetchOutcome :=
  .resolved
    { status := 200
      statusText := "OK"
      json := .error (.value (obj [("name", str "SyntaxError"),
        ("message", str "Unexpected end of JSON input")])) }

/-- The table `behaviour` with a log beside the world: each call of a function
does what the table says and adds a record of the call to the log. -/
def recordingBehaviour {ε : Type} (behaviour : Behaviour ε) :
    Behaviour (ε × List CallRecord) :=
  fun callback newState prevState s =>
    match behaviour callback newState prevState (s.1, s.2.1) with
    | (r, (sm, env)) =>
      (r, (sm, (env, s.2.2 ++ [{ ident := callback, newState, prevState }])))

/-- A table of functions that write their identity to a log when they are
called and then: function 0 unsubscribes itself; function 1 throws; function 2
calls `setState` with `b: 2` unless the new state has a `b`; function 4
unsubscribes itself and throws; the others do nothing more. `depth` bounds the
depth at which calls of `setState` by subscribers are nested. -/
def exampleBehaviour : Nat → Behaviour (List Nat)
  | 0 => fun _ _ _ => Js.ret ()
  | depth + 1 => fun callback newState _ => do
    Js.update (fun s => (s.1, s.2 ++ [callback]))
    if callback = 0 then
      Js.update (fun s => (LiveStateManager.unsubscribe 0 s.1, s.2))
    else if callback = 1 then
      Js.throwJs (.typeError "subscriber failed")
    else if callback = 2 then
      (if (newState.lookup "b").isNone then
         LiveStateManager.setState (exampleBehaviour depth) [("b", int 2)]
       else Js.ret ())
    else if callback = 4 then do
      Js.update (fun s => (LiveStateManager.unsubscribe 4 s.1, s.2))
      Js.throwJs (.typeError "subscriber failed")
    else Js.ret ()

/-! ## Lemmas on objects -/

theorem lookup_setField_same (k : String) (v : JsVal) (o : JsObj) :
    (setField k v o).lookup k = some v := by
  induction o with
  | nil => simp [setField, List.lookup]
  | cons kv rest ih =>
    obtain ⟨k', v'⟩ := kv
    by_cases h : k' = k
    · simp [setField, h, List.lookup]
    · have h' : (k == k') = false := by simpa using (fun e => h e.symm)
      simp [setField, h, List.lookup, h', ih]

theorem lookup_setField_other (k k' : String) (v : JsVal) (o : JsObj) (hne : k' ≠ k) :
    (setField k v o).lookup k' = o.lookup k' := by
  induction o with
  | nil =>
    have h' : (k' == k) = false := by simpa using hne
    simp [setField, List.lookup, h']
  | cons kv rest ih =>
    obtain ⟨k0, v0⟩ := kv
    by_cases h : k0 = k
    · subst h
      have h' : (k' == k0) = false := by simpa using hne
      simp [setField, List.lookup, h']
    · by_cases h2 : k' = k0
      · subst h2
        simp [setField, h, List.lookup]
      · have h' : (k' == k0) = false := by simpa using h2
        simp [setField, h, List.lookup, h', ih]

theorem lookup_spread_of_not_mem (a b : JsObj) (k : String)
    (hk : k ∉ b.map Prod.fst) : (spread a b).lookup k = a.lookup k := by
  induction b generalizing a with
  | nil => rfl
  | cons kv rest ih =>
    obtain ⟨k0, v0⟩ := kv
    simp only [List.map_cons, List.mem_cons, not_or] at hk
    have : spread a ((k0, v0) :: rest) = spread (setField k0 v0 a) rest := rfl
    rw [this, ih _ hk.2, lookup_setField_other _ _ _ _ hk.1]

theorem lookup_spread_of_mem (a b : JsObj) (k : String) (v : JsVal)
    (hnodup : (b.map Prod.fst).Nodup) (hmem : (k, v) ∈ b) :
    (spread a b).lookup k = some v := by
  induction b generalizing a with
  | nil => simp at hmem
  | cons kv rest ih =>
    obtain ⟨k0, v0⟩ := kv
    have hsp : spread a ((k0, v0) :: rest) = spread (setField k0 v0 a) rest := rfl
    simp only [List.map_cons, List.nodup_cons] at hnodup
    rcases List.mem_cons.mp hmem with heq | htail
    · obtain ⟨rfl, rfl⟩ := Prod.mk.inj heq
      rw [hsp, lookup_spread_of_not_mem _ _ _ hnodup.1, lookup_setField_same]
    · rw [hsp, ih _ hnodup.2 htail]

/-! ## Lemmas on statements -/

section
variable {σ τ α β : Type}

@[simp] theorem Js.bind_apply (x : Js σ α) (f : α → Js σ β) (s : σ) :
    (x >>= f) s = (match x s with
      | (.ok a, s1) => f a s1
      | (.error e, s1) => (.error e, s1)) := rfl

@[simp] theorem Js.andThen_apply (x : Js σ α) (f : α → Js σ β) (s : σ) :
    Js.andThen x f s = (match x s with
      | (.ok a, s1) => f a s1
      | (.error e, s1) => (.error e, s1)) := rfl

@[simp] theorem Js.pure_apply (a : α) (s : σ) : (pure a : Js σ α) s = (.ok a, s) := rfl

@[simp] theorem Js.ret_apply (a : α) (s : σ) : (Js.ret a : Js σ α) s = (.ok a, s) := rfl

@[simp] theorem Js.read_apply (s : σ) : (Js.read : Js σ σ) s = (.ok s, s) := rfl

@[simp] theorem Js.update_apply (f : σ → σ) (s : σ) : Js.update f s = (.ok (), f s) := rfl

@[simp] theorem Js.eval_apply (r : Except JsThrown α) (s : σ) :
    (Js.eval r : Js σ α) s = (r, s) := rfl

@[simp] theorem Js.throwJs_apply (e : JsThrown) (s : σ) :
    (Js.throwJs e : Js σ α) s = (.error e, s) := rfl

end

section
variable {σ τ α β γ : Type} {f : σ → γ}

theorem Js.preserves_pure (a : α) : Js.Preserves f (pure a : Js σ α) := fun _ => rfl

theorem Js.preserves_ret (a : α) : Js.Preserves f (Js.ret a : Js σ α) := fun _ => rfl

theorem Js.preserves_eval (r : Except JsThrown α) : Js.Preserves f (Js.eval r : Js σ α) :=
  fun _ => rfl

theorem Js.preserves_read : Js.Preserves f (Js.read : Js σ σ) := fun _ => rfl

theorem Js.preserves_update (g : σ → σ) (h : ∀ s, f (g s) = f s) :
    Js.Preserves f (Js.update g) := fun s => h s

theorem Js.preserves_bind (x : Js σ α) (k : α → Js σ β) (hx : Js.Preserves f x)
    (hk : ∀ a, Js.Preserves f (k a)) : Js.Preserves f (x >>= k) := by
  intro s
  rw [Js.bind_apply]
  have h1 := hx s
  rcases hxs : x s with ⟨r, s1⟩
  rw [hxs] at h1
  cases r with
  | ok a => exact (hk a s1).trans h1
  | error e => exact h1

theorem Js.preserves_tryCatch (x : Js σ α) (k : JsThrown → Js σ α) (hx : Js.Preserves f x)
    (hk : ∀ e, Js.Preserves f (k e)) : Js.Preserves f (Js.tryCatchJs x k) := by
  intro s
  have h1 := hx s
  unfold Js.tryCatchJs
  rcases hxs : x s with ⟨r, s1⟩
  rw [hxs] at h1
  cases r with
  | ok a => exact h1
  | error e => exact (hk e s1).trans h1

theorem Js.preserves_ite (c : Prop) [Decidable c] (x y : Js σ α) (hx : Js.Preserves f x)
    (hy : Js.Preserves f y) : Js.Preserves f (if c then x else y) := by
  split
  · exact hx
  · exact hy

theorem Js.preserves_forEachFrom (items : List α) (index : Nat) (cb : α → Nat → Js σ Unit)
    (hcb : ∀ a i, Js.Preserves f (cb a i)) : Js.Preserves f (Js.forEachFrom index items cb) := by
  induction items generalizing index with
  | nil => exact fun _ => rfl
  | cons a rest ih =>
    exact Js.preserves_bind (cb a index) (fun _ => Js.forEachFrom (index + 1) rest cb)
      (hcb a index) (fun _ => ih (index + 1))

end

/-! ## Lemmas on the state manager -/

section
variable {ε : Type}

theorem forEachFrom_notify (subs : List (Callback ε)) (newState prevState : JsObj)
    (index : Nat) (sm : StateManager ε) (env : ε) :
    Js.forEachFrom index subs (fun callback _ =>
        Js.tryCatchJs
          (Js.focus Prod.snd (fun env s => (s.1, env)) (callback.call newState prevState))
          (fun _ => Js.ret ())) (sm, env)
      = (.ok (), (sm, runCallbacks subs newState prevState env)) := by
  induction subs generalizing index env with
  | nil => rfl
  | cons c rest ih =>
    have hstep := ih (index + 1) (c.call newState prevState env).2
    cases hc : c.call newState prevState env with
    | mk r env1 =>
      rw [hc] at hstep
      cases r with
      | ok u =>
        simpa [Js.forEachFrom, Js.andThen, Js.tryCatchJs, Js.focus, runCallbacks, hc]
          using hstep
      | error e =>
        simpa [Js.forEachFrom, Js.andThen, Js.tryCatchJs, Js.focus, runCallbacks, hc]
          using hstep

theorem notifySubscribers_eq (prevState newState : JsObj) (sm : StateManager ε) (env : ε) :
    StateManager.notifySubscribers prevState newState (sm, env)
      = (.ok (), (sm, runCallbacks sm.subscribers newState prevState env)) := by
  simp only [StateManager.notifySubscribers, Js.bind_apply, Js.read_apply, Js.forEach]
  exact forEachFrom_notify _ _ _ _ _ _

theorem setState_eq (p : JsObj) (sm : StateManager ε) (env : ε) :
    StateManager.setState p (sm, env)
      = (.ok (), ({ sm with state := spread sm.state p },
          runCallbacks sm.subscribers (spread sm.state p) sm.state env)) := by
  simp only [StateManager.setState, Js.bind_apply, Js.read_apply, Js.update_apply,
    notifySubscribers_eq]

theorem runCallbacks_recording (subs : List (Callback ε)) (newState prevState : JsObj)
    (env : ε) (log : List CallRecord) :
    runCallbacks (subs.map recording) newState prevState (env, log)
      = (runCallbacks subs newState prevState env,
          log ++ subs.map (fun c => { ident := c.ident, newState, prevState })) := by
  induction subs generalizing env log with
  | nil => simp [runCallbacks]
  | cons c rest ih =>
    have := ih (c.call newState prevState env).2
      (log ++ [{ ident := c.ident, newState, prevState }])
    simpa [runCallbacks, recording] using this

theorem setState_ok (p : JsObj) (sm : StateManager ε) (env : ε) :
    (StateManager.setState p (sm, env)).1 = .ok () := by
  rw [setState_eq]

theorem setState_state (p : JsObj) (sm : StateManager ε) (env : ε) :
    (StateManager.setState p (sm, env)).2.1.state = spread sm.state p := by
  rw [setState_eq]

theorem setState_subscribers (p : JsObj) (sm : StateManager ε) (env : ε) :
    (StateManager.setState p (sm, env)).2.1.subscribers = sm.subscribers := by
  rw [setState_eq]

theorem setState_recorded_log (p : JsObj) (sm : StateManager ε) (env : ε)
    (log : List CallRecord) :
    (StateManager.setState p (sm.recorded, (env, log))).2.2.2
      = log ++ sm.subscribers.map (fun c =>
          { ident := c.ident, newState := spread sm.state p, prevState := sm.state }) := by
  rw [setState_eq]
  simp [StateManager.recorded, runCallbacks_recording]

end

/-! ## Lemmas on the page -/

section
open ImageGeneratorController UiManager

theorem displayResultImages_chrome (v : JsVal) : Js.Preserves chrome (displayResultImages v) := by
  unfold displayResultImages
  refine Js.preserves_ite _ _ _ (Js.preserves_ret _) ?_
  refine Js.preserves_bind _ _ (Js.preserves_eval _) (fun length => ?_)
  refine Js.preserves_ite _ _ _ (Js.preserves_ret _) ?_
  refine Js.preserves_bind _ _ (Js.preserves_update _ (fun _ => rfl)) (fun _ => ?_)
  refine Js.preserves_bind _ _ (Js.preserves_eval _) (fun items => ?_)
  refine Js.preserves_forEachFrom _ _ _ (fun item index => ?_)
  refine Js.preserves_bind _ _ (Js.preserves_eval _) (fun image => ?_)
  refine Js.preserves_bind _ _ (Js.preserves_eval _) (fun percents => ?_)
  refine Js.preserves_ite _ _ _ ?_ (Js.preserves_ret _)
  exact Js.preserves_bind _ _ (Js.preserves_eval _)
    (fun _ => Js.preserves_update _ (fun _ => rfl))

theorem displayQueryImage_chrome (v : JsVal) : Js.Preserves chrome (displayQueryImage v) := by
  unfold displayQueryImage
  exact Js.preserves_ite _ _ _ (Js.preserves_ret _) (Js.preserves_update _ (fun _ => rfl))

theorem displayResults_chrome (r : JsVal) : Js.Preserves chrome (displayResults r) := by
  unfold displayResults
  refine Js.preserves_ite _ _ _ (Js.preserves_ret _) ?_
  refine Js.preserves_bind _ _ ?_ (fun _ => ?_)
  · exact Js.preserves_ite _ _ _ (displayQueryImage_chrome _) (Js.preserves_ret _)
  refine Js.preserves_bind _ _ ?_ (fun _ => ?_)
  · exact Js.preserves_ite _ _ _ (displayResultImages_chrome _) (Js.preserves_ret _)
  exact Js.preserves_update _ (fun _ => rfl)

theorem finallyBlock_eq (w : World) : finallyBlock w = (.ok (), afterFinally w) := by
  unfold finallyBlock afterFinally
  cases hsm : w.stateManager with
  | none =>
    simp [Js.bind_apply, Js.update_apply, onUi, Js.focus, hideLoading, onStateManager, hsm,
      hidden]
  | some sm =>
    simp [Js.bind_apply, Js.update_apply, onUi, Js.focus, hideLoading, onStateManager, hsm,
      hidden, StateManager.setLoading, setState_eq]

theorem onUi_preserves {α β : Type} (f : World → β) (x : Js Ui α)
    (hf : ∀ w ui, f { w with ui := ui } = f w) : Js.Preserves f (onUi x) := by
  intro w
  simp only [onUi, Js.focus]
  exact hf _ _

theorem onStateManager_preserves {β : Type} (f : World → β)
    (x : Js (StateManager Ui × Ui) Unit)
    (hf : ∀ w sm ui, f { w with stateManager := some sm, ui := ui } = f w) :
    Js.Preserves f (onStateManager x) := by
  intro w
  unfold onStateManager
  cases hsm : w.stateManager with
  | none => rfl
  | some sm => exact hf _ _ _

theorem onStateManager_subsOf (x : Js (StateManager Ui × Ui) Unit)
    (hx : Js.Preserves (fun s => s.1.subscribers) x) :
    Js.Preserves subsOf (onStateManager x) := by
  intro w
  unfold onStateManager subsOf
  cases hsm : w.stateManager with
  | none => simp [hsm]
  | some sm =>
    have := hx (sm, w.ui)
    simp [this]

theorem setState_preserves_subscribers {ε : Type} (p : JsObj) :
    Js.Preserves (fun s : StateManager ε × ε => s.1.subscribers) (StateManager.setState p) := by
  intro s
  obtain ⟨sm, env⟩ := s
  rw [setState_eq]

theorem setResult_preserves_subscribers {ε : Type} (r : JsVal) :
    Js.Preserves (fun s : StateManager ε × ε => s.1.subscribers) (StateManager.setResult r) := by
  unfold StateManager.setResult
  refine Js.preserves_bind _ _ (Js.preserves_eval _) (fun _ => ?_)
  refine Js.preserves_bind _ _ (Js.preserves_eval _) (fun _ => ?_)
  exact setState_preserves_subscribers _

theorem handleSuccess_control (r : JsVal) : Js.Preserves control (handleSuccess r) := by
  unfold handleSuccess
  refine Js.preserves_bind _ _ (onStateManager_preserves _ _ (fun _ _ _ => rfl)) (fun _ => ?_)
  refine Js.preserves_bind _ _ (onUi_preserves _ _ (fun _ _ => rfl)) (fun _ => ?_)
  refine Js.preserves_bind _ _ (Js.preserves_eval _) (fun _ => ?_)
  exact Js.preserves_ite _ _ _ (onUi_preserves _ _ (fun _ _ => rfl)) (Js.preserves_ret _)

theorem handleSuccess_subsOf (r : JsVal) : Js.Preserves subsOf (handleSuccess r) := by
  unfold handleSuccess
  refine Js.preserves_bind _ _
    (onStateManager_subsOf _ (setResult_preserves_subscribers r)) (fun _ => ?_)
  refine Js.preserves_bind _ _ (onUi_preserves _ _ (fun _ _ => rfl)) (fun _ => ?_)
  refine Js.preserves_bind _ _ (Js.preserves_eval _) (fun _ => ?_)
  exact Js.preserves_ite _ _ _ (onUi_preserves _ _ (fun _ _ => rfl)) (Js.preserves_ret _)

theorem handleError_control (e : JsThrown) : Js.Preserves control (handleError e) := by
  unfold handleError
  refine Js.preserves_bind _ _ (Js.preserves_eval _) (fun _ => ?_)
  exact onUi_preserves _ _ (fun _ _ => rfl)

theorem handleError_subsOf (e : JsThrown) : Js.Preserves subsOf (handleError e) := by
  unfold handleError
  refine Js.preserves_bind _ _ (Js.preserves_eval _) (fun _ => ?_)
  exact onUi_preserves _ _ (fun _ _ => rfl)

theorem validateInput_eq (data : InputData) (ui : Ui) :
    validateInput data ui
      = if data.valid then (.ok true, ui)
        else (.ok false,
          { ui with errorText := validationMessage data, errorVisible := true }) := by
  unfold validateInput InputData.valid validationMessage
  by_cases hp : data.prompt = ""
  · simp [hp, truthy, displayError, setErrorText, toStr]
  · by_cases hn : (data.searchNum.isNaN || data.searchNum.lt (JsNum.ofInt 1)
        || data.searchNum.gt (JsNum.ofInt 10)) = true
    · simp [hp, truthy, hn, displayError, setErrorText, toStr]
    · simp [hp, truthy, hn]

theorem tryBlockUntilAwait_invalid (w : World)
    (h : (collectInputData w.ui).valid = false) :
    tryBlockUntilAwait w
      = (.ok false, { w with ui := { w.ui with
            errorText := validationMessage (collectInputData w.ui), errorVisible := true } }) := by
  simp [tryBlockUntilAwait, onUi, Js.focus, validateInput_eq, h]

theorem tryBlockUntilAwait_valid (w : World)
    (h : (collectInputData w.ui).valid = true) :
    ∃ w1, tryBlockUntilAwait w = (.ok true, w1)
      ∧ w1.isGenerating = true
      ∧ w1.apiClient = w.apiClient
      ∧ w1.sent = w.sent ++ [ApiClient.generateImageRequest w.apiClient
          (collectInputData w.ui).toObj]
      ∧ w1.inFlight = w.inFlight ++ [ApiClient.generateImageRequest w.apiClient
          (collectInputData w.ui).toObj]
      ∧ w1.stateManager.map (fun sm => sm.subscribers)
          = w.stateManager.map (fun sm => sm.subscribers) := by
  cases hsm : w.stateManager with
  | none =>
    simp [tryBlockUntilAwait, onUi, Js.focus, validateInput_eq, h, onStateManager, hsm,
      UiManager.clearResults, clearError, showLoading]
  | some sm =>
    simp [tryBlockUntilAwait, onUi, Js.focus, validateInput_eq, h, onStateManager, hsm,
      UiManager.clearResults, clearError, showLoading, StateManager.setLoading,
      StateManager.clearResults, StateManager.updateSettings, setState_eq, getProp, propOf]

theorem generateImage_busy (w : World) (h : w.isGenerating = true) :
    generateImage w = (.ok (), w) := by
  simp [generateImage, h]

theorem generateImage_invalid (w : World) (hidle : w.isGenerating = false)
    (h : (collectInputData w.ui).valid = false) :
    generateImage w
      = (.ok (), afterFinally { w with ui := { w.ui with
            errorText := validationMessage (collectInputData w.ui), errorVisible := true } }) := by
  simp [generateImage, hidle, tryBlockUntilAwait_invalid w h, finallyBlock_eq]

theorem generateImage_valid (w : World) (hidle : w.isGenerating = false)
    (h : (collectInputData w.ui).valid = true) :
    ∃ w1, generateImage w = (.ok (), w1)
      ∧ w1.isGenerating = true
      ∧ w1.apiClient = w.apiClient
      ∧ w1.sent = w.sent ++ [ApiClient.generateImageRequest w.apiClient
          (collectInputData w.ui).toObj]
      ∧ w1.inFlight = w.inFlight ++ [ApiClient.generateImageRequest w.apiClient
          (collectInputData w.ui).toObj]
      ∧ w1.stateManager.map (fun sm => sm.subscribers)
          = w.stateManager.map (fun sm => sm.subscribers) := by
  obtain ⟨w1, h1, hrest⟩ := tryBlockUntilAwait_valid w h
  exact ⟨w1, by simp [generateImage, hidle, h1], hrest⟩

theorem generateImageResumed_eq (awaited : Except JsThrown JsVal) (w : World) :
    ∃ r w1, generateImageResumed awaited w = (r, afterFinally w1)
      ∧ control w1 = control w ∧ subsOf w1 = subsOf w := by
  have hc : Js.Preserves control
      (Js.tryCatchJs (do let result ← Js.eval awaited; handleSuccess result)
        (fun error => handleError error)) :=
    Js.preserves_tryCatch _ _
      (Js.preserves_bind _ _ (Js.preserves_eval _) (fun r => handleSuccess_control r))
      (fun e => handleError_control e)
  have hs : Js.Preserves subsOf
      (Js.tryCatchJs (do let result ← Js.eval awaited; handleSuccess result)
        (fun error => handleError error)) :=
    Js.preserves_tryCatch _ _
      (Js.preserves_bind _ _ (Js.preserves_eval _) (fun r => handleSuccess_subsOf r))
      (fun e => handleError_subsOf e)
  refine ⟨(Js.tryCatchJs (do let result ← Js.eval awaited; handleSuccess result)
        (fun error => handleError error) w).1,
    (Js.tryCatchJs (do let result ← Js.eval awaited; handleSuccess result)
        (fun error => handleError error) w).2, ?_, hc w, hs w⟩
  simp only [generateImageResumed, Js.tryFinallyJs, finallyBlock_eq]

theorem afterFinally_isGenerating (w : World) : (afterFinally w).isGenerating = false := by
  unfold afterFinally
  cases w.stateManager <;> rfl

theorem afterFinally_sent (w : World) : (afterFinally w).sent = w.sent := by
  unfold afterFinally
  cases w.stateManager <;> rfl

theorem afterFinally_inFlight (w : World) : (afterFinally w).inFlight = w.inFlight := by
  unfold afterFinally
  cases w.stateManager <;> rfl

theorem afterFinally_state (w : World) (sm : StateManager Ui) (h : w.stateManager = some sm) :
    (afterFinally w).stateManager
      = some { sm with state := spread sm.state [("isLoading", bool false)] } := by
  unfold afterFinally
  rw [h]

theorem afterFinally_stateManager_none (w : World) (h : w.stateManager = none) :
    (afterFinally w).stateManager = none := by
  unfold afterFinally
  rw [h]

theorem toggleLoading_apply (v : JsVal) (ui : Ui) :
    toggleLoading v ui
      = (.ok (), { ui with loadingVisible := v.truthy, generatorBtnDisabled := v.truthy }) := by
  unfold toggleLoading
  by_cases h : v.truthy = true
  · simp [h, showLoading]
  · simp [h, hideLoading]

theorem stateSubscription_call (ident : Nat) (newState prevState : JsObj) (ui : Ui) :
    (((stateSubscription ident).call newState prevState ui).2.errorText = ui.errorText)
    ∧ (((stateSubscription ident).call newState prevState ui).2.errorVisible = ui.errorVisible)
    ∧ ((propOf (obj newState) "isLoading").truthy = false → ui.loadingVisible = false →
        ((stateSubscription ident).call newState prevState ui).2.loadingVisible = false) := by
  have second : ∀ (b : Bool) (ui1 : Ui),
      chrome ((if b = true then displayResults (propOf (obj newState) "lastResult")
        else Js.ret ()) ui1).2 = chrome ui1 := fun b ui1 =>
    Js.preserves_ite (b = true) _ _ (displayResults_chrome _) (Js.preserves_ret _) ui1
  have first : ∀ b : Bool,
      (if b = true then toggleLoading (propOf (obj newState) "isLoading") else Js.ret ()) ui
        = (.ok (), if b = true then
            { ui with loadingVisible := (propOf (obj newState) "isLoading").truthy,
                      generatorBtnDisabled := (propOf (obj newState) "isLoading").truthy }
          else ui) := by
    intro b
    cases b <;> simp [toggleLoading_apply]
  simp only [stateSubscription, Js.bind_apply, first]
  have hk := second (!strictEq (propOf (obj newState) "lastResult")
      (propOf (obj prevState) "lastResult"))
    (if (!strictEq (propOf (obj newState) "isLoading")
        (propOf (obj prevState) "isLoading")) = true then
      { ui with loadingVisible := (propOf (obj newState) "isLoading").truthy,
                generatorBtnDisabled := (propOf (obj newState) "isLoading").truthy }
    else ui)
  simp only [chrome, Prod.mk.injEq] at hk
  refine ⟨?_, ?_, ?_⟩
  · rw [hk.1]; split <;> rfl
  · rw [hk.2.1]; split <;> rfl
  · intro hfalse hhidden
    rw [hk.2.2.2.1]
    split
    · exact hfalse
    · exact hhidden

theorem runCallbacks_app (subs : List (Callback Ui))
    (happ : ∀ c ∈ subs, ∃ ident, c = stateSubscription ident) (newState prevState : JsObj)
    (ui : Ui) :
    ((runCallbacks subs newState prevState ui).errorText = ui.errorText)
    ∧ ((runCallbacks subs newState prevState ui).errorVisible = ui.errorVisible)
    ∧ ((propOf (obj newState) "isLoading").truthy = false → ui.loadingVisible = false →
        (runCallbacks subs newState prevState ui).loadingVisible = false) := by
  induction subs generalizing ui with
  | nil => exact ⟨rfl, rfl, fun _ h => h⟩
  | cons c rest ih =>
    obtain ⟨ident, rfl⟩ := happ c (by simp)
    have hc := stateSubscription_call ident newState prevState ui
    have hrest := ih (fun d hd => happ d (List.mem_cons_of_mem _ hd))
      ((stateSubscription ident).call newState prevState ui).2
    refine ⟨?_, ?_, ?_⟩
    · exact hrest.1.trans hc.1
    · exact hrest.2.1.trans hc.2.1
    · intro hfalse hhidden
      exact hrest.2.2 hfalse (hc.2.2 hfalse hhidden)

theorem propOf_isLoading_after (state : JsObj) :
    propOf (obj (spread state [("isLoading", bool false)])) "isLoading" = bool false := by
  simp [propOf, lookup_spread_of_mem state [("isLoading", bool false)] "isLoading" (bool false)
    (by simp) (by simp)]

theorem afterFinally_page (w : World) (happ : AppSubscribers w) :
    (afterFinally w).ui.errorText = w.ui.errorText
    ∧ (afterFinally w).ui.errorVisible = w.ui.errorVisible
    ∧ (afterFinally w).ui.loadingVisible = false := by
  unfold afterFinally
  cases hsm : w.stateManager with
  | none => exact ⟨rfl, rfl, rfl⟩
  | some sm =>
    have h := runCallbacks_app sm.subscribers (happ sm hsm)
      (spread sm.state [("isLoading", bool false)]) sm.state (hidden w.ui)
    refine ⟨h.1, h.2.1, h.2.2 ?_ rfl⟩
    rw [propOf_isLoading_after]
    rfl

end

/-! ## The state manager: `setState`, subscribers, `setCurrentApi` -/

section
variable {ε : Type}

/-- C5: `setState(p)` is a shallow merge. For every manager and every partial
object `p` (an object: its keys are distinct), the state after the call maps
each key of `p` to the value `p` gives it and every other key to what it was
mapped to before. In particular, after `setState` of `a: 1` and then of `b: 2`
the state has `a: 1` and `b: 2`, every other key is mapped as before the two
calls, and so every field that was present is still present. -/
theorem setState_shallow_merge (sm : StateManager ε) (env : ε) (p : JsObj)
    (hp : (p.map Prod.fst).Nodup) :
    (∀ k v, (k, v) ∈ p →
        (StateManager.setState p (sm, env)).2.1.state.lookup k = some v)
    ∧ (∀ k, k ∉ p.map Prod.fst →
        (StateManager.setState p (sm, env)).2.1.state.lookup k = sm.state.lookup k)
    ∧ ((StateManager.setState [("b", int 2)]
          (StateManager.setState [("a", int 1)] (sm, env)).2).2.1.state.lookup "a"
        = some (int 1))
    ∧ ((StateManager.setState [("b", int 2)]
          (StateManager.setState [("a", int 1)] (sm, env)).2).2.1.state.lookup "b"
        = some (int 2))
    ∧ (∀ k, k ≠ "a" → k ≠ "b" →
        (StateManager.setState [("b", int 2)]
          (StateManager.setState [("a", int 1)] (sm, env)).2).2.1.state.lookup k
        = sm.state.lookup k)
    ∧ (∀ k, (sm.state.lookup k).isSome = true →
        ((StateManager.setState [("b", int 2)]
          (StateManager.setState [("a", int 1)] (sm, env)).2).2.1.state.lookup k).isSome
        = true) := by
  have two : (StateManager.setState [("b", int 2)]
      (StateManager.setState [("a", int 1)] (sm, env)).2).2.1.state
      = setField "b" (int 2) (setField "a" (int 1) sm.state) := by
    rw [setState_eq, setState_eq]
    rfl
  have hab : ("a" : String) ≠ "b" := by decide
  refine ⟨?_, ?_, ?_, ?_, ?_, ?_⟩
  · intro k v hmem
    rw [setState_state]
    exact lookup_spread_of_mem _ _ _ _ hp hmem
  · intro k hk
    rw [setState_state]
    exact lookup_spread_of_not_mem _ _ _ hk
  · rw [two, lookup_setField_other _ _ _ _ hab, lookup_setField_same]
  · rw [two, lookup_setField_same]
  · intro k ha hb
    rw [two, lookup_setField_other _ _ _ _ hb, lookup_setField_other _ _ _ _ ha]
  · intro k hk
    rw [two]
    by_cases hb : k = "b"
    · subst hb
      rw [lookup_setField_same]
      rfl
    · rw [lookup_setField_other _ _ _ _ hb]
      by_cases ha : k = "a"
      · subst ha
        rw [lookup_setField_same]
        rfl
      · rw [lookup_setField_other _ _ _ _ ha]
        exact hk

/-- Witness of C5: on the manager that the constructor builds, `setState` of
`a: 1` gives a state with `a: 1` that still has `currentApi: "imagen"`. -/
theorem setState_shallow_merge_witness :
    (([("a", int 1)] : JsObj).map Prod.fst).Nodup
    ∧ (StateManager.setState [("a", int 1)]
        ((StateManager.new : StateManager Unit), ())).2.1.state.lookup "a" = some (int 1)
    ∧ (StateManager.setState [("a", int 1)]
        ((StateManager.new : StateManager Unit), ())).2.1.state.lookup "currentApi"
        = some (str "imagen") :=
  ⟨by decide,
   (setState_shallow_merge StateManager.new () [("a", int 1)] (by decide)).1 "a" (int 1)
     (by simp),
   ((setState_shallow_merge StateManager.new () [("a", int 1)] (by decide)).2.1
     "currentApi" (by decide)).trans rfl⟩

/-- The position that `indexOf` finds: -1 when no subscriber is `c`, and
otherwise the length of the part of the list before the first one that is. -/
theorem indexOfFrom_cases (c : Callback ε) (subs : List (Callback ε)) (index : Nat) :
    ((∀ d ∈ subs, d.ident ≠ c.ident) ∧ StateManager.indexOfFrom c subs index = -1)
    ∨ (∃ before d after, subs = before ++ d :: after ∧ d.ident = c.ident
        ∧ (∀ b ∈ before, b.ident ≠ c.ident)
        ∧ StateManager.indexOfFrom c subs index = ((index + before.length : Nat) : Int)) := by
  induction subs generalizing index with
  | nil => exact Or.inl ⟨by simp, rfl⟩
  | cons d rest ih =>
    by_cases hd : d.ident = c.ident
    · exact Or.inr ⟨[], d, rest, rfl, hd, by simp, by simp [StateManager.indexOfFrom, hd]⟩
    · rcases ih (index + 1) with ⟨hnone, hidx⟩ | ⟨before, d1, after, hsplit, hd1, hbefore, hidx⟩
      · refine Or.inl ⟨?_, by simp [StateManager.indexOfFrom, hd, hidx]⟩
        intro x hx
        rcases List.mem_cons.mp hx with rfl | hx
        · exact hd
        · exact hnone x hx
      · refine Or.inr ⟨d :: before, d1, after, by simp [hsplit], hd1, ?_, ?_⟩
        · intro x hx
          rcases List.mem_cons.mp hx with rfl | hx
          · exact hd
          · exact hbefore x hx
        · simp only [StateManager.indexOfFrom, hd, if_false, hidx, List.length_cons]
          congr 1
          omega

theorem eraseIdx_append_length (before after : List (Callback ε)) (d : Callback ε) :
    (before ++ d :: after).eraseIdx before.length = before ++ after := by
  induction before with
  | nil => rfl
  | cons b rest ih => simpa using ih

theorem unsubscribe_absent (c : Callback ε) (sm : StateManager ε)
    (habsent : ∀ d ∈ sm.subscribers, d.ident ≠ c.ident) :
    StateManager.unsubscribe c sm = sm := by
  rcases indexOfFrom_cases c sm.subscribers 0 with ⟨_, hidx⟩ | ⟨before, d, after, hsplit, hd, _, _⟩
  · simp [StateManager.unsubscribe, hidx]
  · exact absurd hd (habsent d (by simp [hsplit]))

theorem first_split_unique (c : Callback ε) (before before1 after after1 : List (Callback ε))
    (d d1 : Callback ε) (h : before ++ d :: after = before1 ++ d1 :: after1)
    (hd : d.ident = c.ident) (hd1 : d1.ident = c.ident)
    (hb : ∀ b ∈ before, b.ident ≠ c.ident) (hb1 : ∀ b ∈ before1, b.ident ≠ c.ident) :
    before1 = before ∧ d1 = d ∧ after1 = after := by
  induction before generalizing before1 with
  | nil =>
    cases before1 with
    | nil => simpa [eq_comm] using h
    | cons b rest =>
      simp only [List.nil_append, List.cons_append, List.cons.injEq] at h
      exact absurd (h.1 ▸ hd) (hb1 b (by simp))
  | cons b rest ih =>
    cases before1 with
    | nil =>
      simp only [List.nil_append, List.cons_append, List.cons.injEq] at h
      exact absurd (h.1 ▸ hd1) (hb b (by simp))
    | cons b1 rest1 =>
      simp only [List.cons_append, List.cons.injEq] at h
      have := ih rest1 h.2 (fun x hx => hb x (List.mem_cons_of_mem _ hx))
        (fun x hx => hb1 x (List.mem_cons_of_mem _ hx))
      simp [h.1, this.1, this.2.1, this.2.2]

theorem unsubscribe_present (c : Callback ε) (sm : StateManager ε)
    (before after : List (Callback ε)) (d : Callback ε)
    (hsplit : sm.subscribers = before ++ d :: after) (hd : d.ident = c.ident)
    (hbefore : ∀ b ∈ before, b.ident ≠ c.ident) :
    StateManager.unsubscribe c sm = { sm with subscribers := before ++ after } := by
  rcases indexOfFrom_cases c sm.subscribers 0 with
    ⟨hnone, _⟩ | ⟨before1, d1, after1, hsplit1, hd1, hbefore1, hidx⟩
  · exact absurd hd (hnone d (by simp [hsplit]))
  · obtain ⟨rfl, rfl, rfl⟩ := first_split_unique c before before1 after after1 d d1
      (hsplit.symm.trans hsplit1) hd hd1 hbefore hbefore1
    have hpos : ((0 + before1.length : Nat) : Int) > -1 := by omega
    simp only [StateManager.unsubscribe]
    rw [hidx, if_pos hpos, hsplit]
    simp [eraseIdx_append_length]

/-- C8 as amended: `subscribe(c)` puts `c` at the end of the list. The function
it returns removes the first subscriber that is `c` (found by identity) and
nothing else, so the others stay in their order; on a list without `c` it
changes nothing. When `c` was not subscribed before the call of `subscribe`,
the list is back to what it was and no later `setState` calls `c`; when `c`
was subscribed before, it is still subscribed afterwards. -/
theorem subscribe_then_unsubscribe (sm : StateManager ε) (c : Callback ε) :
    (StateManager.subscribe c sm).subscribers = sm.subscribers ++ [c]
    ∧ ((StateManager.subscribe c sm).state = sm.state)
    ∧ (∀ before d after, sm.subscribers = before ++ d :: after → d.ident = c.ident →
        (∀ b ∈ before, b.ident ≠ c.ident) →
        StateManager.unsubscribe c sm = { sm with subscribers := before ++ after })
    ∧ ((∀ d ∈ sm.subscribers, d.ident ≠ c.ident) →
        StateManager.unsubscribe c sm = sm
        ∧ StateManager.unsubscribe c (StateManager.subscribe c sm) = sm
        ∧ ∀ p env log,
          (StateManager.setState p
              ((StateManager.unsubscribe c (StateManager.subscribe c sm)).recorded,
                (env, log))).2.2.2
            = log ++ sm.subscribers.map (fun d =>
                { ident := d.ident, newState := spread sm.state p, prevState := sm.state })
          ∧ ∀ r ∈ sm.subscribers.map (fun d =>
                ({ ident := d.ident, newState := spread sm.state p, prevState := sm.state }
                  : CallRecord)),
              r.ident ≠ c.ident)
    ∧ ((∃ d ∈ sm.subscribers, d.ident = c.ident) →
        c ∈ (StateManager.unsubscribe c (StateManager.subscribe c sm)).subscribers) := by
  refine ⟨rfl, rfl, ?_, ?_, ?_⟩
  · intro before d after hsplit hd hbefore
    exact unsubscribe_present c sm before after d hsplit hd hbefore
  · intro habsent
    have hback : StateManager.unsubscribe c (StateManager.subscribe c sm) = sm := by
      rw [unsubscribe_present c (StateManager.subscribe c sm) sm.subscribers [] c rfl rfl
        habsent]
      simp [StateManager.subscribe]
    refine ⟨unsubscribe_absent c sm habsent, hback, ?_⟩
    intro p env log
    rw [hback]
    refine ⟨setState_recorded_log p sm env log, ?_⟩
    intro r hr
    obtain ⟨d, hd, rfl⟩ := List.mem_map.mp hr
    exact habsent d hd
  · rintro ⟨d, hd, hdeq⟩
    rcases indexOfFrom_cases c sm.subscribers 0 with
      ⟨hnone, _⟩ | ⟨before, d1, after, hsplit, hd1, hbefore, _⟩
    · exact absurd hdeq (hnone d hd)
    · rw [unsubscribe_present c (StateManager.subscribe c sm) before (after ++ [c]) d1
        (by simp [StateManager.subscribe, hsplit]) hd1 hbefore]
      simp

/-- Witness of C8: with subscribers 1 and 2, subscribing 3 and then calling the
function returned gives back the subscribers 1 and 2; and on the list 1, 2, 1
the first 1 is the one removed. -/
theorem subscribe_then_unsubscribe_witness :
    (∀ d ∈ ({ (StateManager.new : StateManager Unit) with
          subscribers := [quietCallback 1, quietCallback 2] }).subscribers,
        d.ident ≠ (quietCallback 3).ident)
    ∧ StateManager.unsubscribe (quietCallback 3)
        (StateManager.subscribe (quietCallback 3)
          { (StateManager.new : StateManager Unit) with
            subscribers := [quietCallback 1, quietCallback 2] })
      = { (StateManager.new : StateManager Unit) with
          subscribers := [quietCallback 1, quietCallback 2] }
    ∧ StateManager.unsubscribe (quietCallback 1)
        { (StateManager.new : StateManager Unit) with
          subscribers := [quietCallback 1, quietCallback 2, quietCallback 1] }
      = { (StateManager.new : StateManager Unit) with
          subscribers := [quietCallback 2, quietCallback 1] } :=
  ⟨by simp [quietCallback],
   ((subscribe_then_unsubscribe
      { (StateManager.new : StateManager Unit) with
        subscribers := [quietCallback 1, quietCallback 2] } (quietCallback 3)).2.2.2.1
      (by simp [quietCallback])).2.1,
   (subscribe_then_unsubscribe
      { (StateManager.new : StateManager Unit) with
        subscribers := [quietCallback 1, quietCallback 2, quietCallback 1] }
      (quietCallback 1)).2.2.1 [] (quietCallback 1) [quietCallback 2, quietCallback 1]
      rfl rfl (by simp)⟩

/-- Counterexample to C8 as stated: a callback that is subscribed twice is
still called by `setState` after the function returned by the second
`subscribe` has been called. -/
theorem unsubscribe_leaves_earlier_subscription :
    (StateManager.setState []
        ((StateManager.unsubscribe (quietCallback 1)
            (StateManager.subscribe (quietCallback 1)
              (StateManager.subscribe (quietCallback 1)
                (StateManager.new : StateManager Unit)))).recorded,
          ((), []))).2.2.2.map (fun r => r.ident) = [1] := by
  rfl

theorem setCurrentApi_eq (sm : StateManager ε) (env : ε) (apis : JsObj) (n : String)
    (hapis : sm.state.lookup "availableApis" = some (obj apis)) :
    StateManager.setCurrentApi n (sm, env)
      = if ((apis.lookup n).getD (inherited n)).truthy then
          StateManager.setState [("currentApi", str n)] (sm, env)
        else (.ok (), (sm, env)) := by
  simp only [StateManager.setCurrentApi, Js.bind_apply, Js.read_apply, Js.eval_apply,
    getProp, propOf, hapis, Option.getD_some]
  split <;> simp_all

/-- C9 as amended: for every state whose `availableApis` is an object and every
name `n`: when `availableApis` has an own property `n` with a truthy value,
`setCurrentApi(n)` sets `currentApi` to `n` and leaves every other field of the
state as it was; when the own property `n` has a falsy value, or when there is
no own property `n` and `n` is not one of the names that every object
inherits, `setCurrentApi(n)` changes nothing and calls no subscriber. -/
theorem setCurrentApi_known_or_rejected (sm : StateManager ε) (env : ε) (apis : JsObj)
    (n : String) (hapis : sm.state.lookup "availableApis" = some (obj apis)) :
    (∀ v, apis.lookup n = some v → v.truthy = true →
        (StateManager.setCurrentApi n (sm, env)).1 = .ok ()
        ∧ (StateManager.setCurrentApi n (sm, env)).2.1.state.lookup "currentApi"
            = some (str n)
        ∧ ∀ k, k ≠ "currentApi" →
            (StateManager.setCurrentApi n (sm, env)).2.1.state.lookup k = sm.state.lookup k)
    ∧ (∀ v, apis.lookup n = some v → v.truthy = false →
        StateManager.setCurrentApi n (sm, env) = (.ok (), (sm, env)))
    ∧ (apis.lookup n = none → n ∉ objectPrototypeKeys →
        StateManager.setCurrentApi n (sm, env) = (.ok (), (sm, env))) := by
  refine ⟨?_, ?_, ?_⟩
  · intro v hv htruthy
    rw [setCurrentApi_eq sm env apis n hapis]
    simp only [hv, Option.getD_some, htruthy, if_true]
    refine ⟨setState_ok _ _ _, ?_, ?_⟩
    · rw [setState_state]
      exact lookup_spread_of_mem _ _ _ _ (by simp) (by simp)
    · intro k hk
      rw [setState_state]
      exact lookup_spread_of_not_mem _ _ _ (by simpa using hk)
  · intro v hv hfalsy
    rw [setCurrentApi_eq sm env apis n hapis]
    simp [hv, hfalsy]
  · intro hnone hnot
    rw [setCurrentApi_eq sm env apis n hapis]
    simp [hnone, inherited, hnot, truthy]

/-- Witness of C9: with `availableApis` holding the API `imagen2` and a
disabled entry `legacy`, `imagen2` is accepted, `legacy` and `dalle` are not. -/
theorem setCurrentApi_known_or_rejected_witness :
    (spread StateManager.initialState
        [("availableApis", obj [("imagen2", obj []), ("legacy", null)])]).lookup
        "availableApis" = some (obj [("imagen2", obj []), ("legacy", null)])
    ∧ (StateManager.setCurrentApi "imagen2"
        (({ (StateManager.new : StateManager Unit) with
            state := spread StateManager.initialState
              [("availableApis", obj [("imagen2", obj []), ("legacy", null)])] }),
          ())).2.1.state.lookup "currentApi" = some (str "imagen2")
    ∧ StateManager.setCurrentApi "dalle"
        (({ (StateManager.new : StateManager Unit) with
            state := spread StateManager.initialState
              [("availableApis", obj [("imagen2", obj []), ("legacy", null)])] }),
          ())
      = (.ok (), (({ (StateManager.new : StateManager Unit) with
            state := spread StateManager.initialState
              [("availableApis", obj [("imagen2", obj []), ("legacy", null)])] }),
          ())) :=
  ⟨rfl,
   ((setCurrentApi_known_or_rejected
      { (StateManager.new : StateManager Unit) with
        state := spread StateManager.initialState
          [("availableApis", obj [("imagen2", obj []), ("legacy", null)])] }
      () [("imagen2", obj []), ("legacy", null)] "imagen2" rfl).1 (obj []) rfl rfl).2.1,
   (setCurrentApi_known_or_rejected
      { (StateManager.new : StateManager Unit) with
        state := spread StateManager.initialState
          [("availableApis", obj [("imagen2", obj []), ("legacy", null)])] }
      () [("imagen2", obj []), ("legacy", null)] "dalle" rfl).2.2 rfl (by decide)⟩

/-- Counterexample to C9 as stated: `legacy` is a key of `availableApis`, its
value is `null`, and `setCurrentApi("legacy")` leaves `currentApi` as it was. -/
theorem setCurrentApi_rejects_key_with_falsy_value :
    ([("imagen2", obj []), ("legacy", null)] : JsObj).lookup "legacy" = some null
    ∧ (StateManager.setCurrentApi "legacy"
        (({ (StateManager.new : StateManager Unit) with
            state := spread StateManager.initialState
              [("availableApis", obj [("imagen2", obj []), ("legacy", null)])] }),
          ())).2.1.state.lookup "currentApi" = some (str "imagen") := by
  exact ⟨rfl, rfl⟩

/-- The name `constructor` is not a key of the `availableApis` of a new manager,
which has no key at all; the lookup finds what every object inherits under
that name, and `setCurrentApi("constructor")` sets `currentApi`. -/
theorem setCurrentApi_accepts_inherited_name :
    (StateManager.initialState.lookup "availableApis" = some (obj []))
    ∧ (StateManager.setCurrentApi "constructor"
        ((StateManager.new : StateManager Unit), ())).2.1.state.lookup "currentApi"
      = some (str "constructor") := by
  exact ⟨rfl, rfl⟩

end

/-! ## The API client: `handleApiError` -/

/-- C10 as amended: `handleApiError(e)` copies `status` and `response` from `e`,
and
* when `textStatus` is `timeout`, the type is `timeout`;
* when `textStatus` is `error` and `status` is 0, the type is `network`;
* when `textStatus` is `error`, `status` is not 0 and the response has a truthy
  `detail`, the message is that `detail` and the type is `error_type`, or
  `server_error` when `error_type` is missing or falsy;
* in every other case the type is `unknown` and the message the generic one. -/
theorem handleApiError_cases (e : ErrorInfo) :
    (ApiClient.handleApiError e).status = e.status
    ∧ (ApiClient.handleApiError e).response = e.response
    ∧ (e.textStatus = "timeout" →
        (ApiClient.handleApiError e).type = str "timeout"
        ∧ (ApiClient.handleApiError e).message
            = str "요청 시간이 초과되었습니다. 잠시 후 다시 시도해주세요.")
    ∧ (e.textStatus = "error" → e.status = 0 →
        (ApiClient.handleApiError e).type = str "network"
        ∧ (ApiClient.handleApiError e).message
            = str "서버에 연결할 수 없습니다. 네트워크 연결을 확인해주세요.")
    ∧ (e.textStatus = "error" → e.status ≠ 0 → e.response.truthy = true →
        (propOf e.response "detail").truthy = true →
        (ApiClient.handleApiError e).message = propOf e.response "detail"
        ∧ (ApiClient.handleApiError e).type
            = if (propOf e.response "error_type").truthy then propOf e.response "error_type"
              else str "server_error")
    ∧ (e.textStatus ≠ "timeout" →
        (e.textStatus ≠ "error"
          ∨ (e.status ≠ 0
              ∧ (e.response.truthy = false ∨ (propOf e.response "detail").truthy = false))) →
        (ApiClient.handleApiError e).type = str "unknown"
        ∧ (ApiClient.handleApiError e).message = str "알 수 없는 오류가 발생했습니다.") := by
  refine ⟨?_, ?_, ?_, ?_, ?_, ?_⟩
  · unfold ApiClient.handleApiError
    simp only []
    split_ifs <;> rfl
  · unfold ApiClient.handleApiError
    simp only []
    split_ifs <;> rfl
  · intro ht
    simp [ApiClient.handleApiError, ht]
  · intro ht hs
    have hne : e.textStatus ≠ "timeout" := by rw [ht]; decide
    simp [ApiClient.handleApiError, ht, hs]
  · intro ht hs hresp hdetail
    have hne : ¬ (("error" : String) = "timeout") := by decide
    simp [ApiClient.handleApiError, ht, hs, hne, andProp, hresp, hdetail, JsVal.or]
  · intro hnt hrest
    rcases hrest with hne | ⟨hs, hfalsy⟩
    · simp [ApiClient.handleApiError, hnt, hne]
    · by_cases ht : e.textStatus = "error"
      · rcases hfalsy with hresp | hdetail
        · simp [ApiClient.handleApiError, hnt, ht, hs, andProp, hresp]
        · by_cases hresp : e.response.truthy = true
          · simp [ApiClient.handleApiError, hnt, ht, hs, andProp, hresp, hdetail]
          · simp [ApiClient.handleApiError, hnt, ht, hs, andProp, hresp]
      · simp [ApiClient.handleApiError, hnt, ht]

/-- Witness of C10: an HTTP 500 whose body has a `detail` and an `error_type`. -/
theorem handleApiError_cases_witness :
    (("error" : String) = "error") ∧ ((500 : Int) ≠ 0)
    ∧ (ApiClient.handleApiError
        { status := 500, statusText := "Internal Server Error", textStatus := "error",
          errorThrown := "Internal Server Error",
          response := obj [("detail", str "bad index"), ("error_type", str "api_error"),
            ("status_code", int 500)] }).message = str "bad index"
    ∧ (ApiClient.handleApiError
        { status := 500, statusText := "Internal Server Error", textStatus := "error",
          errorThrown := "Internal Server Error",
          response := obj [("detail", str "bad index"), ("error_type", str "api_error"),
            ("status_code", int 500)] }).type = str "api_error" :=
  ⟨rfl, by decide,
   ((handleApiError_cases
      { status := 500, statusText := "Internal Server Error", textStatus := "error",
        errorThrown := "Internal Server Error",
        response := obj [("detail", str "bad index"), ("error_type", str "api_error"),
          ("status_code", int 500)] }).2.2.2.2.1 rfl (by decide) rfl rfl).1,
   ((handleApiError_cases
      { status := 500, statusText := "Internal Server Error", textStatus := "error",
        errorThrown := "Internal Server Error",
        response := obj [("detail", str "bad index"), ("error_type", str "api_error"),
          ("status_code", int 500)] }).2.2.2.2.1 rfl (by decide) rfl rfl).2⟩

/-- Counterexample to C10 as stated: an aborted request has status 0 and is
not a timeout, and its type is `unknown`, not `network`; a response that
jQuery could not parse has a payload with a `detail`, and its type is
`unknown` with the generic message, not the `detail`. -/
theorem handleApiError_abort_is_unknown :
    (ApiClient.handleApiError
      { status := 0, statusText := "abort", textStatus := "abort", errorThrown := "abort",
        response := null }).type = str "unknown"
    ∧ (ApiClient.handleApiError
        (ApiClient.parseError
          { status := 200, statusText := "OK", responseText := some "<html>", parsed := none }
          "parsererror" "SyntaxError")).response = obj [("detail", str "<html>")]
    ∧ (ApiClient.handleApiError
        (ApiClient.parseError
          { status := 200, statusText := "OK", responseText := some "<html>", parsed := none }
          "parsererror" "SyntaxError")).type = str "unknown"
    ∧ (ApiClient.handleApiError
        (ApiClient.parseError
          { status := 200, statusText := "OK", responseText := some "<html>", parsed := none }
          "parsererror" "SyntaxError")).message = str "알 수 없는 오류가 발생했습니다." := by
  exact ⟨rfl, rfl, rfl, rfl⟩

/-! ## The controller: `validateInput`, `generateImage` -/

section
open ImageGeneratorController UiManager

theorem value_ge_one_iff (m : Int) (s : Nat) :
    (1 : ℚ) ≤ (m : ℚ) / 10 ^ s ↔ ¬ (m * 10 ^ 0 < 1 * 10 ^ s) := by
  have hpos : (0 : ℚ) < 10 ^ s := by positivity
  rw [le_div_iff₀ hpos]
  simp only [pow_zero, mul_one, one_mul, not_lt]
  exact_mod_cast Iff.rfl

theorem value_le_ten_iff (m : Int) (s : Nat) :
    (m : ℚ) / 10 ^ s ≤ 10 ↔ ¬ (10 * 10 ^ s < m * 10 ^ 0) := by
  have hpos : (0 : ℚ) < 10 ^ s := by positivity
  rw [div_le_iff₀ hpos]
  simp only [pow_zero, mul_one, not_lt]
  exact_mod_cast Iff.rfl

theorem valid_iff (data : InputData) :
    data.valid = true
      ↔ data.prompt ≠ "" ∧ ∃ q, data.searchNum.value = some q ∧ 1 ≤ q ∧ q ≤ 10 := by
  unfold InputData.valid
  cases hn : data.searchNum with
  | nan => simp [JsNum.isNaN, JsNum.value]
  | dec m s =>
    simp only [JsNum.isNaN, JsNum.lt, JsNum.gt, JsNum.ofInt, JsNum.value, Bool.false_or,
      Bool.and_eq_true, decide_eq_true_eq, Bool.not_eq_true', Bool.or_eq_false_iff,
      decide_eq_false_iff_not, Option.some.injEq, exists_eq_left', value_ge_one_iff,
      value_le_ten_iff]

theorem validateInput_fst (data : InputData) (ui : Ui) :
    (validateInput data ui).1 = .ok data.valid := by
  rw [validateInput_eq]
  cases data.valid <;> rfl

/-- C1: for every input record as `collectInputData` builds it (the prompt a
string, `searchNum` a number) `validateInput` returns, and it returns true
exactly when the prompt is not empty and `searchNum` is a number, not `NaN`,
with 1 ≤ `searchNum` ≤ 10. In particular it returns false for `searchNum` 0,
for `searchNum` 11 and for `NaN`, whatever the other fields are. -/
theorem validateInput_true_iff (data : InputData) (ui : Ui) :
    (∃ b, (validateInput data ui).1 = .ok b
      ∧ (b = true ↔
          data.prompt ≠ "" ∧ ∃ q, data.searchNum.value = some q ∧ 1 ≤ q ∧ q ≤ 10))
    ∧ (∀ prompt modelType indexType querySend,
        (validateInput
          { prompt, modelType, indexType, searchNum := JsNum.ofInt 0, querySend } ui).1
          = .ok false
        ∧ (validateInput
          { prompt, modelType, indexType, searchNum := JsNum.ofInt 11, querySend } ui).1
          = .ok false
        ∧ (validateInput
          { prompt, modelType, indexType, searchNum := JsNum.nan, querySend } ui).1
          = .ok false) := by
  refine ⟨⟨data.valid, validateInput_fst data ui, valid_iff data⟩, ?_⟩
  intro prompt modelType indexType querySend
  simp only [validateInput_fst, InputData.valid]
  refine ⟨?_, ?_, ?_⟩ <;> simp [JsNum.isNaN, JsNum.lt, JsNum.gt, JsNum.ofInt]

theorem valid_of_validateInput_false (data : InputData) (ui : Ui)
    (h : (validateInput data ui).1 = .ok false) : data.valid = false := by
  rw [validateInput_eq] at h
  cases hv : data.valid with
  | false => rfl
  | true => simp [hv] at h

/-- C2: when `validateInput` returns false on the collected input, `generateImage`
on an idle controller sends no request, leaves the validation message
displayed, and leaves `lastResult`, `queryImage`, `resultImages` and `settings`
of the state manager as they were. The subscribers are those of the page, as
they are in every world that the page can reach (`appSubscribers_reachable`). -/
theorem generateImage_invalid_input (w : World) (happ : AppSubscribers w)
    (hidle : w.isGenerating = false)
    (hinvalid : (validateInput (collectInputData w.ui) w.ui).1 = .ok false) :
    (generateImage w).1 = .ok ()
    ∧ (generateImage w).2.sent = w.sent
    ∧ (generateImage w).2.inFlight = w.inFlight
    ∧ (generateImage w).2.ui.errorVisible = true
    ∧ (generateImage w).2.ui.errorText = validationMessage (collectInputData w.ui)
    ∧ (∀ sm, w.stateManager = some sm →
        ∃ sm1, (generateImage w).2.stateManager = some sm1
          ∧ sm1.state.lookup "lastResult" = sm.state.lookup "lastResult"
          ∧ sm1.state.lookup "queryImage" = sm.state.lookup "queryImage"
          ∧ sm1.state.lookup "resultImages" = sm.state.lookup "resultImages"
          ∧ sm1.state.lookup "settings" = sm.state.lookup "settings") := by
  have hv := valid_of_validateInput_false _ _ hinvalid
  rw [generateImage_invalid w hidle hv]
  have happ1 : AppSubscribers { w with ui := { w.ui with
      errorText := validationMessage (collectInputData w.ui), errorVisible := true } } :=
    fun sm hsm => happ sm hsm
  have hpage := afterFinally_page _ happ1
  refine ⟨rfl, afterFinally_sent _, afterFinally_inFlight _, hpage.2.1, hpage.1, ?_⟩
  intro sm hsm
  refine ⟨_, afterFinally_state _ sm hsm, ?_, ?_, ?_, ?_⟩ <;>
    exact lookup_spread_of_not_mem _ _ _ (by decide)

theorem singleFlight_afterFinally (w : World) (h : w.inFlight = []) :
    SingleFlight (afterFinally w) := by
  unfold SingleFlight
  rw [afterFinally_inFlight, h]
  exact ⟨by simp, fun hne => absurd rfl hne⟩

theorem singleFlight_of_control (w w1 : World) (h : control w1 = control w)
    (hw : SingleFlight w) : SingleFlight w1 := by
  simp only [control, Prod.mk.injEq] at h
  unfold SingleFlight
  rw [h.1, h.2.2.2]
  exact hw

theorem singleFlight_generateImage (w : World) (hw : SingleFlight w) :
    SingleFlight (generateImage w).2 := by
  by_cases hbusy : w.isGenerating = true
  · rw [generateImage_busy w hbusy]
    exact hw
  · have hidle : w.isGenerating = false := by simpa using hbusy
    have hempty : w.inFlight = [] := by
      by_contra hne
      exact hbusy (hw.2 hne)
    cases hv : (collectInputData w.ui).valid with
    | false =>
      rw [generateImage_invalid w hidle hv]
      exact singleFlight_afterFinally _ hempty
    | true =>
      obtain ⟨w1, h1, hgen, _, _, hflight, _⟩ := generateImage_valid w hidle hv
      rw [h1]
      unfold SingleFlight
      rw [hflight, hempty]
      exact ⟨by simp, fun _ => hgen⟩

theorem singleFlight_resumed (awaited : Except JsThrown JsVal) (w : World)
    (h : w.inFlight = []) : SingleFlight (generateImageResumed awaited w).2 := by
  obtain ⟨r, w1, heq, hc, _⟩ := generateImageResumed_eq awaited w
  rw [heq]
  refine singleFlight_afterFinally w1 ?_
  simp only [control, Prod.mk.injEq] at hc
  rw [hc.2.2.2, h]

theorem singleFlight_step (event : Event) (w w1 : World) (hw : SingleFlight w)
    (hstep : step event w = some w1) : SingleFlight w1 := by
  cases event with
  | generate =>
    simp only [step, Option.some.injEq] at hstep
    subst hstep
    exact singleFlight_generateImage w hw
  | settled outcome =>
    simp only [step] at hstep
    cases hf : w.inFlight with
    | nil => simp [hf] at hstep
    | cons req rest =>
      have hrest : rest = [] := by
        have := hw.1
        rw [hf] at this
        cases rest with
        | nil => rfl
        | cons a b => simp at this
      simp only [hf, Option.some.injEq] at hstep
      subst hstep
      exact singleFlight_resumed _ _ hrest
  | edit prompt modelType indexType searchNum =>
    simp only [step, Option.some.injEq] at hstep
    subst hstep
    exact hw
  | selectChanged =>
    simp only [step, Option.some.injEq] at hstep
    subst hstep
    exact singleFlight_of_control w _
      (onStateManager_preserves control _ (fun _ _ _ => rfl) w) hw
  | changeApi apiName =>
    simp only [step, Option.some.injEq] at hstep
    subst hstep
    exact singleFlight_of_control w _
      (onStateManager_preserves control _ (fun _ _ _ => rfl) w) hw
  | configFetched fetched =>
    simp only [step, Option.some.injEq] at hstep
    subst hstep
    exact singleFlight_of_control w _
      (onStateManager_preserves control _ (fun _ _ _ => rfl) w) hw

theorem singleFlight_reachable (w : World) (h : Reachable w) : SingleFlight w := by
  induction h with
  | init appState ident ui _ =>
    exact ⟨by simp [ImageGeneratorController.new], fun hne => absurd rfl hne⟩
  | step event w w1 _ hstep ih => exact singleFlight_step event w w1 ih hstep

/-- C3: while `isGenerating` is true, a call of `generateImage` does nothing: the
world after the call is the world before it, so no request is sent and neither
the flag nor the state manager changes. Hence in every world that the page can
reach at most one request is in flight. -/
theorem generateImage_while_pending :
    (∀ w : World, w.isGenerating = true → generateImage w = (.ok (), w))
    ∧ (∀ w : World, Reachable w → w.inFlight.length ≤ 1) :=
  ⟨generateImage_busy, fun w h => (singleFlight_reachable w h).1⟩

theorem cleanedUp_afterFinally (w : World) (happ : AppSubscribers w) :
    CleanedUp (afterFinally w) := by
  refine ⟨afterFinally_isGenerating w, (afterFinally_page w happ).2.2, ?_⟩
  intro sm1 hsm1
  cases hsm : w.stateManager with
  | none => rw [afterFinally_stateManager_none w hsm] at hsm1; cases hsm1
  | some sm =>
    rw [afterFinally_state w sm hsm] at hsm1
    cases hsm1
    exact lookup_spread_of_mem _ _ _ _ (by simp) (by simp)

theorem appSubscribers_of_subsOf (w w1 : World) (h : subsOf w1 = subsOf w)
    (happ : AppSubscribers w) : AppSubscribers w1 := by
  intro sm1 hsm1 c hc
  unfold subsOf at h
  rw [hsm1] at h
  cases hsm : w.stateManager with
  | none => rw [hsm] at h; cases h
  | some sm =>
    rw [hsm] at h
    simp only [Option.map_some', Option.some.injEq] at h
    exact happ sm hsm c (h ▸ hc)

theorem afterFinally_subsOf (w : World) : subsOf (afterFinally w) = subsOf w := by
  unfold afterFinally subsOf
  cases hsm : w.stateManager <;> simp

theorem updateSettings_preserves_subscribers {ε : Type} (o : JsObj) :
    Js.Preserves (fun s : StateManager ε × ε => s.1.subscribers)
      (StateManager.updateSettings o) := by
  unfold StateManager.updateSettings
  refine Js.preserves_bind _ _ Js.preserves_read (fun _ => ?_)
  refine Js.preserves_bind _ _ (Js.preserves_eval _) (fun _ => ?_)
  exact setState_preserves_subscribers _

theorem setCurrentApi_preserves_subscribers {ε : Type} (n : String) :
    Js.Preserves (fun s : StateManager ε × ε => s.1.subscribers)
      (StateManager.setCurrentApi n) := by
  unfold StateManager.setCurrentApi
  refine Js.preserves_bind _ _ Js.preserves_read (fun _ => ?_)
  refine Js.preserves_bind _ _ (Js.preserves_eval _) (fun _ => ?_)
  refine Js.preserves_bind _ _ (Js.preserves_eval _) (fun _ => ?_)
  exact Js.preserves_ite _ _ _ (setState_preserves_subscribers _) (Js.preserves_ret _)

theorem loadConfig_preserves_subscribers {ε : Type} (fetched : StateManager.ConfigFetch) :
    Js.Preserves (fun s : StateManager ε × ε => s.1.subscribers)
      (StateManager.loadConfig fetched) := by
  unfold StateManager.loadConfig
  refine Js.preserves_tryCatch _ _ ?_ (fun _ => Js.preserves_ret _)
  cases fetched with
  | rejected => exact fun _ => rfl
  | response ok json =>
    refine Js.preserves_ite _ _ _ ?_ (Js.preserves_ret _)
    refine Js.preserves_bind _ _ (Js.preserves_eval _) (fun _ => ?_)
    refine Js.preserves_bind _ _ (Js.preserves_eval _) (fun _ => ?_)
    refine Js.preserves_bind _ _ (Js.preserves_eval _) (fun _ => ?_)
    refine Js.preserves_bind _ _ (setState_preserves_subscribers _) (fun _ => ?_)
    exact Js.preserves_update _ (fun _ => rfl)

theorem subsOf_generateImage (w : World) : subsOf (generateImage w).2 = subsOf w := by
  by_cases hbusy : w.isGenerating = true
  · rw [generateImage_busy w hbusy]
  · have hidle : w.isGenerating = false := by simpa using hbusy
    cases hv : (collectInputData w.ui).valid with
    | false =>
      rw [generateImage_invalid w hidle hv, afterFinally_subsOf]
      rfl
    | true =>
      obtain ⟨w1, h1, _, _, _, _, hsubs⟩ := generateImage_valid w hidle hv
      rw [h1]
      exact hsubs

theorem subsOf_resumed (awaited : Except JsThrown JsVal) (w : World) :
    subsOf (generateImageResumed awaited w).2 = subsOf w := by
  obtain ⟨r, w1, heq, _, hs⟩ := generateImageResumed_eq awaited w
  rw [heq, afterFinally_subsOf, hs]

theorem subsOf_step (event : Event) (w w1 : World) (hstep : step event w = some w1) :
    subsOf w1 = subsOf w := by
  cases event with
  | generate =>
    simp only [step, Option.some.injEq] at hstep
    subst hstep
    exact subsOf_generateImage w
  | settled outcome =>
    simp only [step] at hstep
    cases hf : w.inFlight with
    | nil => simp [hf] at hstep
    | cons req rest =>
      simp only [hf, Option.some.injEq] at hstep
      subst hstep
      exact subsOf_resumed _ _
  | edit prompt modelType indexType searchNum =>
    simp only [step, Option.some.injEq] at hstep
    subst hstep
    rfl
  | selectChanged =>
    simp only [step, Option.some.injEq] at hstep
    subst hstep
    exact onStateManager_subsOf _ (updateSettings_preserves_subscribers _) w
  | changeApi apiName =>
    simp only [step, Option.some.injEq] at hstep
    subst hstep
    exact onStateManager_subsOf _ (setCurrentApi_preserves_subscribers _) w
  | configFetched fetched =>
    simp only [step, Option.some.injEq] at hstep
    subst hstep
    exact onStateManager_subsOf _ (loadConfig_preserves_subscribers _) w

theorem appSubscribers_init (appState : Option (StateManager Ui)) (ident : Nat) (ui : Ui)
    (hnew : ∀ sm, appState = some sm → sm.subscribers = []) :
    AppSubscribers (ImageGeneratorController.new appState ident ui) := by
  intro sm hsm c hc
  cases appState with
  | none => simp [ImageGeneratorController.new] at hsm
  | some sm0 =>
    simp only [ImageGeneratorController.new, Option.map_some', Option.some.injEq] at hsm
    subst hsm
    simp only [StateManager.subscribe, hnew sm0 rfl, List.nil_append,
      List.mem_singleton] at hc
    exact ⟨ident, hc⟩

/-- In every world that the page can reach, the subscribers of the state
manager are those of the controller. -/
theorem appSubscribers_reachable (w : World) (h : Reachable w) : AppSubscribers w := by
  induction h with
  | init appState ident ui hnew => exact appSubscribers_init appState ident ui hnew
  | step event w w1 _ hstep ih => exact appSubscribers_of_subsOf w w1 (subsOf_step event w w1 hstep) ih

/-- C4: every attempt of `generateImage` ends cleaned up. On the page with its
own subscribers, as they are in every world that the page can reach
(`appSubscribers_reachable`): when an idle controller is called and the validation fails,
and when the awaited API call has ended, with a response or with any thrown
value, the world that `generateImage` leaves has `isGenerating` false, the
loading zone hidden and `isLoading: false` in the state manager. -/
theorem generateImage_always_cleans_up (w : World) (happ : AppSubscribers w) :
    (w.isGenerating = false →
        (validateInput (collectInputData w.ui) w.ui).1 = .ok false →
        CleanedUp (generateImage w).2)
    ∧ (∀ awaited : Except JsThrown JsVal, CleanedUp (generateImageResumed awaited w).2)
    ∧ (∀ outcome : AjaxOutcome, CleanedUp (generateImageSettled outcome w).2) := by
  have resumed : ∀ awaited : Except JsThrown JsVal,
      CleanedUp (generateImageResumed awaited w).2 := by
    intro awaited
    obtain ⟨r, w1, heq, _, hs⟩ := generateImageResumed_eq awaited w
    rw [heq]
    exact cleanedUp_afterFinally w1 (appSubscribers_of_subsOf w w1 hs happ)
  refine ⟨?_, resumed, fun outcome => resumed _⟩
  intro hidle hinvalid
  rw [generateImage_invalid w hidle (valid_of_validateInput_false _ _ hinvalid)]
  exact cleanedUp_afterFinally _ (fun sm hsm => happ sm hsm)


theorem appSubscribers_new (ident : Nat) (ui : Ui) :
    AppSubscribers (ImageGeneratorController.new (some StateManager.new) ident ui) := by
  intro sm hsm c hc
  simp only [ImageGeneratorController.new, Option.map_some', Option.some.injEq] at hsm
  subst hsm
  simp only [StateManager.subscribe, StateManager.new, List.nil_append,
    List.mem_singleton] at hc
  exact ⟨ident, hc⟩

/-- Witness of C2: the example page with 11 as the number of results. -/
theorem generateImage_invalid_input_witness :
    AppSubscribers invalidWorld
    ∧ invalidWorld.isGenerating = false
    ∧ (validateInput (collectInputData invalidWorld.ui) invalidWorld.ui).1 = .ok false
    ∧ (generateImage invalidWorld).2.sent = []
    ∧ (generateImage invalidWorld).2.ui.errorText = "검색 개수는 1-10 사이의 숫자여야 합니다." :=
  ⟨appSubscribers_new 0 _, rfl, rfl,
   (generateImage_invalid_input invalidWorld (appSubscribers_new 0 _) rfl rfl).2.1,
   (generateImage_invalid_input invalidWorld (appSubscribers_new 0 _) rfl rfl).2.2.2.2.1⟩

/-- Witness of C3: after a first call on the example page the controller is
busy with one request in flight, and a second call changes nothing. -/
theorem generateImage_while_pending_witness :
    (generateImage exampleWorld).2.isGenerating = true
    ∧ (generateImage exampleWorld).2.inFlight.length = 1
    ∧ generateImage (generateImage exampleWorld).2
        = (.ok (), (generateImage exampleWorld).2) :=
  ⟨rfl, rfl, generateImage_while_pending.1 _ rfl⟩

/-- Witness of C4: on the example page, the attempt ends cleaned up when the API
call ends with the response `null`, on which `handleSuccess` throws, and when
the validation fails. -/
theorem generateImage_always_cleans_up_witness :
    AppSubscribers exampleWorld
    ∧ CleanedUp (generateImageResumed (.ok null) exampleWorld).2
    ∧ AppSubscribers invalidWorld
    ∧ CleanedUp (generateImage invalidWorld).2 :=
  ⟨appSubscribers_new 0 _,
   (generateImage_always_cleans_up exampleWorld (appSubscribers_new 0 _)).2.1 (.ok null),
   appSubscribers_new 0 _,
   (generateImage_always_cleans_up invalidWorld (appSubscribers_new 0 _)).1 rfl rfl⟩

end

/-! ## The controller: messages, results -/

section
open ImageGeneratorController UiManager


theorem strictEq_str_iff (v : JsVal) (s : String) :
    strictEq v (str s) = true ↔ v = str s := by
  cases v <;> simp [strictEq, same]

theorem or_truthy (a b : JsVal) (hb : b.truthy = true) : (JsVal.or a b).truthy = true := by
  unfold JsVal.or
  split
  · assumption
  · exact hb

theorem append_ne_empty (s t : String) (hs : s ≠ "") : s ++ t ≠ "" := by
  intro h
  apply hs
  have hd : (s ++ t).data = [] := by rw [h]
  rw [String.data_append] at hd
  have : s.data = [] := (List.append_eq_nil.mp hd).1
  exact String.ext this

theorem errorMessageOf_truthy (data : JsVal) : (errorMessageOf data).truthy = true := by
  unfold errorMessageOf
  simp only []
  split_ifs
  · exact or_truthy _ _ (by decide)
  · decide
  · simp only [truthy, decide_eq_true_eq]
    rw [String.append_assoc, String.append_assoc]
    exact append_ne_empty _ _ (by decide)
  · exact or_truthy _ _ (by decide)

theorem responseOf_processed (error : ProcessedError) :
    responseOf (.value error.toJs) = .ok error.response := by
  simp [responseOf, ProcessedError.toJs, getProp, propOf, List.lookup]

theorem setErrorText_truthy (v : JsVal) (ui : Ui) (h : v.truthy = true) :
    setErrorText v ui = { ui with errorText := v.toStr } := by
  cases v <;> simp_all [setErrorText, truthy]

theorem handleError_processed (error : ProcessedError) (w : World) :
    handleError (.value error.toJs) w
      = (.ok (), { w with ui := { w.ui with
          errorText :=
            (if error.response.truthy then errorMessageOf error.response
             else str "이미지 생성 중 오류가 발생했습니다.").toStr
          errorVisible := true } }) := by
  have hmsg : (if error.response.truthy then errorMessageOf error.response
      else str "이미지 생성 중 오류가 발생했습니다.").truthy = true := by
    split
    · exact errorMessageOf_truthy _
    · decide
  simp only [handleError, Js.bind_apply, Js.eval_apply, responseOf_processed, onUi, Js.focus,
    displayError, Js.update_apply, setErrorText_truthy _ _ hmsg]


theorem handleApiError_response (e : ErrorInfo) :
    (ApiClient.handleApiError e).response = e.response := by
  unfold ApiClient.handleApiError
  simp only []
  split_ifs <;> rfl

theorem generateImageResumed_error (error : JsThrown) (w : World) :
    generateImageResumed (.error error) w
      = ((handleError error w).1, afterFinally (handleError error w).2) := by
  simp only [generateImageResumed, Js.tryFinallyJs, Js.tryCatchJs, Js.bind_apply, Js.eval_apply,
    finallyBlock_eq]

theorem appSubscribers_with_ui (w : World) (ui : Ui) (happ : AppSubscribers w) :
    AppSubscribers { w with ui := ui } :=
  fun sm hsm => happ sm hsm

theorem parseError_no_body (jqXHR : JqXHR) (textStatus errorThrown : String)
    (h : jqXHR.responseText = none) :
    (ApiClient.parseError jqXHR textStatus errorThrown).response = null := by
  simp [ApiClient.parseError, h]

/-- C17: for every raw error without a response body (`response` is `null`), so
for every timeout and every unreachable network that brings none, the message
that `handleError` displays for what `handleApiError` returns is the generic
one of the controller, whatever message and type `handleApiError` has
computed; and it is still displayed when `generateImage` has ended. -/
theorem handleError_without_response_body (w : World) (e : ErrorInfo)
    (hbody : e.response = null) :
    (handleError (.value (ApiClient.handleApiError e).toJs) w).1 = .ok ()
    ∧ (handleError (.value (ApiClient.handleApiError e).toJs) w).2.ui.errorText
        = "이미지 생성 중 오류가 발생했습니다."
    ∧ (handleError (.value (ApiClient.handleApiError e).toJs) w).2.ui.errorVisible = true
    ∧ (AppSubscribers w → ∀ (jqXHR : JqXHR) (textStatus errorThrown : String),
        jqXHR.responseText = none →
        (generateImageSettled (.error jqXHR textStatus errorThrown) w).2.ui.errorText
            = "이미지 생성 중 오류가 발생했습니다."
        ∧ (generateImageSettled (.error jqXHR textStatus errorThrown) w).2.ui.errorVisible
            = true) := by
  have key : ∀ e1 : ErrorInfo, e1.response = null →
      handleError (.value (ApiClient.handleApiError e1).toJs) w
        = (.ok (), { w with ui := { w.ui with
            errorText := "이미지 생성 중 오류가 발생했습니다.", errorVisible := true } }) := by
    intro e1 h1
    rw [handleError_processed, handleApiError_response, h1]
    rfl
  refine ⟨by rw [key e hbody], by rw [key e hbody], by rw [key e hbody], ?_⟩
  intro happ jqXHR textStatus errorThrown hnone
  have hk := key (ApiClient.parseError jqXHR textStatus errorThrown)
    (parseError_no_body _ _ _ hnone)
  simp only [generateImageSettled, ApiClient.generateImageSettled, generateImageResumed_error, hk]
  have hpage := afterFinally_page _ (appSubscribers_with_ui w { w.ui with
      errorText := "이미지 생성 중 오류가 발생했습니다.", errorVisible := true } happ)
  exact ⟨hpage.1, hpage.2.1⟩

/-- C11: for every error that `handleApiError` returns with a payload in
`response`, the message that `handleError` displays is chosen by the
`error_type` of the payload: for `validation_error` the `detail` of the payload,
or the fixed text on invalid input when `detail` is empty (falsy); for
`connection_error` the fixed text on the connection; for `api_error` exactly
`외부 API 오류 (` + `status_code` + `): ` + `detail`; for any other `error_type` the
`detail` or the generic text. A value that is displayed is displayed as the
string it converts to. In particular the HTTP 500 of the scenario, passed
through `parseError` and `handleApiError`, is displayed as
`외부 API 오류 (500): bad index`, also when `generateImage` has ended. -/
theorem handleError_message_by_error_type (w : World) (error : ProcessedError)
    (hpayload : error.response.truthy = true) :
    (handleError (.value error.toJs) w).1 = .ok ()
    ∧ (handleError (.value error.toJs) w).2.ui.errorVisible = true
    ∧ (propOf error.response "error_type" = str "validation_error" →
        (handleError (.value error.toJs) w).2.ui.errorText
          = if (propOf error.response "detail").truthy then
              (propOf error.response "detail").toStr
            else "입력값이 유효하지 않습니다.")
    ∧ (propOf error.response "error_type" = str "connection_error" →
        (handleError (.value error.toJs) w).2.ui.errorText
          = "외부 API 서버에 연결할 수 없습니다. 네트워크를 확인해주세요.")
    ∧ (propOf error.response "error_type" = str "api_error" →
        (handleError (.value error.toJs) w).2.ui.errorText
          = "외부 API 오류 (" ++ (propOf error.response "status_code").toStr ++ "): "
              ++ (propOf error.response "detail").toStr)
    ∧ (propOf error.response "error_type" ≠ str "validation_error" →
        propOf error.response "error_type" ≠ str "connection_error" →
        propOf error.response "error_type" ≠ str "api_error" →
        (handleError (.value error.toJs) w).2.ui.errorText
          = if (propOf error.response "detail").truthy then
              (propOf error.response "detail").toStr
            else "이미지 생성 중 오류가 발생했습니다.")
    ∧ ((handleError (.value (ApiClient.handleApiError
          (ApiClient.parseError http500 "error" "Internal Server Error")).toJs) w).2.ui.errorText
        = "외부 API 오류 (500): bad index")
    ∧ (AppSubscribers w →
        (generateImageSettled (.error http500 "error" "Internal Server Error") w).2.ui.errorText
          = "외부 API 오류 (500): bad index") := by
  have hne1 : (str "connection_error" : JsVal) ≠ str "validation_error" := by
    intro h; injection h with h; exact absurd h (by decide)
  have hne2 : (str "api_error" : JsVal) ≠ str "validation_error" := by
    intro h; injection h with h; exact absurd h (by decide)
  have hne3 : (str "api_error" : JsVal) ≠ str "connection_error" := by
    intro h; injection h with h; exact absurd h (by decide)
  have scenario : handleError (.value (ApiClient.handleApiError
        (ApiClient.parseError http500 "error" "Internal Server Error")).toJs) w
      = (.ok (), { w with ui := { w.ui with
          errorText := "외부 API 오류 (500): bad index", errorVisible := true } }) := by
    rw [handleError_processed]
    rfl
  rw [handleError_processed]
  simp only [hpayload, if_true]
  refine ⟨trivial, trivial, ?_, ?_, ?_, ?_, ?_, ?_⟩
  · intro ht
    simp only [errorMessageOf, ht, (strictEq_str_iff _ _).mpr rfl, if_true, JsVal.or]
    split_ifs <;> rfl
  · intro ht
    have h1 : strictEq (str "connection_error") (str "validation_error") = false := by
      rw [Bool.eq_false_iff]
      exact fun h => hne1 ((strictEq_str_iff _ _).mp h)
    simp only [errorMessageOf, ht, h1, (strictEq_str_iff _ _).mpr rfl, if_true,
      Bool.false_eq_true, if_false]
    rfl
  · intro ht
    have h1 : strictEq (str "api_error") (str "validation_error") = false := by
      rw [Bool.eq_false_iff]
      exact fun h => hne2 ((strictEq_str_iff _ _).mp h)
    have h2 : strictEq (str "api_error") (str "connection_error") = false := by
      rw [Bool.eq_false_iff]
      exact fun h => hne3 ((strictEq_str_iff _ _).mp h)
    simp only [errorMessageOf, ht, h1, h2, (strictEq_str_iff _ _).mpr rfl, if_true,
      Bool.false_eq_true, if_false]
    rfl
  · intro h1 h2 h3
    have e1 : strictEq (propOf error.response "error_type") (str "validation_error") = false := by
      rw [Bool.eq_false_iff]
      exact fun h => h1 ((strictEq_str_iff _ _).mp h)
    have e2 : strictEq (propOf error.response "error_type") (str "connection_error") = false := by
      rw [Bool.eq_false_iff]
      exact fun h => h2 ((strictEq_str_iff _ _).mp h)
    have e3 : strictEq (propOf error.response "error_type") (str "api_error") = false := by
      rw [Bool.eq_false_iff]
      exact fun h => h3 ((strictEq_str_iff _ _).mp h)
    simp only [errorMessageOf, e1, e2, e3, JsVal.or, Bool.false_eq_true, if_false]
    split_ifs <;> rfl
  · rw [scenario]
  · intro happ
    simp only [generateImageSettled, ApiClient.generateImageSettled, generateImageResumed_error,
      scenario]
    exact (afterFinally_page _ (appSubscribers_with_ui w _ happ)).1

/-- Witness of C11: the payload of the scenario on the example page. -/
theorem handleError_message_by_error_type_witness :
    (obj [("detail", str "bad index"), ("error_type", str "api_error"),
        ("status_code", int 500)]).truthy = true
    ∧ (handleError (.value (ProcessedError.toJs
        { message := str "bad index"
          type := str "api_error"
          status := 500
          response := obj [("detail", str "bad index"), ("error_type", str "api_error"),
            ("status_code", int 500)] })) exampleWorld).2.ui.errorText
      = "외부 API 오류 (500): bad index" :=
  ⟨rfl,
   ((handleError_message_by_error_type exampleWorld
      { message := str "bad index"
        type := str "api_error"
        status := 500
        response := obj [("detail", str "bad index"), ("error_type", str "api_error"),
          ("status_code", int 500)] } rfl).2.2.2.2.1 rfl).trans rfl⟩

/-- Witness of C17: a timeout without a body on the example page; the message
that `handleApiError` computes is the one on the timeout, the message that is
displayed is the generic one. -/
theorem handleError_without_response_body_witness :
    (ApiClient.parseError
        { status := 0, statusText := "timeout", responseText := none, parsed := none }
        "timeout" "timeout").response = null
    ∧ (ApiClient.handleApiError (ApiClient.parseError
        { status := 0, statusText := "timeout", responseText := none, parsed := none }
        "timeout" "timeout")).message
      = str "요청 시간이 초과되었습니다. 잠시 후 다시 시도해주세요."
    ∧ (handleError (.value (ApiClient.handleApiError (ApiClient.parseError
        { status := 0, statusText := "timeout", responseText := none, parsed := none }
        "timeout" "timeout")).toJs) exampleWorld).2.ui.errorText
      = "이미지 생성 중 오류가 발생했습니다." :=
  ⟨rfl, rfl,
   (handleError_without_response_body exampleWorld (ApiClient.parseError
      { status := 0, statusText := "timeout", responseText := none, parsed := none }
      "timeout" "timeout") rfl).2.1⟩

end

/-! ## `updateSettings` -/

section
variable {ε : Type}

theorem setField_of_lookup (k : String) (v : JsVal) (o : JsObj)
    (h : o.lookup k = some v) : setField k v o = o := by
  induction o with
  | nil => simp [List.lookup] at h
  | cons kv rest ih =>
    obtain ⟨k0, v0⟩ := kv
    by_cases hk : k0 = k
    · subst hk
      simp only [List.lookup, beq_self_eq_true, Option.some.injEq] at h
      simp [setField, h]
    · have hb : (k == k0) = false := by simpa using (fun e => hk e.symm)
      simp only [List.lookup, hb] at h
      simp [setField, hk, ih h]

theorem updateSettings_eq (n : JsObj) (sm : StateManager ε) (env : ε) :
    StateManager.updateSettings n (sm, env)
      = (.ok (),
          ({ sm with
             state := (setField "settings"
               (obj (spread (StateManager.ownProps (propOf (obj sm.state) "settings")) n))
               sm.state) },
           runCallbacks sm.subscribers
             (setField "settings"
               (obj (spread (StateManager.ownProps (propOf (obj sm.state) "settings")) n))
               sm.state)
             sm.state env)) := by
  simp only [StateManager.updateSettings, Js.bind_apply, Js.read_apply, Js.eval_apply, getProp,
    setState_eq]
  rfl

/-- C18: for every state and every object `n` (its keys listed once),
`updateSettings(n)` returns, the `settings` of the state it yields is an object
that maps each key of `n` to the value it has in `n` and each other key to what
the previous `settings` had for it (its own property of that name), and every
top-level field other than `settings` is what it was. When the `settings` of
the state is an object, as the constructor builds it and `updateSettings` keeps
it, its own properties are its fields, and `updateSettings` of the object
without properties leaves the state as it was. -/
theorem updateSettings_frame (sm : StateManager ε) (env : ε) (n : JsObj)
    (hn : (n.map Prod.fst).Nodup) :
    (StateManager.updateSettings n (sm, env)).1 = .ok ()
    ∧ (∃ fields1 : JsObj,
        (StateManager.updateSettings n (sm, env)).2.1.state.lookup "settings"
          = some (obj fields1)
        ∧ (∀ k v, (k, v) ∈ n → fields1.lookup k = some v)
        ∧ (∀ k, k ∉ n.map Prod.fst →
            fields1.lookup k
              = (StateManager.ownProps (propOf (obj sm.state) "settings")).lookup k))
    ∧ (∀ k, k ≠ "settings" →
        (StateManager.updateSettings n (sm, env)).2.1.state.lookup k = sm.state.lookup k)
    ∧ (∀ fields : JsObj, sm.state.lookup "settings" = some (obj fields) →
        StateManager.ownProps (propOf (obj sm.state) "settings") = fields
        ∧ (StateManager.updateSettings [] (sm, env)).2.1.state = sm.state) := by
  rw [updateSettings_eq n sm env, updateSettings_eq [] sm env]
  refine ⟨rfl, ⟨_, lookup_setField_same _ _ _, ?_, ?_⟩, ?_, ?_⟩
  · intro k v hmem
    exact lookup_spread_of_mem _ _ _ _ hn hmem
  · intro k hk
    exact lookup_spread_of_not_mem _ _ _ hk
  · intro k hk
    exact lookup_setField_other _ _ _ _ hk
  · intro fields hsettings
    have hown : StateManager.ownProps (propOf (obj sm.state) "settings") = fields := by
      simp only [propOf, hsettings, Option.getD_some, StateManager.ownProps]
    refine ⟨hown, ?_⟩
    simp only [hown]
    exact setField_of_lookup _ _ _ hsettings

/-- Witness of C18: the search number is set to 7 on the initial state; the
model type stays `l14` and the current API stays `imagen`. -/
theorem updateSettings_frame_witness :
    ([("searchNum", int 7)].map Prod.fst).Nodup
    ∧ (StateManager.updateSettings [("searchNum", int 7)]
        ((StateManager.new : StateManager Unit), ())).2.1.state.lookup "settings"
      = some (obj [("modelType", str "l14"), ("indexType", str "cos"), ("searchNum", int 7)])
    ∧ (StateManager.updateSettings [("searchNum", int 7)]
        ((StateManager.new : StateManager Unit), ())).2.1.state.lookup "currentApi"
      = some (str "imagen") :=
  ⟨by decide, rfl,
   ((updateSettings_frame (StateManager.new : StateManager Unit) () [("searchNum", int 7)]
      (by decide)).2.2.1 "currentApi" (by decide)).trans rfl⟩

end

/-! ## The result of a request in the state -/

section
open ImageGeneratorController UiManager

theorem getProp_ok (r : JsVal) (key : String) (h1 : r ≠ undefined) (h2 : r ≠ null) :
    getProp r key = .ok (propOf r key) := by
  cases r <;> first | rfl | contradiction

theorem setResult_eq {ε : Type} (r : JsVal) (sm : StateManager ε) (env : ε)
    (h1 : r ≠ undefined) (h2 : r ≠ null) :
    StateManager.setResult r (sm, env)
      = (.ok (), ({ sm with
            state := (spread sm.state
              [("lastResult", r), ("queryImage", JsVal.or (propOf r "queryImage") null),
               ("resultImages", JsVal.or (propOf r "vectorResult") (arr []))]) },
          runCallbacks sm.subscribers (spread sm.state
            [("lastResult", r), ("queryImage", JsVal.or (propOf r "queryImage") null),
             ("resultImages", JsVal.or (propOf r "vectorResult") (arr []))]) sm.state env)) := by
  simp only [StateManager.setResult, Js.bind_apply, Js.eval_apply, getProp_ok r _ h1 h2,
    setState_eq]

theorem onUi_stateOf {α : Type} (x : Js Ui α) : Js.Preserves stateOf (onUi x) :=
  onUi_preserves _ _ (fun _ _ => rfl)

theorem handleError_stateOf (e : JsThrown) : Js.Preserves stateOf (handleError e) := by
  unfold handleError
  refine Js.preserves_bind _ _ (Js.preserves_eval _) (fun _ => ?_)
  exact onUi_stateOf _

theorem handleSuccess_stateOf (r : JsVal) (w : World) (h1 : r ≠ undefined) (h2 : r ≠ null) :
    stateOf (handleSuccess r w).2
      = (stateOf w).map (fun st => spread st
          [("lastResult", r), ("queryImage", JsVal.or (propOf r "queryImage") null),
           ("resultImages", JsVal.or (propOf r "vectorResult") (arr []))]) := by
  have hrest : Js.Preserves stateOf (do
      onUi (displayResults r)
      let limitation ← Js.eval (getProp r "_server_limitation")
      if limitation.truthy then onUi (displayWarning (propOf limitation "message"))
      else Js.ret ()) := by
    refine Js.preserves_bind _ _ (onUi_stateOf _) (fun _ => ?_)
    refine Js.preserves_bind _ _ (Js.preserves_eval _) (fun _ => ?_)
    exact Js.preserves_ite _ _ _ (onUi_stateOf _) (Js.preserves_ret _)
  have hfirst : ∃ w1, onStateManager (StateManager.setResult r) w = (.ok (), w1)
      ∧ stateOf w1 = (stateOf w).map (fun st => spread st
          [("lastResult", r), ("queryImage", JsVal.or (propOf r "queryImage") null),
           ("resultImages", JsVal.or (propOf r "vectorResult") (arr []))]) := by
    unfold onStateManager stateOf
    cases hsm : w.stateManager with
    | none => exact ⟨w, rfl, by simp [hsm]⟩
    | some sm =>
      simp only [setResult_eq r sm w.ui h1 h2]
      exact ⟨_, rfl, rfl⟩
  obtain ⟨w1, hw1, hst⟩ := hfirst
  unfold handleSuccess
  rw [Js.bind_apply, hw1]
  exact (hrest w1).trans hst

theorem generateImageResumed_ok_stateOf (r : JsVal) (w : World)
    (h1 : r ≠ undefined) (h2 : r ≠ null) :
    stateOf (generateImageResumed (.ok r) w).2
      = (stateOf w).map (fun st => spread (spread st
          [("lastResult", r), ("queryImage", JsVal.or (propOf r "queryImage") null),
           ("resultImages", JsVal.or (propOf r "vectorResult") (arr []))])
          [("isLoading", bool false)]) := by
  have hfin : ∀ w1 : World, stateOf (afterFinally w1)
      = (stateOf w1).map (fun st => spread st [("isLoading", bool false)]) := by
    intro w1
    unfold afterFinally stateOf
    cases hsm : w1.stateManager <;> rfl
  have hbody : stateOf (Js.tryCatchJs (do let result ← Js.eval (.ok r); handleSuccess result)
      (fun error => handleError error) w).2
      = (stateOf w).map (fun st => spread st
          [("lastResult", r), ("queryImage", JsVal.or (propOf r "queryImage") null),
           ("resultImages", JsVal.or (propOf r "vectorResult") (arr []))]) := by
    have hs := handleSuccess_stateOf r w h1 h2
    simp only [Js.tryCatchJs, Js.bind_apply, Js.eval_apply]
    rcases hres : handleSuccess r w with ⟨res, w1⟩
    rw [hres] at hs
    cases res with
    | ok a => exact hs
    | error e => exact (handleError_stateOf e w1).trans hs
  simp only [generateImageResumed, Js.tryFinallyJs, Js.bind_apply, finallyBlock_eq]
  rw [hfin, hbody, Option.map_map]
  rfl

end

section
open ImageGeneratorController UiManager

/-- Counterexample to C12 as stated: a response whose `queryImage` is the empty
string and whose `vectorResult` is `null`: when `generateImage` has completed,
the state holds `null` as `queryImage`, not the empty string of the response,
and the empty list as `resultImages`. -/
theorem generateImage_falsy_fields_replaced :
    propOf (obj [("result", bool true), ("queryImage", str ""), ("vectorResult", null)])
        "queryImage" = str ""
    ∧ (stateOf (generateImageSettled
          (.success (obj [("result", bool true), ("queryImage", str ""), ("vectorResult", null)]))
          (generateImage exampleWorld).2).2).map (fun st => st.lookup "queryImage")
        = some (some null)
    ∧ (stateOf (generateImageSettled
          (.success (obj [("result", bool true), ("queryImage", str ""), ("vectorResult", null)]))
          (generateImage exampleWorld).2).2).map (fun st => st.lookup "resultImages")
        = some (some (arr [])) :=
  ⟨rfl, rfl, rfl⟩

/-- C12 as amended: for every valid input on a page with a state manager and
every response `r` other than `undefined` and `null`, when `generateImage` has
completed the state holds `r` as `lastResult`, as `queryImage` the `queryImage`
of `r` when that is truthy and `null` otherwise, and as `resultImages` the
`vectorResult` of `r` when that is truthy and the empty list otherwise. For the
input and the response of the scenario the page shows one query image and
exactly one result block, which reads `유사도: 92.3%`. -/
theorem generateImage_success_stores_result (w : World) (sm : StateManager Ui) (r : JsVal)
    (hsm : w.stateManager = some sm) (hidle : w.isGenerating = false)
    (hvalid : (collectInputData w.ui).valid = true)
    (h1 : r ≠ undefined) (h2 : r ≠ null) :
    (∃ st, stateOf (generateImageSettled (.success r) (generateImage w).2).2 = some st
      ∧ st.lookup "lastResult" = some r
      ∧ st.lookup "queryImage"
          = some (if (propOf r "queryImage").truthy then propOf r "queryImage" else null)
      ∧ st.lookup "resultImages"
          = some (if (propOf r "vectorResult").truthy then propOf r "vectorResult" else arr []))
    ∧ (collectInputData exampleWorld.ui).toObj
        = [("prompt", str "a cat"), ("modelType", str "l14"), ("indexType", str "cos"),
           ("searchNum", int 4), ("querySend", bool true)]
    ∧ (generateImageSettled (.success exampleResponse) (generateImage exampleWorld).2).2.ui.queryImageZone
        = [{ src := "data:image/png;base64,AAAA", cls := "query_image",
             alt := "생성된 쿼리 이미지", loading := none }]
    ∧ (generateImageSettled (.success exampleResponse)
          (generateImage exampleWorld).2).2.ui.resultImageZone
        = [{ img := { src := "data:image/png;base64,BBBB", cls := "result_image",
                      alt := "결과 이미지 1", loading := some "lazy" },
             percent := "유사도: 92.3%" }]
    ∧ (stateOf (generateImageSettled (.success exampleResponse)
          (generateImage exampleWorld).2).2).map (fun st => st.lookup "lastResult")
        = some (some exampleResponse) := by
  refine ⟨?_, rfl, rfl, rfl, rfl⟩
  obtain ⟨w1, hw1, _, _, _, _, hsubs⟩ := generateImage_valid w hidle hvalid
  have hsome : ∃ st1, stateOf w1 = some st1 := by
    rw [hsm] at hsubs
    unfold stateOf
    cases h : w1.stateManager with
    | none => rw [h] at hsubs; simp at hsubs
    | some sm1 => exact ⟨sm1.state, rfl⟩
  obtain ⟨st1, hst1⟩ := hsome
  refine ⟨spread (spread st1
      [("lastResult", r), ("queryImage", JsVal.or (propOf r "queryImage") null),
       ("resultImages", JsVal.or (propOf r "vectorResult") (arr []))])
      [("isLoading", bool false)], ?_, ?_, ?_, ?_⟩
  · rw [hw1]
    simp only [generateImageSettled, ApiClient.generateImageSettled]
    rw [generateImageResumed_ok_stateOf r w1 h1 h2, hst1]
    rfl
  · rw [lookup_spread_of_not_mem _ _ _ (by decide)]
    exact lookup_spread_of_mem _ _ _ _ (by simp) (by simp)
  · rw [lookup_spread_of_not_mem _ _ _ (by decide)]
    exact lookup_spread_of_mem _ _ _ _ (by simp) (by simp [JsVal.or])
  · rw [lookup_spread_of_not_mem _ _ _ (by decide)]
    exact lookup_spread_of_mem _ _ _ _ (by simp) (by simp [JsVal.or])

/-- Witness of C12 as amended: the page and the response of the scenario. -/
theorem generateImage_success_stores_result_witness :
    exampleWorld.isGenerating = false
    ∧ (collectInputData exampleWorld.ui).valid = true
    ∧ ∃ st, stateOf (generateImageSettled (.success exampleResponse)
          (generateImage exampleWorld).2).2 = some st
        ∧ st.lookup "lastResult" = some exampleResponse :=
  ⟨rfl, rfl,
   (generateImage_success_stores_result exampleWorld
      (StateManager.subscribe (stateSubscription 0) StateManager.new) exampleResponse rfl rfl rfl
      (fun h => JsVal.noConfusion h) (fun h => JsVal.noConfusion h)).1.imp
     (fun _ h => ⟨h.1, h.2.1⟩)⟩

end

/-! ## The result zone -/

section
open UiManager

theorem forEachFrom_render (cb : JsVal → Nat → Js Ui Unit)
    (hcb : ∀ item index ui, cb item index ui
      = ((renderItem item index).1,
          { ui with resultImageZone := ui.resultImageZone ++ (renderItem item index).2 }))
    (index : Nat) (items : List JsVal) (ui : Ui) :
    Js.forEachFrom index items cb ui
      = ((renderFrom index items).1,
          { ui with resultImageZone := ui.resultImageZone ++ (renderFrom index items).2 }) := by
  induction items generalizing index ui with
  | nil => simp [Js.forEachFrom, renderFrom, Js.ret_apply]
  | cons item rest ih =>
    simp only [Js.forEachFrom, Js.andThen_apply, hcb, renderFrom]
    rcases hitem : renderItem item index with ⟨r, bs⟩
    cases r with
    | ok a => simp [ih, List.append_assoc]
    | error e => simp

theorem displayResultImages_empty (ui : Ui) : displayResultImages (arr []) ui = (.ok (), ui) := by
  rfl

theorem displayResultImages_nonempty (items : List JsVal) (hne : items ≠ []) (ui : Ui) :
    displayResultImages (arr items) ui
      = ((renderFrom 0 items).1, { ui with resultImageZone := (renderFrom 0 items).2 }) := by
  have hlen : strictEq (int items.length) (int 0) = false := by
    cases items with
    | nil => exact absurd rfl hne
    | cons a rest =>
      simp only [strictEq, int, JsNum.ofInt, JsNum.eq, List.length_cons]
      rw [decide_eq_false_iff_not]
      push_cast
      omega
  have htruthy : (arr items).truthy = true := rfl
  have hlength : getProp (arr items) "length" = .ok (int items.length) := rfl
  unfold displayResultImages
  simp only [htruthy, Bool.not_true, Bool.false_eq_true, if_false, hlength,
    Js.bind_apply, Js.eval_apply, hlen, Js.update_apply, forEachItems, Js.forEach]
  refine (forEachFrom_render _ (fun item index ui1 => ?_) 0 items _).trans ?_
  · simp only [Js.bind_apply, Js.eval_apply, renderItem]
    cases hi : getProp item "image" with
    | error e => simp
    | ok image =>
      by_cases ht : image.truthy = true
      · simp only [ht, if_true, Bool.true_and]
        cases hp : getProp item "percents" with
        | error e => simp
        | ok percents =>
          by_cases hu : strictEq percents undefined = true
          · simp [hu, Js.ret_apply]
          · simp only [hu, Bool.not_false, if_true, Js.bind_apply, Js.eval_apply, Bool.not_eq_true]
            cases hb : createResultBlock item index with
            | error e => simp [hu]
            | ok b => simp [hu, Js.update_apply]
      · simp [ht, Js.ret_apply]
  · simp

theorem renderItem_wellFormed (item : JsVal) (index : Nat) (h : wellFormedItem item = true) :
    (hasBothFields item = true →
        ∃ b, createResultBlock item index = .ok b ∧ renderItem item index = (.ok (), [b]))
    ∧ (hasBothFields item = false → renderItem item index = (.ok (), [])) := by
  have h1 : item ≠ undefined := by
    intro e
    rw [e] at h
    exact absurd h (by decide)
  have h2 : item ≠ null := by
    intro e
    rw [e] at h
    exact absurd h (by decide)
  have hshape : hasImage item = false ∨ hasNumericScore item = true ∨ lacksScore item = true := by
    simp only [wellFormedItem, Bool.and_eq_true, Bool.or_eq_true, Bool.not_eq_true'] at h
    rcases h.2 with (h3 | h3) | h3
    · exact Or.inl h3
    · exact Or.inr (Or.inl h3)
    · exact Or.inr (Or.inr h3)
  unfold renderItem createResultBlock
  simp only [getProp_ok item _ h1 h2]
  unfold hasBothFields
  by_cases himg : hasImage item = true
  · have himg1 : (propOf item "image").truthy = true := himg
    simp only [himg, himg1, if_true, Bool.true_and]
    cases hp : propOf item "percents" with
    | num n =>
      have hs : hasNumericScore item = true := by simp [hasNumericScore, hp]
      refine ⟨fun _ => ⟨_, rfl, ?_⟩, fun hf => ?_⟩
      · simp [strictEq, same, callToFixed1, bind, Except.bind, pure, Except.pure]
      · rw [hs] at hf
        exact absurd hf (by decide)
    | undefined =>
      have hs : hasNumericScore item = false := by simp [hasNumericScore, hp]
      refine ⟨fun ht => ?_, fun _ => ?_⟩
      · rw [hs] at ht
        exact absurd ht (by decide)
      · simp [strictEq, same]
    | _ =>
      exfalso
      simp [himg, hasNumericScore, lacksScore, hp] at hshape
  · have himg0 : hasImage item = false := by simpa using himg
    have himg1 : (propOf item "image").truthy = false := himg0
    simp [himg0, himg1]

theorem renderFrom_wellFormed (items : List JsVal) (index : Nat)
    (h : ∀ item ∈ items, wellFormedItem item = true) :
    (renderFrom index items).1 = .ok ()
    ∧ List.Forall₂ (fun (p : Nat × JsVal) b => createResultBlock p.2 p.1 = .ok b)
        ((items.enumFrom index).filter (fun p => hasBothFields p.2)) (renderFrom index items).2
    ∧ (renderFrom index items).2.length = (items.filter hasBothFields).length := by
  induction items generalizing index with
  | nil => exact ⟨rfl, List.Forall₂.nil, rfl⟩
  | cons item rest ih =>
    have hitem := renderItem_wellFormed item index (h item (List.mem_cons_self _ _))
    have hrest := ih (index + 1) (fun a ha => h a (List.mem_cons_of_mem _ ha))
    cases hb : hasBothFields item with
    | true =>
      obtain ⟨b, hcreate, hrender⟩ := hitem.1 hb
      simp only [renderFrom, hrender, List.enumFrom_cons, List.filter_cons, hb, if_true,
        List.singleton_append, List.length_cons]
      exact ⟨hrest.1, List.Forall₂.cons hcreate hrest.2.1, by rw [hrest.2.2]⟩
    | false =>
      have hrender := hitem.2 hb
      simp only [renderFrom, hrender, List.enumFrom_cons, List.filter_cons, hb,
        Bool.false_eq_true, if_false, List.nil_append]
      exact hrest

/-- C15: an item with an image whose `percents` is `null` has no numeric score,
and `displayResultImages` does not skip it: the call on the list of this one
item ends with a `TypeError`, thrown by `createResultBlock`. On the list of an
item with both fields followed by such an item, the call renders the first
item and ends with the `TypeError`; when this list is the `vectorResult` of the
response to `generateImage` on the example page, the page ends with the one
block and the generic error message displayed. -/
theorem displayResultImages_throws_on_null_score :
    hasImage (obj [("image", str "CCCC"), ("percents", null)]) = true
    ∧ hasNumericScore (obj [("image", str "CCCC"), ("percents", null)]) = false
    ∧ displayResultImages (arr [obj [("image", str "CCCC"), ("percents", null)]]) examplePage
      = (.error (.typeError "Cannot read properties of null (reading toFixed)"), examplePage)
    ∧ displayResultImages
        (arr [obj [("image", str "BBBB"), ("percents", num (.dec 92345 3))],
          obj [("image", str "CCCC"), ("percents", null)]]) examplePage
      = (.error (.typeError "Cannot read properties of null (reading toFixed)"),
          { examplePage with
            resultImageZone :=
              [{ img := { src := "data:image/png;base64,BBBB", cls := "result_image",
                          alt := "결과 이미지 1", loading := some "lazy" },
                 percent := "유사도: 92.3%" }] })
    ∧ (ImageGeneratorController.generateImageSettled
        (.success (obj [("result", bool true), ("queryImage", str "AAAA"),
          ("vectorResult",
            arr [obj [("image", str "BBBB"), ("percents", num (.dec 92345 3))],
              obj [("image", str "CCCC"), ("percents", null)]])]))
        (ImageGeneratorController.generateImage exampleWorld).2).2.ui.errorText
      = "이미지 생성 중 오류가 발생했습니다."
    ∧ (ImageGeneratorController.generateImageSettled
        (.success (obj [("result", bool true), ("queryImage", str "AAAA"),
          ("vectorResult",
            arr [obj [("image", str "BBBB"), ("percents", num (.dec 92345 3))],
              obj [("image", str "CCCC"), ("percents", null)]])]))
        (ImageGeneratorController.generateImage exampleWorld).2).2.ui.errorVisible = true
    ∧ (ImageGeneratorController.generateImageSettled
        (.success (obj [("result", bool true), ("queryImage", str "AAAA"),
          ("vectorResult",
            arr [obj [("image", str "BBBB"), ("percents", num (.dec 92345 3))],
              obj [("image", str "CCCC"), ("percents", null)]])]))
        (ImageGeneratorController.generateImage exampleWorld).2).2.ui.resultImageZone.length
      = 1 :=
  ⟨rfl, rfl, rfl, rfl, rfl, rfl, rfl⟩

/-- Away from the items that make `createResultBlock` throw: for every non-empty
list of items of the shape the back end sends (no item is `undefined` or
`null`, and the `percents` of an item with an image is a number or is absent),
`displayResultImages` returns and leaves in the
result zone exactly one block for each item that has both an image and a
numeric score, in the order of the list, each block being the one that
`createResultBlock` makes of the item and its index; the other items are
skipped, so the number of blocks is the number of items that have both
fields. -/
theorem displayResultImages_one_block_per_full_item (ui : Ui) (items : List JsVal)
    (hne : items ≠ []) (hshape : ∀ item ∈ items, wellFormedItem item = true) :
    (displayResultImages (arr items) ui).1 = .ok ()
    ∧ List.Forall₂ (fun (p : Nat × JsVal) b => createResultBlock p.2 p.1 = .ok b)
        (items.enum.filter (fun p => hasBothFields p.2))
        (displayResultImages (arr items) ui).2.resultImageZone
    ∧ (displayResultImages (arr items) ui).2.resultImageZone.length
        = (items.filter hasBothFields).length := by
  rw [displayResultImages_nonempty items hne ui]
  exact renderFrom_wellFormed items 0 hshape

/-- Of an item with both fields, an item without image and an item without
score, the first alone is rendered. -/
theorem displayResultImages_one_block_per_full_item_witness :
    (displayResultImages (arr [obj [("image", str "BBBB"), ("percents", num (.dec 92345 3))],
        obj [("percents", int 50)], obj [("image", str "CCCC")]])
      examplePage).2.resultImageZone.length = 1 :=
  (displayResultImages_one_block_per_full_item examplePage
    [obj [("image", str "BBBB"), ("percents", num (.dec 92345 3))],
      obj [("percents", int 50)], obj [("image", str "CCCC")]]
    (fun h => List.noConfusion h)
    (by
      intro item hitem
      simp only [List.mem_cons, List.mem_singleton, List.not_mem_nil, or_false] at hitem
      rcases hitem with h | h | h <;> rw [h] <;> rfl)).2.2.trans rfl

/-- Counterexample to C16 as stated: `displayResultImages` of the empty list
returns at once and leaves the block that the result zone had;
`displayQueryImage` of the empty string on an empty zone leaves no image. -/
theorem displayResultImages_empty_list_keeps_prior_content :
    (displayResultImages (arr [])
        { examplePage with
          resultImageZone :=
            [{ img := { src := "data:image/png;base64,BBBB", cls := "result_image",
                        alt := "결과 이미지 1", loading := some "lazy" },
               percent := "유사도: 92.3%" }] }).2.resultImageZone.length = 1
    ∧ (displayQueryImage (str "") examplePage).2.queryImageZone.length = 0 :=
  ⟨rfl, rfl⟩

/-- C16 as amended: for every non-empty list `items`, what `displayResultImages`
leaves in the result zone does not depend on what the zone held before (it is
what the call leaves on an empty zone), and for items of the shape the back end
sends it is exactly the blocks of the items that have both fields, in order;
for every list, calling `displayResultImages` twice leaves what calling it once
leaves; `displayQueryImage` of a truthy image leaves exactly one query image,
the one of this image, whatever the zone held before, and calling it twice
leaves what calling it once leaves. -/
theorem displayResultImages_replaces_prior_content (ui : Ui) (items : List JsVal)
    (prior : List ResultBlock) (img : JsVal) (priorImages : List ImgElement) :
    (items ≠ [] →
      (displayResultImages (arr items) { ui with resultImageZone := prior }).2.resultImageZone
        = (displayResultImages (arr items) { ui with resultImageZone := [] }).2.resultImageZone)
    ∧ (items ≠ [] → (∀ item ∈ items, wellFormedItem item = true) →
        List.Forall₂ (fun (p : Nat × JsVal) b => createResultBlock p.2 p.1 = .ok b)
          (items.enum.filter (fun p => hasBothFields p.2))
          (displayResultImages (arr items) { ui with resultImageZone := prior }).2.resultImageZone)
    ∧ displayResultImages (arr items) (displayResultImages (arr items) ui).2
        = displayResultImages (arr items) ui
    ∧ (img.truthy = true →
        (displayQueryImage img { ui with queryImageZone := priorImages }).2.queryImageZone
          = [{ src := BASE64_PREFIX ++ img.toStr, cls := "query_image",
               alt := "생성된 쿼리 이미지", loading := none }])
    ∧ displayQueryImage img (displayQueryImage img ui).2 = displayQueryImage img ui := by
  refine ⟨?_, ?_, ?_, ?_, ?_⟩
  · intro hne
    rw [displayResultImages_nonempty items hne, displayResultImages_nonempty items hne]
  · intro hne hshape
    rw [displayResultImages_nonempty items hne]
    exact (renderFrom_wellFormed items 0 hshape).2.1
  · by_cases hne : items = []
    · rw [hne]
      rfl
    · rw [displayResultImages_nonempty items hne, displayResultImages_nonempty items hne]
  · intro himg
    simp [displayQueryImage, himg, Js.update_apply]
  · by_cases himg : img.truthy = true
    · simp [displayQueryImage, himg, Js.update_apply]
    · simp [displayQueryImage, himg, Js.ret_apply]

/-- Witness of C16 as amended: the item of the scenario replaces the block that
the result zone held. -/
theorem displayResultImages_replaces_prior_content_witness :
    (displayResultImages (arr [obj [("image", str "BBBB"), ("percents", num (.dec 92345 3))]])
        { examplePage with
          resultImageZone :=
            [{ img := { src := "data:image/png;base64,CCCC", cls := "result_image",
                        alt := "결과 이미지 1", loading := some "lazy" },
               percent := "유사도: 10.0%" }] }).2.resultImageZone
      = [{ img := { src := "data:image/png;base64,BBBB", cls := "result_image",
                    alt := "결과 이미지 1", loading := some "lazy" },
           percent := "유사도: 92.3%" }] :=
  ((displayResultImages_replaces_prior_content examplePage
    [obj [("image", str "BBBB"), ("percents", num (.dec 92345 3))]]
    [{ img := { src := "data:image/png;base64,CCCC", cls := "result_image",
                alt := "결과 이미지 1", loading := some "lazy" },
       percent := "유사도: 10.0%" }] (str "AAAA") []).1 (fun h => List.noConfusion h)).trans rfl

end

/-! ## The API configuration manager -/

section
open ApiConfigManager

theorem setConnectionStatus_spec (status : String) (w : ConfigWorld) :
    (setConnectionStatus status w).1 = .ok ()
    ∧ (setConnectionStatus status w).2.connectionStatus = status
    ∧ (setConnectionStatus status w).2.currentUrl = w.currentUrl
    ∧ (setConnectionStatus status w).2.fetches = w.fetches
    ∧ (setConnectionStatus status w).2.page.statusDot.isSome = w.page.statusDot.isSome
    ∧ flashes (setConnectionStatus status w).2
        = flashes w ++
          (if w.connectionStatus ≠ status ∧ w.connectionStatus ≠ "checking"
              ∧ w.page.statusDot.isSome = true then
             [if status = "connected" then "flash-success" else "flash-error"]
           else []) := by
  simp only [setConnectionStatus, Js.bind_apply, Js.read_apply, Js.update_apply,
    updateConnectionStatusUI, flashStatusChange]
  by_cases hc : w.connectionStatus ≠ status ∧ w.connectionStatus ≠ "checking"
  · rw [if_pos hc]
    cases hd : w.page.statusDot with
    | none =>
      have hc2 : ¬(w.connectionStatus ≠ status ∧ w.connectionStatus ≠ "checking"
          ∧ (none : Option (List String)).isSome = true) := fun h => absurd h.2.2 (by decide)
      rw [if_neg hc2]
      simp [Js.update_apply, hd, flashes]
    | some dot =>
      have hc2 : w.connectionStatus ≠ status ∧ w.connectionStatus ≠ "checking"
          ∧ (some dot).isSome = true := ⟨hc.1, hc.2, rfl⟩
      rw [if_pos hc2]
      cases ht : w.page.statusText with
      | none => simp [Js.update_apply, hd, flashes, List.filterMap_append]
      | some text =>
        simp only [Js.update_apply]
        split_ifs <;> simp [flashes, List.filterMap_append]
  · rw [if_neg hc]
    have hc2 : ¬(w.connectionStatus ≠ status ∧ w.connectionStatus ≠ "checking"
        ∧ w.page.statusDot.isSome = true) := fun h => hc ⟨h.1, h.2.1⟩
    rw [if_neg hc2]
    cases hd : w.page.statusDot with
    | none => simp [Js.ret_apply, flashes, hd]
    | some dot =>
      cases ht : w.page.statusText with
      | none => simp [Js.ret_apply, flashes, hd]
      | some text =>
        simp only [Js.ret_apply]
        split_ifs <;> simp [flashes]

theorem checkConnectionStatus_poll (w : ConfigWorld) :
    (checkConnectionStatus false w).2.connectionStatus = "checking"
    ∧ (checkConnectionStatus false w).2.page.statusDot.isSome = w.page.statusDot.isSome
    ∧ flashes (checkConnectionStatus false w).2
        = flashes w ++
          (if w.connectionStatus ≠ "checking" ∧ w.page.statusDot.isSome = true then
             ["flash-error"]
           else []) := by
  have spec := setConnectionStatus_spec "checking" w
  simp only [checkConnectionStatus, Js.bind_apply]
  rcases hs : setConnectionStatus "checking" w with ⟨r, w1⟩
  rw [hs] at spec
  obtain ⟨hr, hstatus, _, _, hdot, hflash⟩ := spec
  simp only at hr hstatus hdot hflash
  subst hr
  simp only [Bool.false_eq_true, if_false, Js.ret_apply, Js.update_apply]
  refine ⟨hstatus, hdot, ?_⟩
  have : flashes { w1 with fetches := w1.fetches ++ [statusRequest] } = flashes w1 := rfl
  rw [this, hflash]
  by_cases hc : w.connectionStatus = "checking" <;> simp [hc]

theorem checkConnectionStatusResumed_poll (outcome : FetchOutcome) (w : ConfigWorld) :
    ∃ status, (status = "connected" ∨ status = "disconnected")
      ∧ checkConnectionStatusResumed false outcome w = setConnectionStatus status w := by
  have hset : ∀ status, setConnectionStatus status w
      = (.ok (), (setConnectionStatus status w).2) := fun status =>
    Prod.ext (setConnectionStatus_spec status w).1 rfl
  unfold checkConnectionStatusResumed
  simp only [Js.tryFinallyJs, Js.tryCatchJs, Bool.false_eq_true, if_false, Js.ret_apply,
    Js.bind_apply, Js.eval_apply]
  cases outcome with
  | rejected error =>
    refine ⟨"disconnected", Or.inr rfl, ?_⟩
    simp only [awaitFetch]
  | resolved response =>
    simp only [awaitFetch]
    cases hjson : response.json with
    | error e =>
      refine ⟨"disconnected", Or.inr rfl, ?_⟩
      simp only []
    | ok data =>
      simp only []
      cases hconn : (if response.ok = true then
          (getProp data "status").map (fun s => strictEq s (str "connected"))
          else .ok false) with
      | error e =>
        refine ⟨"disconnected", Or.inr rfl, ?_⟩
        simp only []
      | ok connected =>
        cases connected with
        | true =>
          refine ⟨"connected", Or.inl rfl, ?_⟩
          simp only [if_true]
          rw [hset "connected"]
        | false =>
          refine ⟨"disconnected", Or.inr rfl, ?_⟩
          simp only [Bool.false_eq_true, if_false]
          rw [hset "disconnected"]

/-- C14: two polls in a row that both find the API connected, on a page with
the status dot: the first poll triggers no flash, the second one ends with the
same status as the first and has triggered a flash, of class `flash-error`,
which the status dot carries as soon as the second poll has started. For every
world with a status dot and every way the request of a poll can end, the poll
sets the status to `checking` when it starts and ends with the status
`connected` or `disconnected`, and it has triggered one flash, of class
`flash-error`, exactly when the status was not `checking` when the poll
started, whatever the status it ends with: after a first poll every poll
flashes, and no poll flashes `flash-success`. -/
theorem poll_flashes_whatever_its_outcome :
    (poll connectedOutcome exampleConfigWorld).connectionStatus = "connected"
    ∧ flashes (poll connectedOutcome exampleConfigWorld) = []
    ∧ (poll connectedOutcome (poll connectedOutcome exampleConfigWorld)).connectionStatus
        = "connected"
    ∧ flashes (poll connectedOutcome (poll connectedOutcome exampleConfigWorld))
        = ["flash-error"]
    ∧ (checkConnectionStatus false (poll connectedOutcome exampleConfigWorld)).2.page.statusDot
        = some ["status_dot", "checking", "flash-error"]
    ∧ flashes (poll connectedOutcome
        (poll disconnectedOutcome (poll connectedOutcome exampleConfigWorld)))
        = ["flash-error", "flash-error"]
    ∧ ∀ (w : ConfigWorld) (outcome : FetchOutcome), w.page.statusDot.isSome = true →
        (checkConnectionStatus false w).2.connectionStatus = "checking"
        ∧ ((poll outcome w).connectionStatus = "connected"
          ∨ (poll outcome w).connectionStatus = "disconnected")
        ∧ flashes (poll outcome w)
            = flashes w ++ (if w.connectionStatus = "checking" then [] else ["flash-error"]) := by
  refine ⟨rfl, rfl, rfl, rfl, rfl, rfl, ?_⟩
  intro w outcome hdot
  obtain ⟨hstatus, _, hflash⟩ := checkConnectionStatus_poll w
  obtain ⟨status, hcases, hresumed⟩ :=
    checkConnectionStatusResumed_poll outcome (checkConnectionStatus false w).2
  have spec := setConnectionStatus_spec status (checkConnectionStatus false w).2
  unfold poll
  rw [hresumed]
  refine ⟨hstatus, ?_, ?_⟩
  · rw [spec.2.1]
    exact hcases
  · rw [spec.2.2.2.2.2, hflash, hstatus]
    by_cases hc : w.connectionStatus = "checking" <;> simp [hc, hdot]

theorem changeRequests_append_status (w : ConfigWorld) :
    changeRequests { w with fetches := w.fetches ++ [statusRequest] } = changeRequests w := by
  simp [changeRequests, List.filter_append, statusRequest]

theorem Js.tryCatch_of_body {σ α β : Type} (f : σ → β) (v : β) (x : Js σ α)
    (k : JsThrown → Js σ α) (s : σ) (hx : f (x s).2 = v) (hk : ∀ e, Js.Preserves f (k e)) :
    f (Js.tryCatchJs x k s).2 = v := by
  unfold Js.tryCatchJs
  rcases hxs : x s with ⟨r, s1⟩
  rw [hxs] at hx
  cases r with
  | ok a => exact hx
  | error e => exact (hk e s1).trans hx

section
variable {β : Type} (f : ConfigWorld → β)
  (hf : ∀ w1 w2 : ConfigWorld, w2.currentUrl = w1.currentUrl →
    changeRequests w2 = changeRequests w1 → f w2 = f w1)
include hf

theorem setConnectionStatus_keeps (status : String) :
    Js.Preserves f (setConnectionStatus status) := by
  intro w
  have spec := setConnectionStatus_spec status w
  exact hf _ _ spec.2.2.1 (by unfold changeRequests; rw [spec.2.2.2.1])

theorem checkConnectionStatus_keeps (showAnimation : Bool) :
    Js.Preserves f (checkConnectionStatus showAnimation) := by
  unfold checkConnectionStatus
  refine Js.preserves_bind _ _ (setConnectionStatus_keeps f hf _) (fun _ => ?_)
  refine Js.preserves_bind _ _ ?_ (fun _ => ?_)
  · exact Js.preserves_ite _ _ _ (Js.preserves_update _ (fun w => hf _ _ rfl rfl))
      (Js.preserves_ret _)
  · exact Js.preserves_update _ (fun w => hf _ _ rfl (changeRequests_append_status w))

theorem showMessage_keeps (message type : String) : Js.Preserves f (showMessage message type) := by
  unfold showMessage
  refine Js.preserves_update _ (fun w => ?_)
  cases h : w.page.errorZone <;> exact hf _ _ rfl rfl

theorem afterUrlChange_keeps (newUrl : JsVal) :
    Js.Preserves f (do
      updateCurrentUrlDisplay
      updateButtonStates
      Js.update (fun w =>
        { w with page := { w.page with customUrlInput := w.page.customUrlInput.map (fun _ => "") } })
      Js.tryCatchJs (checkConnectionStatus true) (fun _ => Js.ret ())
      showMessage ("API URL이 변경되었습니다: " ++ newUrl.toStr) "success") := by
  refine Js.preserves_bind _ _ (Js.preserves_update _ (fun w => hf _ _ rfl rfl)) (fun _ => ?_)
  refine Js.preserves_bind _ _ (fun w => hf _ _ rfl rfl) (fun _ => ?_)
  refine Js.preserves_bind _ _ (Js.preserves_update _ (fun w => hf _ _ rfl rfl)) (fun _ => ?_)
  refine Js.preserves_bind _ _ ?_ (fun _ => ?_)
  · exact Js.preserves_tryCatch _ _ (checkConnectionStatus_keeps f hf true)
      (fun _ => Js.preserves_ret _)
  · exact showMessage_keeps f hf _ _

theorem changeApiUrl_handler_keeps (error : JsThrown) :
    Js.Preserves f (do
      let message ← Js.eval (messageOf error)
      showMessage ("API URL 변경 실패: " ++ message.toStr) "error") := by
  refine Js.preserves_bind _ _ (Js.preserves_eval _) (fun _ => ?_)
  exact showMessage_keeps f hf _ _

end

theorem changeApiUrlResumed_keeps {β : Type} (f : ConfigWorld → β)
    (hf : ∀ w1 w2 : ConfigWorld, w2.currentUrl = w1.currentUrl →
      changeRequests w2 = changeRequests w1 → f w2 = f w1)
    (newUrl : JsVal) (outcome : FetchOutcome) (w : ConfigWorld)
    (hupdate : f { w with currentUrl := newUrl } = f w
      ∨ ∀ response, outcome = .resolved response →
          response.ok = false ∨ ∃ e, response.json = .error e) :
    f (changeApiUrlResumed newUrl outcome w).2 = f w := by
  unfold changeApiUrlResumed
  refine Js.tryCatch_of_body f (f w) _ _ w ?_ (fun e => changeApiUrl_handler_keeps f hf e)
  cases outcome with
  | rejected error => rfl
  | resolved response =>
    simp only [awaitFetch, Js.bind_apply, Js.eval_apply]
    cases hjson : response.json with
    | error e => rfl
    | ok data =>
      simp only []
      cases hok : response.ok with
      | false =>
        simp only [Bool.false_eq_true, if_false, Js.bind_apply, Js.eval_apply]
        cases getProp data "detail" <;> rfl
      | true =>
        simp only [if_true, Js.bind_apply, Js.update_apply]
        rcases hupdate with h | h
        · exact (afterUrlChange_keeps f hf newUrl _).trans h
        · rcases h response rfl with h1 | ⟨e, h1⟩
          · rw [hok] at h1
            exact absurd h1 (by decide)
          · rw [hjson] at h1
            exact absurd h1 (fun h => Except.noConfusion h)

/-- Counterexample to C13 as stated: `changeApiUrl("http://ok")` whose request
is answered with status 200 and a body that is not JSON: the status is 2xx and
the tracked URL remains the previous one; the failure is displayed. -/
theorem changeApiUrl_keeps_url_on_unparsable_body :
    (awaitFetch unparsableOutcome).map (fun response => response.ok) = .ok true
    ∧ (changeApiUrl (str "http://ok") exampleConfigWorld).1 = .ok true
    ∧ exampleConfigWorld.currentUrl = str "http://old"
    ∧ (changeApiUrlResumed (str "http://ok") unparsableOutcome
        (changeApiUrl (str "http://ok") exampleConfigWorld).2).2.currentUrl
        = str "http://old"
    ∧ (changeApiUrlResumed (str "http://ok") unparsableOutcome
        (changeApiUrl (str "http://ok") exampleConfigWorld).2).2.page.errorZone
        = some ("API URL 변경 실패: Unexpected end of JSON input", "red") :=
  ⟨rfl, rfl, rfl, rfl, rfl⟩

/-- C13 as amended: for every URL `u` that starts neither with `http://` nor
with `https://` (the empty string is one), `changeApiUrl(u)` ends at once with
an alert, without a call of `fetch` and with the tracked URL (and everything
but the alerts) as it was; for every `u` that starts with one of them it makes
one call of `fetch`, a POST to `/change-api-url` with the body `url: u`, and
waits. When that request has ended, no further request to `/change-api-url` is
made; the tracked URL is `u` when the response has a 2xx status and its body is
JSON, and is what it was when the status is not 2xx, when the body is not JSON
and when the request has failed. -/
theorem changeApiUrl_rejects_or_posts_once (w : ConfigWorld) (u : String)
    (outcome : FetchOutcome) :
    (startsWith (str u) "http://" = .ok false → startsWith (str u) "https://" = .ok false →
      ∃ message, changeApiUrl (str u) w = (.ok false, { w with alerts := w.alerts ++ [message] }))
    ∧ (startsWith (str u) "http://" = .ok true ∨ startsWith (str u) "https://" = .ok true →
        changeApiUrl (str u) w
          = (.ok true,
              { w with
                fetches := w.fetches ++
                  [{ url := "/change-api-url"
                     method := "POST"
                     headers := [("Content-Type", "application/json")]
                     cache := none
                     body := some [("url", str u)] }] }))
    ∧ changeRequests (changeApiUrlResumed (str u) outcome w).2 = changeRequests w
    ∧ (∀ response data, outcome = .resolved response → response.ok = true →
        response.json = .ok data →
        (changeApiUrlResumed (str u) outcome w).2.currentUrl = str u)
    ∧ ((∀ response, outcome = .resolved response →
          response.ok = false ∨ ∃ e, response.json = .error e) →
        (changeApiUrlResumed (str u) outcome w).2.currentUrl = w.currentUrl) := by
  refine ⟨?_, ?_, ?_, ?_, ?_⟩
  · intro h1 h2
    unfold changeApiUrl
    by_cases hu : (str u).truthy = true
    · refine ⟨"올바른 URL 형식이 아닙니다. http:// 또는 https://로 시작해야 합니다.", ?_⟩
      simp only [hu, Bool.not_true, Bool.false_eq_true, if_false, h1, h2, Js.bind_apply,
        Js.eval_apply, Bool.not_false, if_true, Bool.and_self, Js.update_apply, Js.pure_apply]
    · refine ⟨"URL을 입력하세요.", ?_⟩
      simp only [hu, Bool.not_false, if_true, Js.bind_apply, Js.update_apply, Js.pure_apply]
  · intro h
    have hu : (str u).truthy = true := by
      simp only [truthy, decide_eq_true_eq]
      rintro rfl
      rcases h with h | h
      · exact absurd (Except.ok.inj (h : Except.ok _ = Except.ok true)) (by decide)
      · exact absurd (Except.ok.inj (h : Except.ok _ = Except.ok true)) (by decide)
    unfold changeApiUrl
    rcases h with h | h
    · simp only [hu, Bool.not_true, Bool.false_eq_true, if_false, h, Js.bind_apply,
        Js.eval_apply, Bool.false_and, Js.update_apply, Js.pure_apply, changeRequest]
    · cases hhttp : startsWith (str u) "http://" with
      | error e => exact absurd hhttp (by simp [startsWith])
      | ok b =>
        cases b <;>
          simp only [hu, Bool.not_true, Bool.not_false, Bool.false_eq_true, if_false, if_true, h,
            Js.bind_apply, Js.eval_apply, Bool.false_and, Bool.and_false, Js.update_apply,
            Js.pure_apply, changeRequest]
  · refine changeApiUrlResumed_keeps changeRequests (fun _ _ _ h => h) _ _ _ (Or.inl rfl)
  · intro response data hout hok hjson
    subst hout
    unfold changeApiUrlResumed
    refine Js.tryCatch_of_body (fun w => w.currentUrl) (str u) _ _ w ?_
      (fun e => changeApiUrl_handler_keeps _ (fun _ _ h _ => h) e)
    simp only [awaitFetch, Js.bind_apply, Js.eval_apply, hjson, hok, if_true, Js.update_apply]
    exact afterUrlChange_keeps (fun w => w.currentUrl) (fun _ _ h _ => h) (str u) _
  · intro h
    exact changeApiUrlResumed_keeps (fun w => w.currentUrl) (fun _ _ h _ => h) _ _ _ (Or.inr h)

/-- Witness of C13 as amended: `ftp://x` is rejected with an alert and without
a call of `fetch`. -/
theorem changeApiUrl_rejects_or_posts_once_witness :
    ∃ message, changeApiUrl (str "ftp://x") exampleConfigWorld
      = (.ok false,
          { exampleConfigWorld with alerts := exampleConfigWorld.alerts ++ [message] }) :=
  (changeApiUrl_rejects_or_posts_once exampleConfigWorld "ftp://x" connectedOutcome).1 rfl rfl

end

/-! ## Subscribers that act on the state manager -/

section
variable {ε : Type}

theorem Js.tryCatch_ret_apply {σ : Type} (x : Js σ Unit) (s : σ) :
    Js.tryCatchJs x (fun _ => Js.ret ()) s = (.ok (), (x s).2) := by
  unfold Js.tryCatchJs
  rcases x s with ⟨r, s1⟩
  cases r <;> rfl

theorem notifyFrom_succ (behaviour : Behaviour ε) (prevState newState : JsObj)
    (rounds k : Nat) (s : LiveStateManager × ε) (callback : Nat)
    (h : s.1.subscribers.get? k = some callback) :
    LiveStateManager.notifyFrom behaviour prevState newState (rounds + 1) k s
      = LiveStateManager.notifyFrom behaviour prevState newState rounds (k + 1)
          (behaviour callback newState prevState s).2 := by
  simp only [LiveStateManager.notifyFrom, h, Js.andThen_apply, Js.tryCatch_ret_apply]

/-- The run with the log beside the world does to the manager and to the world
what the run without the log does. -/
theorem notifyFrom_recording (behaviour : Behaviour ε) (prevState newState : JsObj)
    (rounds k : Nat) (sm : LiveStateManager) (env : ε) (log : List CallRecord) :
    (LiveStateManager.notifyFrom (recordingBehaviour behaviour) prevState newState rounds k
        (sm, (env, log))).1
      = (LiveStateManager.notifyFrom behaviour prevState newState rounds k (sm, env)).1
    ∧ (LiveStateManager.notifyFrom (recordingBehaviour behaviour) prevState newState rounds k
        (sm, (env, log))).2.1
      = (LiveStateManager.notifyFrom behaviour prevState newState rounds k (sm, env)).2.1
    ∧ (LiveStateManager.notifyFrom (recordingBehaviour behaviour) prevState newState rounds k
        (sm, (env, log))).2.2.1
      = (LiveStateManager.notifyFrom behaviour prevState newState rounds k (sm, env)).2.2 := by
  induction rounds generalizing k sm env log with
  | zero => exact ⟨rfl, rfl, rfl⟩
  | succ rounds ih =>
    cases hget : sm.subscribers.get? k with
    | none =>
      simp only [LiveStateManager.notifyFrom, hget]
      exact ih (k + 1) sm env log
    | some callback =>
      rw [notifyFrom_succ _ _ _ _ _ _ callback hget, notifyFrom_succ _ _ _ _ _ _ callback hget]
      exact ih (k + 1) _ _ _

theorem notifyFrom_spec (behaviour : Behaviour ε) (prevState newState : JsObj)
    (subs : List Nat)
    (hlist : ∀ i ∈ subs, ∀ n q (s : LiveStateManager × ε),
      (behaviour i n q s).2.1.subscribers = s.1.subscribers)
    (rounds k : Nat) (sm : LiveStateManager) (env : ε) (log : List CallRecord)
    (hsubs : sm.subscribers = subs) (hk : rounds + k = subs.length) :
    (LiveStateManager.notifyFrom (recordingBehaviour behaviour) prevState newState rounds k
        (sm, (env, log))).1 = .ok ()
    ∧ (LiveStateManager.notifyFrom (recordingBehaviour behaviour) prevState newState rounds k
        (sm, (env, log))).2.1.subscribers = subs
    ∧ (LiveStateManager.notifyFrom (recordingBehaviour behaviour) prevState newState rounds k
        (sm, (env, log))).2.2.2
      = log ++ (subs.drop k).map (fun i => { ident := i, newState, prevState })
    ∧ ((∀ i ∈ subs, ∀ n q (s : LiveStateManager × ε),
          (behaviour i n q s).2.1.state = s.1.state) →
        (LiveStateManager.notifyFrom (recordingBehaviour behaviour) prevState newState rounds k
          (sm, (env, log))).2.1.state = sm.state) := by
  induction rounds generalizing k sm env log with
  | zero =>
    have hdrop : subs.drop k = [] := List.drop_eq_nil_of_le (by omega)
    simp [LiveStateManager.notifyFrom, Js.ret_apply, hsubs, hdrop]
  | succ rounds ih =>
    have hlt : k < subs.length := by omega
    have hget : sm.subscribers.get? k = some (subs.get ⟨k, hlt⟩) := by
      rw [hsubs]
      exact List.get?_eq_get hlt
    have hmem : subs.get ⟨k, hlt⟩ ∈ subs := List.get_mem _ _ _
    rw [notifyFrom_succ _ _ _ _ _ _ _ hget]
    have hnext := ih (k + 1)
      (behaviour (subs.get ⟨k, hlt⟩) newState prevState (sm, env)).2.1
      (behaviour (subs.get ⟨k, hlt⟩) newState prevState (sm, env)).2.2
      (log ++ [{ ident := subs.get ⟨k, hlt⟩, newState, prevState }])
      ((hlist _ hmem _ _ _).trans hsubs) (by omega)
    have hstep : (recordingBehaviour behaviour (subs.get ⟨k, hlt⟩) newState prevState
        (sm, (env, log))).2
        = ((behaviour (subs.get ⟨k, hlt⟩) newState prevState (sm, env)).2.1,
            ((behaviour (subs.get ⟨k, hlt⟩) newState prevState (sm, env)).2.2,
              log ++ [{ ident := subs.get ⟨k, hlt⟩, newState, prevState }])) := rfl
    rw [hstep]
    refine ⟨hnext.1, hnext.2.1, ?_, ?_⟩
    · rw [hnext.2.2.1, List.append_assoc, List.drop_eq_getElem_cons hlt]
      rfl
    · intro hstate
      rw [hnext.2.2.2 hstate]
      exact hstate _ hmem _ _ _

theorem setState_live_apply (behaviour : Behaviour ε) (p : JsObj) (sm : LiveStateManager)
    (env : ε) :
    LiveStateManager.setState behaviour p (sm, env)
      = LiveStateManager.notifyFrom behaviour sm.state (spread sm.state p) sm.subscribers.length 0
          ({ sm with state := spread sm.state p }, env) := by
  simp only [LiveStateManager.setState, LiveStateManager.notifySubscribers, Js.bind_apply,
    Js.read_apply, Js.update_apply]

/-- For subscribers that leave the state manager alone, the loop over the array
as it is at each round is the loop over the subscribers of the call: the state
manager with subscribers that act on the world outside it does what this one
does. -/
theorem live_setState_refines (subs : List (Callback ε)) (behaviour : Behaviour ε)
    (hb : ∀ c ∈ subs, ∀ n q (s : LiveStateManager × ε),
      behaviour c.ident n q s = ((c.call n q s.2).1, (s.1, (c.call n q s.2).2)))
    (state p : JsObj) (env : ε) (initialized : Bool) :
    (LiveStateManager.setState behaviour p
        ({ state := state, subscribers := subs.map (fun c => c.ident) }, env)).1
      = (StateManager.setState p
          ({ state := state, subscribers := subs, initialized := initialized }, env)).1
    ∧ (LiveStateManager.setState behaviour p
        ({ state := state, subscribers := subs.map (fun c => c.ident) }, env)).2.1.state
      = (StateManager.setState p
          ({ state := state, subscribers := subs, initialized := initialized }, env)).2.1.state
    ∧ (LiveStateManager.setState behaviour p
        ({ state := state, subscribers := subs.map (fun c => c.ident) }, env)).2.1.subscribers
      = ((StateManager.setState p
          ({ state := state, subscribers := subs, initialized := initialized },
            env)).2.1.subscribers).map (fun c => c.ident)
    ∧ (LiveStateManager.setState behaviour p
        ({ state := state, subscribers := subs.map (fun c => c.ident) }, env)).2.2
      = (StateManager.setState p
          ({ state := state, subscribers := subs, initialized := initialized }, env)).2.2 := by
  have key : ∀ (rounds k : Nat) (e : ε), rounds + k = subs.length →
      LiveStateManager.notifyFrom behaviour state (spread state p) rounds k
          ({ state := spread state p, subscribers := subs.map (fun c => c.ident) }, e)
        = (.ok (), ({ state := spread state p, subscribers := subs.map (fun c => c.ident) },
            runCallbacks (subs.drop k) (spread state p) state e)) := by
    intro rounds
    induction rounds with
    | zero =>
      intro k e hk
      have hdrop : subs.drop k = [] := List.drop_eq_nil_of_le (by omega)
      simp [LiveStateManager.notifyFrom, Js.ret_apply, hdrop, runCallbacks]
    | succ rounds ih =>
      intro k e hk
      have hlt : k < subs.length := by omega
      have hget : (subs.map (fun c => c.ident)).get? k = some (subs.get ⟨k, hlt⟩).ident := by
        simp [List.getElem?_eq_getElem hlt]
      rw [notifyFrom_succ _ _ _ _ _ _ _ hget, hb _ (List.get_mem _ _ _)]
      rw [ih (k + 1) _ (by omega), List.drop_eq_getElem_cons hlt]
      rfl
  rw [setState_live_apply, setState_eq]
  simp only [List.length_map]
  rw [key subs.length 0 env (by omega)]
  exact ⟨rfl, rfl, rfl, rfl⟩

/-- C6: with the functions 0 and 3 subscribed in this order, function 0
unsubscribing itself when it is called: one call of `setState` calls function 0
and does not call function 3, although function 3 is subscribed when
`setState` is called and while it runs; the next call of `setState` calls
function 3. The same with function 4, which unsubscribes itself and throws, in
the place of function 0. For every list of subscribers none of which
subscribes or unsubscribes while it is notified, the calls recorded during one
`setState(p)` are one per subscriber, in the order of the array, each with the
merged state and the state before the call. -/
theorem setState_skips_after_unsubscribing_subscriber :
    (∀ depth : Nat,
      LiveStateManager.setState (exampleBehaviour (depth + 1)) [("a", int 1)]
          ({ state := [], subscribers := [0, 3] }, [])
        = (.ok (), ({ state := [("a", int 1)], subscribers := [3] }, [0])))
    ∧ (∀ depth : Nat,
        LiveStateManager.setState (exampleBehaviour (depth + 1)) [("a", int 2)]
            ({ state := [("a", int 1)], subscribers := [3] }, [0])
          = (.ok (), ({ state := [("a", int 2)], subscribers := [3] }, [0, 3])))
    ∧ (∀ depth : Nat,
        LiveStateManager.setState (exampleBehaviour (depth + 1)) [("a", int 1)]
            ({ state := [], subscribers := [4, 3] }, [])
          = (.ok (), ({ state := [("a", int 1)], subscribers := [3] }, [4])))
    ∧ ∀ (world : Type) (behaviour : Behaviour world) (sm : LiveStateManager) (p : JsObj)
        (env : world) (log : List CallRecord),
        (∀ i ∈ sm.subscribers, ∀ n q (s : LiveStateManager × world),
          (behaviour i n q s).2.1.subscribers = s.1.subscribers) →
        (LiveStateManager.setState (recordingBehaviour behaviour) p (sm, (env, log))).2.2.2
          = log ++ sm.subscribers.map (fun i =>
              { ident := i, newState := spread sm.state p, prevState := sm.state }) := by
  refine ⟨fun _ => rfl, fun _ => rfl, fun _ => rfl, ?_⟩
  intro world behaviour sm p env log hlist
  rw [setState_live_apply]
  exact (notifyFrom_spec behaviour sm.state (spread sm.state p) sm.subscribers hlist
    sm.subscribers.length 0 { sm with state := spread sm.state p } env log rfl (by omega)).2.2.1

/-- Counterexample to C7 as stated: with the functions 1, 2 and 3 subscribed,
function 1 throwing and function 2 calling `setState` with `b: 2` when the new
state has no `b`: `setState` with `a: 1` on the empty state ends normally and
calls the three functions, and the state it leaves has `b: 2`, which the merge
of the previous state with `a: 1` has not. -/
theorem setState_state_set_by_subscriber :
    (∀ depth : Nat,
      LiveStateManager.setState (exampleBehaviour (depth + 2)) [("a", int 1)]
          ({ state := [], subscribers := [1, 2, 3] }, [])
        = (.ok (),
            ({ state := [("a", int 1), ("b", int 2)], subscribers := [1, 2, 3] },
              [1, 2, 1, 2, 3, 3])))
    ∧ spread [] [("a", int 1)] = [("a", int 1)]
    ∧ (spread [] [("a", int 1)]).lookup "b" = none
    ∧ List.lookup "b" [("a", int 1), ("b", int 2)] = some (int 2) :=
  ⟨fun _ => rfl, rfl, rfl, rfl⟩

/-- C7 as amended: for every list of subscribers none of which subscribes or
unsubscribes while it is notified, whatever else they do and whichever of them
throw, `setState(p)` ends normally, the array of subscribers is what it was,
and the calls recorded are one per subscriber, in the order of the array: those
before a subscriber that throws and those after it. When moreover no subscriber
sets state while it is notified, the state is the merge of the previous state
with `p`. The log beside the world changes nothing to what the call does to the
manager and to the world. -/
theorem setState_isolates_throwing_subscribers (behaviour : Behaviour ε)
    (sm : LiveStateManager) (p : JsObj) (env : ε) (log : List CallRecord)
    (hlist : ∀ i ∈ sm.subscribers, ∀ n q (s : LiveStateManager × ε),
      (behaviour i n q s).2.1.subscribers = s.1.subscribers) :
    (LiveStateManager.setState behaviour p (sm, env)).1 = .ok ()
    ∧ (LiveStateManager.setState behaviour p (sm, env)).2.1.subscribers = sm.subscribers
    ∧ (LiveStateManager.setState (recordingBehaviour behaviour) p (sm, (env, log))).2.2.2
        = log ++ sm.subscribers.map (fun i =>
            { ident := i, newState := spread sm.state p, prevState := sm.state })
    ∧ (∀ before thrower after, sm.subscribers = before ++ thrower :: after →
        ((LiveStateManager.setState (recordingBehaviour behaviour) p
            (sm, (env, log))).2.2.2.map (fun r => r.ident)
          = log.map (fun r => r.ident) ++ before ++ thrower :: after))
    ∧ (LiveStateManager.setState (recordingBehaviour behaviour) p (sm, (env, log))).2.1
        = (LiveStateManager.setState behaviour p (sm, env)).2.1
    ∧ (LiveStateManager.setState (recordingBehaviour behaviour) p (sm, (env, log))).2.2.1
        = (LiveStateManager.setState behaviour p (sm, env)).2.2
    ∧ ((∀ i ∈ sm.subscribers, ∀ n q (s : LiveStateManager × ε),
          (behaviour i n q s).2.1.state = s.1.state) →
        (LiveStateManager.setState behaviour p (sm, env)).2.1.state = spread sm.state p) := by
  have hspec := notifyFrom_spec behaviour sm.state (spread sm.state p) sm.subscribers hlist
    sm.subscribers.length 0 { sm with state := spread sm.state p } env log rfl (by omega)
  have hrec := notifyFrom_recording behaviour sm.state (spread sm.state p)
    sm.subscribers.length 0 { sm with state := spread sm.state p } env log
  rw [setState_live_apply, setState_live_apply]
  refine ⟨hrec.1 ▸ hspec.1, ?_, hspec.2.2.1, ?_, hrec.2.1, hrec.2.2, ?_⟩
  · rw [← hrec.2.1]
    exact hspec.2.1
  · intro before thrower after hsplit
    rw [hspec.2.2.1, hsplit]
    simp [Function.comp_def]
  · intro hstate
    rw [← hrec.2.1]
    exact hspec.2.2.2 hstate

/-- Witness of C7 as amended: function 1, which throws, between the functions 3
and 5, which do not: the three are called, in this order. -/
theorem setState_isolates_throwing_subscribers_witness :
    (exampleBehaviour 1 1 [("a", int 1)] [] ({ state := [], subscribers := [3, 1, 5] }, [])).1
        = .error (.typeError "subscriber failed")
    ∧ (LiveStateManager.setState (exampleBehaviour 1) [("a", int 1)]
        ({ state := [], subscribers := [3, 1, 5] }, [])).1 = .ok ()
    ∧ (LiveStateManager.setState (recordingBehaviour (exampleBehaviour 1)) [("a", int 1)]
        ({ state := [], subscribers := [3, 1, 5] }, ([], []))).2.2.2.map (fun r => r.ident)
        = [3, 1, 5] :=
  ⟨rfl,
   (setState_isolates_throwing_subscribers (exampleBehaviour 1)
      { state := [], subscribers := [3, 1, 5] } [("a", int 1)] [] []
      (by
        intro i hi n q s
        simp only [List.mem_cons, List.mem_singleton, List.not_mem_nil, or_false] at hi
        rcases hi with h | h | h <;> subst h <;> rfl)).1,
   ((setState_isolates_throwing_subscribers (exampleBehaviour 1)
      { state := [], subscribers := [3, 1, 5] } [("a", int 1)] [] []
      (by
        intro i hi n q s
        simp only [List.mem_cons, List.mem_singleton, List.not_mem_nil, or_false] at hi
        rcases hi with h | h | h <;> subst h <;> rfl)).2.2.2.1 [3] 1 [5] rfl).trans rfl⟩

end

end DatasetUtility
